import Mathlib

/-!
The gltf-viewer: resource builder, IBL precomputation, scene traversal and frame driver.

A shallow embedding of `apps/gltf-viewer/ViewerApplication.cpp`.

* Every OpenGL call of the source becomes one `Ev` in a trace, in program order; the
  arguments recorded are the values of the argument expressions as written in the source
  (the count of a `glGen*` call is recorded as the `GLsizei` the callee receives, since it
  decides how many names are written).
* Every `operator[]` on one of the scene tables becomes an `Ev.read`; an index outside the
  table is undefined behaviour in the source and a `Fault` here.
* Object names handed out by `glGen*` come from a counter threaded through the `GLM` monad.
* Matrices and vectors computed with glm are kept as symbolic terms (`Mat4`, `Vec3`).
* `float` and `double` values are dyadic numbers with exact arithmetic; an operation whose
  exact result does not fit the format is a `Fault` (rounding is outside the embedding).
* What the outside world answers during `run` (the result of the loader, the number of
  frames until the window is closed, the state the GUI leaves) is a `Host`; the calls of
  the image helpers and of the window library are recorded as single events.
-/

namespace GltfViewer

/-! ## Machine integers -/

/-- Conversion of an unsigned size to `GLsizei` (32-bit signed `int`), as done by the casts
`(GLsizei) offset` and by passing a `size_t` for a `GLsizei` parameter: the value is wrapped
modulo `2^32` into `[-2^31, 2^31)`. -/
def toGLsizei (n : Nat) : Int :=
  if n % 2 ^ 32 < 2 ^ 31 then ((n % 2 ^ 32 : Nat) : Int) else ((n % 2 ^ 32 : Nat) : Int) - 2 ^ 32

/-- Conversion of a signed integer to `size_t` (64-bit unsigned), as done when an `int` or a
`GLsizei` is compared with or added to a `size_t`. -/
def toSizeT (i : Int) : Nat :=
  (i % 2 ^ 64).toNat

/-- Addition of two `size_t` values. -/
def addSizeT (a b : Nat) : Nat :=
  (a + b) % 2 ^ 64

/-! ## Dyadic model of `float` and `double` -/

/-- The number `man * 2 ^ exp`. Values produced by the operations below are normalised: the
mantissa is odd, or the value is `⟨0, 0⟩`. -/
structure Dyadic where
  man : Int
  exp : Int
deriving DecidableEq, Repr

namespace Dyadic

/-- Strip at most `fuel` factors of two from the mantissa. -/
def strip : Nat → Int → Int → Dyadic
  | 0, m, e => ⟨m, e⟩
  | fuel + 1, m, e => if m % 2 = 0 then strip fuel (m / 2) (e + 1) else ⟨m, e⟩

/-- Normal form of `m * 2 ^ e`. -/
def normalize (m e : Int) : Dyadic :=
  if m = 0 then ⟨0, 0⟩ else strip m.natAbs m e

/-- Number of binary digits of `n`, by at most `fuel` halvings. -/
def bitLength : Nat → Nat → Nat
  | 0, _ => 0
  | fuel + 1, n => if n = 0 then 0 else bitLength fuel (n / 2) + 1

/-- Whether a normalised value is a finite number of the binary format with `p` significand
bits and exponent range `[emin, emax]`. -/
def fits (p : Nat) (emin emax : Int) (d : Dyadic) : Bool :=
  d.man = 0 ||
    (decide (d.man.natAbs < 2 ^ p) && decide (emin - (p - 1) ≤ d.exp) &&
      decide ((bitLength d.man.natAbs d.man.natAbs : Int) + d.exp ≤ emax + 1))

/-- Membership in IEEE-754 binary32 (`float`). -/
def isFloat (d : Dyadic) : Bool :=
  fits 24 (-126) 127 d

/-- Membership in IEEE-754 binary64 (`double`). -/
def isDouble (d : Dyadic) : Bool :=
  fits 53 (-1022) 1023 d

/-- An integer literal or integer value as a dyadic number. -/
def ofNat (n : Nat) : Dyadic :=
  normalize n 0

/-- Exact product. -/
def mul (a b : Dyadic) : Dyadic :=
  normalize (a.man * b.man) (a.exp + b.exp)

/-- Exact quotient, when it is a dyadic number (`b` normalised and non-zero). -/
def div? (a b : Dyadic) : Option Dyadic :=
  if b.man = 0 then none
  else if a.man % b.man = 0 then some (normalize (a.man / b.man) (a.exp - b.exp))
  else none

/-- Exact power with a natural exponent. -/
def pow (a : Dyadic) (n : Nat) : Dyadic :=
  normalize (a.man ^ n) (a.exp * n)

/-- Integer part (truncation toward zero) of a non-negative value. -/
def truncNat (d : Dyadic) : Nat :=
  if 0 ≤ d.exp then d.man.toNat * 2 ^ d.exp.toNat else d.man.toNat / 2 ^ (-d.exp).toNat

/-- The rational number denoted. -/
def toRat (d : Dyadic) : ℚ :=
  (d.man : ℚ) * (2 : ℚ) ^ d.exp

/-- The constant `0.5`. -/
def half : Dyadic :=
  ⟨1, -1⟩

end Dyadic

/-! ## Symbolic glm values -/

/-- Terms denoting the `glm::mat4` values the program computes. -/
inductive Mat4 where
  /-- Source: `glm::mat4(1)` -/
  | identity
  /-- Source: `m_captureProjection` -/
  | captureProjection
  /-- Source: `m_captureViews[i]` -/
  | captureView (i : Nat)
  /-- Source: `camera.getViewMatrix()` -/
  | viewMatrix
  /-- Source: `projMatrix`, the `glm::perspective` result computed in `run` -/
  | projMatrix
  /-- Source: `getLocalToWorldMatrix(model.nodes[nodeIdx], parentMatrix)` -/
  | localToWorld (nodeIdx : Int) (parentMatrix : Mat4)
  /-- Source: `a * b` -/
  | mul (a b : Mat4)
  /-- Source: `glm::inverse(a)` -/
  | inverse (a : Mat4)
  /-- Source: `glm::transpose(a)` -/
  | transpose (a : Mat4)
deriving DecidableEq, Repr

/-- Terms denoting the `glm::vec3` values the program uploads. -/
inductive Vec3 where
  /-- Source: `camera.getDirection()` -/
  | cameraDirection
  /-- Source: `lightDirectionRaw` -/
  | lightDirectionRaw
  /-- Source: `lightRadiance` -/
  | lightRadiance
  /-- Source: `glm::normalize(v)` -/
  | normalize (v : Vec3)
deriving DecidableEq, Repr

/-- One component `v[i]` of a vector. -/
structure Vec3Comp where
  vec : Vec3
  i : Nat
deriving DecidableEq, Repr

/-! ## OpenGL enumerants used by the source -/

def GL_FALSE : Nat := 0
def GL_TRIANGLES : Nat := 0x0004
def GL_TRIANGLE_STRIP : Nat := 0x0005
def GL_DEPTH_BUFFER_BIT : Nat := 0x0100
def GL_COLOR_BUFFER_BIT : Nat := 0x4000
def GL_LEQUAL : Nat := 0x0203
def GL_DEPTH_TEST : Nat := 0x0B71
def GL_TEXTURE_2D : Nat := 0x0DE1
def GL_FLOAT : Nat := 0x1406
def GL_RGB : Nat := 0x1907
def GL_RGBA : Nat := 0x1908
def GL_LINEAR : Int := 0x2601
def GL_NEAREST_MIPMAP_NEAREST : Int := 0x2700
def GL_LINEAR_MIPMAP_NEAREST : Int := 0x2701
def GL_NEAREST_MIPMAP_LINEAR : Int := 0x2702
def GL_LINEAR_MIPMAP_LINEAR : Int := 0x2703
def GL_TEXTURE_MAG_FILTER : Nat := 0x2800
def GL_TEXTURE_MIN_FILTER : Nat := 0x2801
def GL_TEXTURE_WRAP_S : Nat := 0x2802
def GL_TEXTURE_WRAP_T : Nat := 0x2803
def GL_REPEAT : Int := 0x2901
def GL_TEXTURE_WRAP_R : Nat := 0x8072
def GL_CLAMP_TO_EDGE : Int := 0x812F
def GL_DEPTH_COMPONENT24 : Nat := 0x81A6
def GL_RG : Nat := 0x8227
def GL_RG16F : Nat := 0x822F
def GL_TEXTURE0 : Nat := 0x84C0
def GL_TEXTURE_CUBE_MAP : Nat := 0x8513
def GL_TEXTURE_CUBE_MAP_POSITIVE_X : Nat := 0x8515
def GL_RGB16F : Nat := 0x881B
def GL_TEXTURE_CUBE_MAP_SEAMLESS : Nat := 0x884F
def GL_ARRAY_BUFFER : Nat := 0x8892
def GL_ELEMENT_ARRAY_BUFFER : Nat := 0x8893
def GL_STATIC_DRAW : Nat := 0x88E4
def GL_COLOR_ATTACHMENT0 : Nat := 0x8CE0
def GL_DEPTH_ATTACHMENT : Nat := 0x8D00
def GL_FRAMEBUFFER : Nat := 0x8D40
def GL_RENDERBUFFER : Nat := 0x8D41

/-! ## Constants of the translation unit -/

def VERTEX_ATTRIB_POSITION_IDX : Nat := 0
def VERTEX_ATTRIB_NORMAL_IDX : Nat := 1
def VERTEX_ATTRIB_TEXCOORD0_IDX : Nat := 2
def SKYBOX_SIZE : Nat := 512
def IRRADIANCEMAP_SIZE : Nat := 32
def PREFILTERMAP_SIZE : Nat := 128
def BRDF_LUT_SIZE : Nat := 512

/-! ## Traces -/

/-- The vectors the program indexes with `operator[]`. -/
inductive Table where
  | accessors | bufferViews | buffers | bufferObjects
  | meshes | primitives | materials | textures | textureObjects | images | samplers
  | nodes | scenes | sceneNodes | meshIndexToVaoRange | vertexArrayObjects
  | baseColorFactor | emissiveFactor
deriving DecidableEq, Repr

/-- Pixel data handed to `glTexImage2D`. -/
inductive Pixels where
  /-- Source: `nullptr` / `0` -/
  | null
  /-- The buffer returned by `stbi_loadf` -/
  | envData
  /-- The local array `white` -/
  | white
  /-- The local array `grey` -/
  | grey
  /-- Source: `model.images[i].image.data()` -/
  | image (i : Int)
deriving DecidableEq, Repr

/-- A scalar passed to `glUniform*f`. -/
inductive Scalar where
  /-- A numeric value -/
  | num (d : Dyadic)
  /-- A component `v[i]` of a glm vector -/
  | comp (v : Vec3) (i : Nat)
deriving DecidableEq, Repr

/-- Observable steps of the program: table lookups and calls into OpenGL and the helper
libraries, with the arguments of the source. -/
inductive Ev where
  | read (t : Table) (i : Int)
  | glEnable (cap : Nat)
  | glDepthFunc (func : Nat)
  | glGenTextures (n : Int) (names : List Nat)
  | glGenFramebuffers (n : Int) (names : List Nat)
  | glGenRenderbuffers (n : Int) (names : List Nat)
  | glGenBuffers (n : Int) (names : List Nat)
  | glGenVertexArrays (n : Int) (names : List Nat)
  | glBindTexture (target texture : Nat)
  | glActiveTexture (texture : Nat)
  | glTexImage2D (target : Nat) (level : Int) (internalformat : Nat) (width height : Int)
      (border : Int) (format type : Int) (data : Pixels)
  | glTexParameteri (target pname : Nat) (param : Int)
  | glGenerateMipmap (target : Nat)
  | glBindFramebuffer (target framebuffer : Nat)
  | glBindRenderbuffer (target renderbuffer : Nat)
  | glRenderbufferStorage (target internalformat : Nat) (width height : Int)
  | glFramebufferRenderbuffer (target attachment renderbuffertarget renderbuffer : Nat)
  | glFramebufferTexture2D (target attachment textarget texture : Nat) (level : Int)
  | glViewport (x y width height : Int)
  | glClear (mask : Nat)
  | compileProgram (paths : List String) (program : Nat)
  | glUseProgram (program : Nat)
  | glGetUniformLocation (program : Nat) (name : String) (location : Int)
  | glUniform1i (location : Int) (v : Int)
  | glUniform1f (location : Int) (v : Dyadic)
  | glUniform3f (location : Int) (x y z : Scalar)
  | glUniform4f (location : Int) (x y z w : Dyadic)
  | glUniform3fv (location : Int) (count : Int) (v : Vec3)
  | glUniformMatrix4fv (location : Int) (count : Int) (transpose : Nat) (m : Mat4)
  | glBindVertexArray (array : Nat)
  | glEnableVertexAttribArray (index : Nat)
  | glVertexAttribPointer (index : Nat) (size : Int) (type : Int) (normalized : Nat)
      (stride : Int) (pointer : Nat)
  | glBindBuffer (target buffer : Nat)
  | glBufferStorage (target : Nat) (size : Nat) (bufferIdx : Nat) (flags : Nat)
  | glBufferData (target : Nat) (size : Nat) (usage : Nat)
  | glDrawArrays (mode : Int) (first : Int) (count : Int)
  | glDrawElements (mode : Int) (count : Int) (type : Int) (indices : Nat)
  | renderToImage (width height numComponents : Nat)
  | flipImageYAxis (width height numComponents : Nat)
  | stbi_write_png (path : String) (width height comp : Nat) (stride : Nat)
  | allocatePixels (size : Nat)
  | imguiRenderFrame
  | glfwPollEvents
  | swapBuffers
deriving DecidableEq, Repr

/-- Undefined or unmodelled behaviour. -/
inductive Fault where
  /-- Source: `operator[]` with an index outside the vector -/
  | outOfRange (t : Table) (i : Int)
  /-- Dereference of `begin()` of an empty map -/
  | emptyMap
  /-- A floating-point result that is not exactly representable -/
  | inexact
  /-- A floating-point value outside the range of the integer type it is converted to -/
  | floatToInt
  /-- Overflow of a signed integer product -/
  | intOverflow
deriving DecidableEq, Repr

/-- The element `v[i]` for a signed index, if `i` is an index of `v`. -/
def at? {α : Type} (v : List α) (i : Int) : Option α :=
  if i < 0 then none else v[i.toNat]?

/-- Computations that emit a trace and draw fresh object names from a counter. -/
def GLM (α : Type) : Type :=
  Nat → Except Fault (α × List Ev × Nat)

namespace GLM

/-- Return a value without any effect. -/
def ret {α : Type} (a : α) : GLM α :=
  fun n => .ok (a, [], n)

/-- Sequencing: the traces are concatenated and the counter is threaded. -/
def andThen {α β : Type} (m : GLM α) (f : α → GLM β) : GLM β :=
  fun n =>
    match m n with
    | .error e => .error e
    | .ok (a, t, n1) =>
      match f a n1 with
      | .error e => .error e
      | .ok (b, u, n2) => .ok (b, t ++ u, n2)

instance : Monad GLM where
  pure := ret
  bind := andThen

/-- Stop with undefined behaviour. -/
def fault {α : Type} (e : Fault) : GLM α :=
  fun _ => .error e

/-- Record one event. -/
def emit (e : Ev) : GLM Unit :=
  fun n => .ok ((), [e], n)

/-- Take `k` consecutive unused object names. -/
def fresh (k : Nat) : GLM (List Nat) :=
  fun n => .ok ((List.range k).map (fun j => n + j), [], n + k)

/-- A `v[i]` on table `t`: recorded, and a fault when `i` is not an index of `v`. -/
def index {α : Type} (t : Table) (v : List α) (i : Int) : GLM α :=
  fun n =>
    match at? v i with
    | some x => .ok (x, [Ev.read t i], n)
    | none => .error (.outOfRange t i)

/-- The trace of a computation started with counter `n` (empty on a fault). -/
def trace {α : Type} (m : GLM α) (n : Nat) : List Ev :=
  match m n with
  | .ok (_, t, _) => t
  | .error _ => []

/-- The value a computation returns when started with counter `n`, if it does not fault. -/
def result {α : Type} (m : GLM α) (n : Nat) : Option α :=
  match m n with
  | .ok (a, _, _) => some a
  | .error _ => none

/-- The fault a computation started with counter `n` stops with, if it faults. -/
def fault? {α : Type} (m : GLM α) (n : Nat) : Option Fault :=
  match m n with
  | .ok _ => none
  | .error e => some e

end GLM

/-- Number of names a `glGen*` call with count argument `n` writes (none for a negative count,
which is a `GL_INVALID_VALUE` error). -/
def genCount (n : Int) : Nat :=
  if n < 0 then 0 else n.toNat

/-! ## The scene graph (the tinygltf types, restricted to the members the source uses) -/

structure Accessor where
  bufferView : Int
  byteOffset : Nat
  componentType : Int
  count : Nat
  type : Int
deriving DecidableEq, Repr

structure BufferView where
  buffer : Int
  byteOffset : Nat
  byteStride : Nat
deriving DecidableEq, Repr

structure Buffer where
  data : List Nat
deriving DecidableEq, Repr

/-- A mesh primitive. `attributes` is the `std::map<std::string, int>` as the list of its
entries in iteration order (ascending, distinct keys). -/
structure Primitive where
  attributes : List (String × Int)
  material : Int
  indices : Int
  mode : Int
deriving DecidableEq, Repr

structure Mesh where
  primitives : List Primitive
deriving DecidableEq, Repr

structure Node where
  mesh : Int
  children : List Int
deriving DecidableEq, Repr

structure Scene where
  nodes : List Int
deriving DecidableEq, Repr

structure Texture where
  sampler : Int
  source : Int
deriving DecidableEq, Repr

structure Image where
  width : Int
  height : Int
  pixel_type : Int
deriving DecidableEq, Repr

structure Sampler where
  minFilter : Int
  magFilter : Int
  wrapS : Int
  wrapT : Int
  wrapR : Int
deriving DecidableEq, Repr

structure TextureInfo where
  index : Int
deriving DecidableEq, Repr

structure NormalTextureInfo where
  index : Int
  scale : Dyadic
deriving DecidableEq, Repr

structure OcclusionTextureInfo where
  index : Int
  strength : Dyadic
deriving DecidableEq, Repr

structure PbrMetallicRoughness where
  baseColorFactor : List Dyadic
  baseColorTexture : TextureInfo
  metallicFactor : Dyadic
  roughnessFactor : Dyadic
  metallicRoughnessTexture : TextureInfo
deriving DecidableEq, Repr

structure Material where
  emissiveFactor : List Dyadic
  pbrMetallicRoughness : PbrMetallicRoughness
  normalTexture : NormalTextureInfo
  occlusionTexture : OcclusionTextureInfo
  emissiveTexture : TextureInfo
deriving DecidableEq, Repr

structure Model where
  accessors : List Accessor
  bufferViews : List BufferView
  buffers : List Buffer
  meshes : List Mesh
  materials : List Material
  textures : List Texture
  images : List Image
  samplers : List Sampler
  nodes : List Node
  scenes : List Scene
  defaultScene : Int
deriving DecidableEq, Repr

/-- A span of `vertexArrayObjects` (declared in `ViewerApplication.hpp`; both members are
`GLsizei`). -/
structure VaoRange where
  begin : Int
  count : Int
deriving DecidableEq, Repr

/-! ## Loops and vectors -/

/-- The loop `for (size_t i = start; i < start + count; ++i) s = body(i, s);`. -/
def loopFrom {σ : Type} (body : Nat → σ → GLM σ) : Nat → Nat → σ → GLM σ
  | 0, _, s => pure s
  | count + 1, i, s => do
    let s1 ← body i s
    loopFrom body count (i + 1) s1

/-- The call `v.resize(n)` of a `std::vector` whose new elements are value-initialised to `d`. -/
def resize {α : Type} (v : List α) (n : Nat) (d : α) : List α :=
  v.take n ++ List.replicate (n - v.length) d

/-- Overwrite `v[offset ..]` with `names`, as a `glGen*` call writing through
`v.data() + offset`. -/
def writeAt (v : List Nat) (offset : Nat) (names : List Nat) : List Nat :=
  v.take offset ++ names ++ v.drop (offset + names.length)

/-! ## Members of `ViewerApplication` read by the translated functions -/

/-- The data members of the application object. The four object names are written by
`initCube` and `initQuad`; the file names are fixed at construction. -/
structure App where
  m_nWindowWidth : Nat
  m_nWindowHeight : Nat
  m_unitCubeVAO : Nat
  m_unitCubeVBO : Nat
  m_quadVAO : Nat
  m_quadVBO : Nat
  m_vertexShader : String
  m_fragmentShader : String
  m_skyboxVertexShader : String
  m_skyboxFragmentShader : String
  m_cubemapVertexShader : String
  m_cubemapFragmentShader : String
  m_irradianceFragmentShader : String
  m_prefilterFragmentShader : String
  m_integrateVertexShader : String
  m_integrateFragmentShader : String
  /-- Whether `m_cubeMapFilePath` is non-empty -/
  hasCubeMapFilePath : Bool
  /-- Whether `m_OutputPath` is non-empty, and its string -/
  m_OutputPath : String
deriving DecidableEq, Repr

/-- What the environment answers: the shader compiler, the uniform locations of a linked
program, the image loader and the scene loader. -/
structure Env where
  /-- Name of the program `compileProgram` returns for the given shader files -/
  compileProgram : List String → Nat
  /-- Result of `glGetUniformLocation(program, name)` -/
  uniformLocation : Nat → String → Int
  /-- Result of `stbi_loadf` on the environment image: its width and height, if it loads -/
  envImage : Option (Int × Int)

/-- The helper `compileProgram({vs, fs})` followed by nothing else; returns the program name. -/
def compileProgram (env : Env) (paths : List String) : GLM Nat := do
  let prog := env.compileProgram paths
  GLM.emit (.compileProgram paths prog)
  pure prog

/-- The call `glGetUniformLocation(program, name)`. -/
def glGetUniformLocation (env : Env) (program : Nat) (name : String) : GLM Int := do
  let loc := env.uniformLocation program name
  GLM.emit (.glGetUniformLocation program name loc)
  pure loc

/-! ## GPU resource builder -/

/-- Source: `ViewerApplication::createBufferObjects` -/
def createBufferObjects (model : Model) : GLM (List Nat) := do
  let len := model.buffers.length
  let bo0 := List.replicate len 0
  let n := toGLsizei len
  let names ← GLM.fresh (genCount n)
  GLM.emit (.glGenBuffers n names)
  let bo := writeAt bo0 0 names
  loopFrom (fun i (_ : Unit) => do
      let b ← GLM.index .bufferObjects bo i
      GLM.emit (.glBindBuffer GL_ARRAY_BUFFER b)
      let buf ← GLM.index .buffers model.buffers i
      let _ ← GLM.index .buffers model.buffers i
      GLM.emit (.glBufferStorage GL_ARRAY_BUFFER buf.data.length i 0)) len 0 ()
  GLM.emit (.glBindBuffer GL_ARRAY_BUFFER 0)
  pure bo

/-- Source: `vao_init`: wire the attribute named `str` of `primitive` to slot `index`. -/
def vao_init (model : Model) (primitive : Primitive) (bufferObjects : List Nat)
    (str : String) (index : Nat) : GLM Unit :=
  match primitive.attributes.lookup str with
  | none => pure ()
  | some accessorIdx => do
    let accessor ← GLM.index .accessors model.accessors accessorIdx
    let bufferView ← GLM.index .bufferViews model.bufferViews accessor.bufferView
    let bufferIdx := bufferView.buffer
    let _bufferObject ← GLM.index .buffers model.buffers bufferIdx
    GLM.emit (.glEnableVertexAttribArray index)
    let bo ← GLM.index .bufferObjects bufferObjects bufferIdx
    GLM.emit (.glBindBuffer GL_ARRAY_BUFFER bo)
    let byteOffset := addSizeT bufferView.byteOffset accessor.byteOffset
    GLM.emit (.glVertexAttribPointer index accessor.type accessor.componentType GL_FALSE
      bufferView.byteStride byteOffset)

/-- The body of the inner loop of `createVertexArrayObjects` (source lines 704-716) for
primitive `k` of mesh `i`. -/
def initPrimitive (model : Model) (bufferObjects : List Nat) (vertexArrayObjects : List Nat)
    (i offset k : Nat) : GLM Unit := do
  let vao ← GLM.index .vertexArrayObjects vertexArrayObjects (addSizeT offset k)
  GLM.emit (.glBindVertexArray vao)
  let mesh ← GLM.index .meshes model.meshes i
  let primitive ← GLM.index .primitives mesh.primitives k
  vao_init model primitive bufferObjects "POSITION" VERTEX_ATTRIB_POSITION_IDX
  vao_init model primitive bufferObjects "NORMAL" VERTEX_ATTRIB_NORMAL_IDX
  vao_init model primitive bufferObjects "TEXCOORD_0" VERTEX_ATTRIB_TEXCOORD0_IDX
  if primitive.indices ≥ 0 then do
    let accessor ← GLM.index .accessors model.accessors primitive.indices
    let bufferView ← GLM.index .bufferViews model.bufferViews accessor.bufferView
    let bo ← GLM.index .bufferObjects bufferObjects bufferView.buffer
    GLM.emit (.glBindBuffer GL_ELEMENT_ARRAY_BUFFER bo)
  else
    pure ()

/-- The two vectors `createVertexArrayObjects` builds. -/
structure VaoTables where
  vertexArrayObjects : List Nat
  meshIndexToVaoRange : List VaoRange
deriving DecidableEq, Repr

/-- The body of the outer loop of `createVertexArrayObjects` (source lines 693-717) for
mesh `i`. -/
def initMesh (model : Model) (bufferObjects : List Nat) (i : Nat) (st : VaoTables) :
    GLM VaoTables := do
  let offset := st.vertexArrayObjects.length
  let mesh ← GLM.index .meshes model.meshes i
  let primitive_len := mesh.primitives.length
  let r0 ← GLM.index .meshIndexToVaoRange st.meshIndexToVaoRange i
  let ranges1 := st.meshIndexToVaoRange.set i { r0 with begin := toGLsizei offset }
  let r1 ← GLM.index .meshIndexToVaoRange ranges1 i
  let ranges2 := ranges1.set i { r1 with count := toGLsizei primitive_len }
  let resized := resize st.vertexArrayObjects (addSizeT offset primitive_len) 0
  let n := toGLsizei primitive_len
  let names ← GLM.fresh (genCount n)
  GLM.emit (.glGenVertexArrays n names)
  let vaos := writeAt resized offset names
  loopFrom (fun k (_ : Unit) => initPrimitive model bufferObjects vaos i offset k)
    primitive_len 0 ()
  pure { vertexArrayObjects := vaos, meshIndexToVaoRange := ranges2 }

/-- Source: `ViewerApplication::createVertexArrayObjects`; the `meshIndexToVaoRange` argument
is the vector passed by reference, and the result holds its final value together with the
returned vector. -/
def createVertexArrayObjects (model : Model) (bufferObjects : List Nat)
    (meshIndexToVaoRange : List VaoRange) : GLM VaoTables := do
  let mesh_len := model.meshes.length
  let ranges := resize meshIndexToVaoRange mesh_len { begin := 0, count := 0 }
  let st ← loopFrom (initMesh model bufferObjects) mesh_len 0
    { vertexArrayObjects := [], meshIndexToVaoRange := ranges }
  GLM.emit (.glBindVertexArray 0)
  pure st

/-- The sampler `defaultSampler` of `createTextureObjects`. -/
def defaultSampler : Sampler :=
  { minFilter := GL_LINEAR, magFilter := GL_LINEAR, wrapS := GL_REPEAT, wrapT := GL_REPEAT,
    wrapR := GL_REPEAT }

/-- Source lines 761-763 of `createTextureObjects`: the sampler of a texture, or the
default one. -/
def resolveSampler (model : Model) (texture : Texture) : GLM Sampler :=
  if texture.sampler ≥ 0 then GLM.index .samplers model.samplers texture.sampler
  else pure defaultSampler

/-- Source lines 789-795 of `createTextureObjects`. -/
def generateMipmapIfRequested (sampler : Sampler) : GLM Unit :=
  if sampler.minFilter = GL_NEAREST_MIPMAP_NEAREST ∨ sampler.minFilter = GL_NEAREST_MIPMAP_LINEAR
      ∨ sampler.minFilter = GL_LINEAR_MIPMAP_NEAREST
      ∨ sampler.minFilter = GL_LINEAR_MIPMAP_LINEAR then
    GLM.emit (.glGenerateMipmap GL_TEXTURE_2D)
  else
    pure ()

/-- The body of the loop of `createTextureObjects` (source lines 732-795) for texture `i`;
a failing `assert(texture.source >= 0)` is the out-of-range read of `model.images`. -/
def initTexture (model : Model) (i : Nat) (textureObjects : List Nat) : GLM (List Nat) := do
  let _ ← GLM.index .textureObjects textureObjects i
  let names ← GLM.fresh 1
  GLM.emit (.glGenTextures 1 names)
  let textureObjects := writeAt textureObjects i names
  let t ← GLM.index .textureObjects textureObjects i
  GLM.emit (.glBindTexture GL_TEXTURE_2D t)
  let texture ← GLM.index .textures model.textures i
  let image ← GLM.index .images model.images texture.source
  GLM.emit (.glTexImage2D GL_TEXTURE_2D 0 GL_RGBA image.width image.height 0 GL_RGBA
    image.pixel_type (.image texture.source))
  let sampler ← resolveSampler model texture
  GLM.emit (.glTexParameteri GL_TEXTURE_2D GL_TEXTURE_MIN_FILTER
    (if sampler.minFilter ≠ -1 then sampler.minFilter else GL_LINEAR))
  GLM.emit (.glTexParameteri GL_TEXTURE_2D GL_TEXTURE_MAG_FILTER
    (if sampler.magFilter ≠ -1 then sampler.magFilter else GL_LINEAR))
  GLM.emit (.glTexParameteri GL_TEXTURE_2D GL_TEXTURE_WRAP_S sampler.wrapS)
  GLM.emit (.glTexParameteri GL_TEXTURE_2D GL_TEXTURE_WRAP_T sampler.wrapT)
  GLM.emit (.glTexParameteri GL_TEXTURE_2D GL_TEXTURE_WRAP_R sampler.wrapR)
  generateMipmapIfRequested sampler
  pure textureObjects

/-- Source: `ViewerApplication::createTextureObjects` -/
def createTextureObjects (model : Model) : GLM (List Nat) := do
  let count := model.textures.length
  let textureObjects ← loopFrom (initTexture model) count 0 (List.replicate count 0)
  GLM.emit (.glBindTexture GL_TEXTURE_2D 0)
  pure textureObjects

/-! ## Procedural geometry helpers -/

/-- Source: `ViewerApplication::renderCube` -/
def renderCube (app : App) : GLM Unit := do
  GLM.emit (.glBindVertexArray app.m_unitCubeVAO)
  GLM.emit (.glDrawArrays GL_TRIANGLES 0 36)
  GLM.emit (.glBindVertexArray 0)

/-- Source: `ViewerApplication::renderQuad` -/
def renderQuad (app : App) : GLM Unit := do
  GLM.emit (.glBindVertexArray app.m_quadVAO)
  GLM.emit (.glDrawArrays GL_TRIANGLE_STRIP 0 4)
  GLM.emit (.glBindVertexArray 0)

/-- A `glGen*(1, &name)` call: one fresh name, recorded with constructor `mk`. -/
def gen1 (mk : Int → List Nat → Ev) : GLM Nat := do
  let names ← GLM.fresh 1
  GLM.emit (mk 1 names)
  pure (names.headD 0)

/-- The five `glTexParameteri` calls that give a cubemap clamped wrapping and linear
filtering (source lines 137-141 and 218-222). -/
def cubeMapParameters : GLM Unit := do
  GLM.emit (.glTexParameteri GL_TEXTURE_CUBE_MAP GL_TEXTURE_WRAP_S GL_CLAMP_TO_EDGE)
  GLM.emit (.glTexParameteri GL_TEXTURE_CUBE_MAP GL_TEXTURE_WRAP_T GL_CLAMP_TO_EDGE)
  GLM.emit (.glTexParameteri GL_TEXTURE_CUBE_MAP GL_TEXTURE_WRAP_R GL_CLAMP_TO_EDGE)
  GLM.emit (.glTexParameteri GL_TEXTURE_CUBE_MAP GL_TEXTURE_MIN_FILTER GL_LINEAR)
  GLM.emit (.glTexParameteri GL_TEXTURE_CUBE_MAP GL_TEXTURE_MAG_FILTER GL_LINEAR)

/-- The loop allocating the six faces of an empty `size` x `size` cubemap. -/
def allocateFaces (size : Nat) : GLM Unit :=
  loopFrom (fun i (_ : Unit) =>
    GLM.emit (.glTexImage2D (GL_TEXTURE_CUBE_MAP_POSITIVE_X + i) 0 GL_RGB16F size size 0 GL_RGB
      GL_FLOAT .null)) 6 0 ()

/-- The body of a capture loop for face `i`: upload view matrix `i`, attach face `i` of
`texture` at mip level `level`, clear, and draw the unit cube. -/
def captureFace (app : App) (modelViewMatrixLocation : Int) (texture : Nat) (level : Int)
    (i : Nat) : GLM Unit := do
  GLM.emit (.glUniformMatrix4fv modelViewMatrixLocation 1 GL_FALSE (.captureView i))
  GLM.emit (.glFramebufferTexture2D GL_FRAMEBUFFER GL_COLOR_ATTACHMENT0
    (GL_TEXTURE_CUBE_MAP_POSITIVE_X + i) texture level)
  GLM.emit (.glClear (GL_COLOR_BUFFER_BIT ||| GL_DEPTH_BUFFER_BIT))
  renderCube app

/-- The loop `for (i = 0; i < 6; ++i)` around `captureFace`. -/
def captureFaces (app : App) (modelViewMatrixLocation : Int) (texture : Nat) (level : Int) :
    GLM Unit :=
  loopFrom (fun i (_ : Unit) => captureFace app modelViewMatrixLocation texture level i) 6 0 ()

/-! ## IBL precomputation -/

/-- Source: `ViewerApplication::loadEnvTexture` -/
def loadEnvTexture (app : App) (env : Env) : GLM Nat := do
  if app.hasCubeMapFilePath then
    match env.envImage with
    | some (width, height) => do
      let envTexture ← gen1 .glGenTextures
      GLM.emit (.glBindTexture GL_TEXTURE_2D envTexture)
      GLM.emit (.glTexImage2D GL_TEXTURE_2D 0 GL_RGB16F width height 0 GL_RGB GL_FLOAT .envData)
      GLM.emit (.glTexParameteri GL_TEXTURE_2D GL_TEXTURE_WRAP_S GL_CLAMP_TO_EDGE)
      GLM.emit (.glTexParameteri GL_TEXTURE_2D GL_TEXTURE_WRAP_T GL_CLAMP_TO_EDGE)
      GLM.emit (.glTexParameteri GL_TEXTURE_2D GL_TEXTURE_MIN_FILTER GL_LINEAR)
      GLM.emit (.glTexParameteri GL_TEXTURE_2D GL_TEXTURE_MAG_FILTER GL_LINEAR)
      pure envTexture
    | none => pure 0
  else
    pure 0

/-- Source: `ViewerApplication::loadCorrectedEnvTexture` -/
def loadCorrectedEnvTexture (app : App) (env : Env) : GLM Nat := do
  let captureFBO ← gen1 .glGenFramebuffers
  let captureRBO ← gen1 .glGenRenderbuffers
  GLM.emit (.glBindFramebuffer GL_FRAMEBUFFER captureFBO)
  GLM.emit (.glBindRenderbuffer GL_RENDERBUFFER captureRBO)
  GLM.emit (.glRenderbufferStorage GL_RENDERBUFFER GL_DEPTH_COMPONENT24 SKYBOX_SIZE SKYBOX_SIZE)
  GLM.emit (.glFramebufferRenderbuffer GL_FRAMEBUFFER GL_DEPTH_ATTACHMENT GL_RENDERBUFFER
    captureRBO)
  let envTexture ← gen1 .glGenTextures
  GLM.emit (.glBindTexture GL_TEXTURE_CUBE_MAP envTexture)
  allocateFaces SKYBOX_SIZE
  cubeMapParameters
  let glslCubemapProgram ←
    compileProgram env [app.m_cubemapVertexShader, app.m_cubemapFragmentShader]
  let cubemapEquirectangularMapLocation ←
    glGetUniformLocation env glslCubemapProgram "uEquirectangularMap"
  let cubemapModelProjMatrixLocation ←
    glGetUniformLocation env glslCubemapProgram "uModelProjMatrix"
  let cubemapModelViewMatrixLocation ←
    glGetUniformLocation env glslCubemapProgram "uModelViewMatrix"
  GLM.emit (.glUseProgram glslCubemapProgram)
  GLM.emit (.glUniform1i cubemapEquirectangularMapLocation 0)
  GLM.emit (.glUniformMatrix4fv cubemapModelProjMatrixLocation 1 GL_FALSE .captureProjection)
  GLM.emit (.glActiveTexture GL_TEXTURE0)
  let raw ← loadEnvTexture app env
  GLM.emit (.glBindTexture GL_TEXTURE_2D raw)
  GLM.emit (.glViewport 0 0 SKYBOX_SIZE SKYBOX_SIZE)
  GLM.emit (.glBindFramebuffer GL_FRAMEBUFFER captureFBO)
  captureFaces app cubemapModelViewMatrixLocation envTexture 0
  GLM.emit (.glBindFramebuffer GL_FRAMEBUFFER 0)
  pure envTexture

/-- Source: `ViewerApplication::computeIrradianceMap` -/
def computeIrradianceMap (app : App) (env : Env) (envCubemap : Nat) : GLM Nat := do
  let irradianceMap ← gen1 .glGenTextures
  GLM.emit (.glBindTexture GL_TEXTURE_CUBE_MAP irradianceMap)
  allocateFaces IRRADIANCEMAP_SIZE
  cubeMapParameters
  let captureFBO ← gen1 .glGenFramebuffers
  let captureRBO ← gen1 .glGenRenderbuffers
  GLM.emit (.glBindFramebuffer GL_FRAMEBUFFER captureFBO)
  GLM.emit (.glBindRenderbuffer GL_RENDERBUFFER captureRBO)
  GLM.emit (.glRenderbufferStorage GL_RENDERBUFFER GL_DEPTH_COMPONENT24 IRRADIANCEMAP_SIZE
    IRRADIANCEMAP_SIZE)
  GLM.emit (.glFramebufferRenderbuffer GL_FRAMEBUFFER GL_DEPTH_ATTACHMENT GL_RENDERBUFFER
    captureRBO)
  let glslIrradianceProgram ←
    compileProgram env [app.m_cubemapVertexShader, app.m_irradianceFragmentShader]
  let irradianceEnvironmentMapLocation ←
    glGetUniformLocation env glslIrradianceProgram "uEnvironmentMap"
  let irradianceModelProjMatrixLocation ←
    glGetUniformLocation env glslIrradianceProgram "uModelProjMatrix"
  let irradianceModelViewMatrixLocation ←
    glGetUniformLocation env glslIrradianceProgram "uModelViewMatrix"
  GLM.emit (.glUseProgram glslIrradianceProgram)
  GLM.emit (.glUniform1i irradianceEnvironmentMapLocation 0)
  GLM.emit (.glUniformMatrix4fv irradianceModelProjMatrixLocation 1 GL_FALSE .captureProjection)
  GLM.emit (.glActiveTexture GL_TEXTURE0)
  GLM.emit (.glBindTexture GL_TEXTURE_CUBE_MAP envCubemap)
  GLM.emit (.glViewport 0 0 IRRADIANCEMAP_SIZE IRRADIANCEMAP_SIZE)
  GLM.emit (.glBindFramebuffer GL_FRAMEBUFFER captureFBO)
  captureFaces app irradianceModelViewMatrixLocation irradianceMap 0
  GLM.emit (.glBindFramebuffer GL_FRAMEBUFFER 0)
  pure irradianceMap

/-- The local `maxMipLevels` of `prefilterEnvironmentMap`. -/
def maxMipLevels : Nat := 5

/-- A `double` result: a fault unless the exact value is a binary64 number. -/
def asDouble (d : Dyadic) : GLM Dyadic :=
  if d.isDouble then pure d else GLM.fault .inexact

/-- A `float` result: a fault unless the exact value is a binary32 number. -/
def asFloat (d : Dyadic) : GLM Dyadic :=
  if d.isFloat then pure d else GLM.fault .inexact

/-- Conversion of a `double` to `GLuint`: truncation, undefined outside `[0, 2^32)`. -/
def toGLuint (d : Dyadic) : GLM Nat :=
  if d.man < 0 ∨ 2 ^ 32 ≤ d.truncNat then GLM.fault .floatToInt else pure d.truncNat

/-- The initialiser `PREFILTERMAP_SIZE * std::pow(0.5, mip)` converted to `GLuint`. -/
def mipExtent (mip : Nat) : GLM Nat := do
  let p ← asDouble (Dyadic.pow Dyadic.half mip)
  let x ← asDouble (Dyadic.mul (Dyadic.ofNat PREFILTERMAP_SIZE) p)
  toGLuint x

/-- The argument `(float) mip / (float) (maxMipLevels - 1)` (the subtraction is on `GLuint`). -/
def mipRoughness (mip : Nat) : GLM Dyadic := do
  let a ← asFloat (Dyadic.ofNat mip)
  let b ← asFloat (Dyadic.ofNat ((maxMipLevels + 2 ^ 32 - 1) % 2 ^ 32))
  match Dyadic.div? a b with
  | some q => asFloat q
  | none => GLM.fault .inexact

/-- The body of the mip loop of `prefilterEnvironmentMap` (source lines 382-410). -/
def prefilterMip (app : App) (captureRBO prefilterMap : Nat)
    (prefilterRoughnessLocation prefilterModelViewMatrixLocation : Int) (mip : Nat) :
    GLM Unit := do
  let mipWidth ← mipExtent mip
  let mipHeight ← mipExtent mip
  GLM.emit (.glBindRenderbuffer GL_RENDERBUFFER captureRBO)
  GLM.emit (.glRenderbufferStorage GL_RENDERBUFFER GL_DEPTH_COMPONENT24 mipWidth mipHeight)
  GLM.emit (.glViewport 0 0 mipWidth mipHeight)
  let roughness ← mipRoughness mip
  GLM.emit (.glUniform1f prefilterRoughnessLocation roughness)
  captureFaces app prefilterModelViewMatrixLocation prefilterMap mip

/-- Source: `ViewerApplication::prefilterEnvironmentMap` -/
def prefilterEnvironmentMap (app : App) (env : Env) (envCubemap : Nat) : GLM Nat := do
  let prefilterMap ← gen1 .glGenTextures
  GLM.emit (.glBindTexture GL_TEXTURE_CUBE_MAP prefilterMap)
  allocateFaces PREFILTERMAP_SIZE
  GLM.emit (.glTexParameteri GL_TEXTURE_CUBE_MAP GL_TEXTURE_WRAP_S GL_CLAMP_TO_EDGE)
  GLM.emit (.glTexParameteri GL_TEXTURE_CUBE_MAP GL_TEXTURE_WRAP_T GL_CLAMP_TO_EDGE)
  GLM.emit (.glTexParameteri GL_TEXTURE_CUBE_MAP GL_TEXTURE_WRAP_R GL_CLAMP_TO_EDGE)
  GLM.emit (.glTexParameteri GL_TEXTURE_CUBE_MAP GL_TEXTURE_MAG_FILTER GL_LINEAR)
  GLM.emit (.glTexParameteri GL_TEXTURE_CUBE_MAP GL_TEXTURE_MIN_FILTER GL_LINEAR_MIPMAP_LINEAR)
  GLM.emit (.glGenerateMipmap GL_TEXTURE_CUBE_MAP)
  let captureFBO ← gen1 .glGenFramebuffers
  let captureRBO ← gen1 .glGenRenderbuffers
  GLM.emit (.glBindFramebuffer GL_FRAMEBUFFER captureFBO)
  GLM.emit (.glBindRenderbuffer GL_RENDERBUFFER captureRBO)
  GLM.emit (.glRenderbufferStorage GL_RENDERBUFFER GL_DEPTH_COMPONENT24 PREFILTERMAP_SIZE
    PREFILTERMAP_SIZE)
  GLM.emit (.glFramebufferRenderbuffer GL_FRAMEBUFFER GL_DEPTH_ATTACHMENT GL_RENDERBUFFER
    captureRBO)
  let glslIrradianceProgram ←
    compileProgram env [app.m_cubemapVertexShader, app.m_prefilterFragmentShader]
  let prefilterEnvironmentMapLocation ←
    glGetUniformLocation env glslIrradianceProgram "uEnvironmentMap"
  let prefilterModelProjMatrixLocation ←
    glGetUniformLocation env glslIrradianceProgram "uModelProjMatrix"
  let prefilterModelViewMatrixLocation ←
    glGetUniformLocation env glslIrradianceProgram "uModelViewMatrix"
  let prefilterRoughnessLocation ←
    glGetUniformLocation env glslIrradianceProgram "uRoughness"
  let prefilterResolutionLocation ←
    glGetUniformLocation env glslIrradianceProgram "uResolution"
  GLM.emit (.glUseProgram glslIrradianceProgram)
  GLM.emit (.glUniform1i prefilterEnvironmentMapLocation 0)
  GLM.emit (.glUniform1f prefilterResolutionLocation (Dyadic.ofNat SKYBOX_SIZE))
  GLM.emit (.glUniformMatrix4fv prefilterModelProjMatrixLocation 1 GL_FALSE .captureProjection)
  GLM.emit (.glActiveTexture GL_TEXTURE0)
  GLM.emit (.glBindTexture GL_TEXTURE_CUBE_MAP envCubemap)
  GLM.emit (.glBindFramebuffer GL_FRAMEBUFFER captureFBO)
  loopFrom (fun mip (_ : Unit) =>
    prefilterMip app captureRBO prefilterMap prefilterRoughnessLocation
      prefilterModelViewMatrixLocation mip) maxMipLevels 0 ()
  GLM.emit (.glBindFramebuffer GL_FRAMEBUFFER 0)
  pure prefilterMap

/-- Source: `ViewerApplication::integrateBRDF` -/
def integrateBRDF (app : App) (env : Env) : GLM Nat := do
  let brdfLUTTexture ← gen1 .glGenTextures
  GLM.emit (.glBindTexture GL_TEXTURE_2D brdfLUTTexture)
  GLM.emit (.glTexImage2D GL_TEXTURE_2D 0 GL_RG16F BRDF_LUT_SIZE BRDF_LUT_SIZE 0 GL_RG GL_FLOAT
    .null)
  GLM.emit (.glTexParameteri GL_TEXTURE_2D GL_TEXTURE_WRAP_S GL_CLAMP_TO_EDGE)
  GLM.emit (.glTexParameteri GL_TEXTURE_2D GL_TEXTURE_WRAP_T GL_CLAMP_TO_EDGE)
  GLM.emit (.glTexParameteri GL_TEXTURE_2D GL_TEXTURE_MIN_FILTER GL_LINEAR)
  GLM.emit (.glTexParameteri GL_TEXTURE_2D GL_TEXTURE_MAG_FILTER GL_LINEAR)
  let captureFBO ← gen1 .glGenFramebuffers
  let captureRBO ← gen1 .glGenRenderbuffers
  GLM.emit (.glBindFramebuffer GL_FRAMEBUFFER captureFBO)
  GLM.emit (.glBindRenderbuffer GL_RENDERBUFFER captureRBO)
  GLM.emit (.glRenderbufferStorage GL_RENDERBUFFER GL_DEPTH_COMPONENT24 BRDF_LUT_SIZE
    BRDF_LUT_SIZE)
  GLM.emit (.glFramebufferTexture2D GL_FRAMEBUFFER GL_COLOR_ATTACHMENT0 GL_TEXTURE_2D
    brdfLUTTexture 0)
  GLM.emit (.glViewport 0 0 BRDF_LUT_SIZE BRDF_LUT_SIZE)
  let glslIntegrateProgram ←
    compileProgram env [app.m_integrateVertexShader, app.m_integrateFragmentShader]
  GLM.emit (.glUseProgram glslIntegrateProgram)
  GLM.emit (.glClear (GL_COLOR_BUFFER_BIT ||| GL_DEPTH_BUFFER_BIT))
  renderQuad app
  GLM.emit (.glBindFramebuffer GL_FRAMEBUFFER 0)
  pure brdfLUTTexture

/-! ## Scene traversal and material binding (the lambdas of `run`) -/

/-- The uniform locations `run` queries from the two programs it compiles. -/
structure Locations where
  modelViewProjMatrixLocation : Int
  modelViewMatrixLocation : Int
  modelMatrixLocation : Int
  normalMatrixLocation : Int
  lightDirectionLocation : Int
  lightRadianceLocation : Int
  baseColorLocation : Int
  baseColorFactorLocation : Int
  metallicFactorLocation : Int
  roughnessFactorLocation : Int
  metallicRoughnessTextureLocation : Int
  emissiveTextureLocation : Int
  emissiveFactorLocation : Int
  occlusionTextureLocation : Int
  occlusionStrengthLocation : Int
  normalTextureLocation : Int
  normalScaleLocation : Int
  irradianceTextureLocation : Int
  prefilterTextureLocation : Int
  brdfLUTLocation : Int
  camDirLocation : Int
  skyboxEquirectangularMapLocation : Int
  skyboxModelProjMatrixLocation : Int
  skyboxModelViewMatrixLocation : Int

/-- The GUI-controlled locals of `run` that the lambdas capture. -/
structure Features where
  lightFromCamera : Bool
  featureTexture : Bool
  featureMetallicRoughness : Bool
  featureOcclusion : Bool
  featureEmission : Bool
  featureNormal : Bool
  featureEnvironment : Bool
deriving DecidableEq, Repr

/-- The object names and tables of `run` that the lambdas capture. -/
structure Resources where
  glslProgram : Nat
  glslSkyboxProgram : Nat
  textureObjects : List Nat
  whiteTexture : Nat
  greyTexture : Nat
  brdfLUT : Nat
  envTexture : Nat
  irradianceMap : Nat
  prefilterMap : Nat
  meshIndexToVaoRange : List VaoRange
  vertexArrayObjects : List Nat
deriving DecidableEq, Repr

/-- Source lines 1245-1266 of `bindMaterial`: the statements after the `if`. -/
def bindMaterialFallback (loc : Locations) (res : Resources) : GLM Unit := do
  GLM.emit (.glActiveTexture GL_TEXTURE0)
  GLM.emit (.glBindTexture GL_TEXTURE_2D res.whiteTexture)
  GLM.emit (.glUniform1i loc.baseColorLocation 0)
  GLM.emit (.glActiveTexture (GL_TEXTURE0 + 1))
  GLM.emit (.glBindTexture GL_TEXTURE_2D 0)
  GLM.emit (.glUniform1i loc.metallicRoughnessTextureLocation 1)
  GLM.emit (.glUniform4f loc.baseColorFactorLocation (Dyadic.ofNat 1) (Dyadic.ofNat 1)
    (Dyadic.ofNat 1) (Dyadic.ofNat 1))
  GLM.emit (.glUniform1f loc.metallicFactorLocation (Dyadic.ofNat 0))
  GLM.emit (.glUniform1f loc.roughnessFactorLocation (Dyadic.ofNat 0))
  GLM.emit (.glActiveTexture (GL_TEXTURE0 + 2))
  GLM.emit (.glBindTexture GL_TEXTURE_2D 0)
  GLM.emit (.glUniform3f loc.emissiveFactorLocation (.num (Dyadic.ofNat 0))
    (.num (Dyadic.ofNat 0)) (.num (Dyadic.ofNat 0)))
  GLM.emit (.glActiveTexture (GL_TEXTURE0 + 3))
  GLM.emit (.glBindTexture GL_TEXTURE_2D 0)
  GLM.emit (.glUniform1f loc.occlusionStrengthLocation (Dyadic.ofNat 1))
  GLM.emit (.glActiveTexture (GL_TEXTURE0 + 4))
  GLM.emit (.glBindTexture GL_TEXTURE_2D res.greyTexture)
  GLM.emit (.glUniform1f loc.normalScaleLocation (Dyadic.ofNat 1))

/-- Source lines 1064-1077 of `bindMaterial`: the base colour texture. -/
def bindBaseColor (feat : Features) (res : Resources) (texture : Texture) : GLM Unit :=
  if feat.featureTexture then do
    GLM.emit (.glActiveTexture GL_TEXTURE0)
    let t ← GLM.index .textureObjects res.textureObjects texture.source
    GLM.emit (.glBindTexture GL_TEXTURE_2D t)
  else do
    GLM.emit (.glActiveTexture GL_TEXTURE0)
    GLM.emit (.glBindTexture GL_TEXTURE_2D res.whiteTexture)

/-- Source lines 1082-1122 of `bindMaterial`: the metallic-roughness texture and the base
colour, metallic and roughness factors. -/
def bindMetallicRoughness (loc : Locations) (feat : Features) (res : Resources)
    (pbrMetallicRoughness : PbrMetallicRoughness) : GLM Unit :=
  if feat.featureMetallicRoughness then do
    GLM.emit (.glActiveTexture (GL_TEXTURE0 + 1))
    let t ← GLM.index .textureObjects res.textureObjects
      pbrMetallicRoughness.metallicRoughnessTexture.index
    GLM.emit (.glBindTexture GL_TEXTURE_2D t)
    let c0 ← GLM.index .baseColorFactor pbrMetallicRoughness.baseColorFactor 0
    let c1 ← GLM.index .baseColorFactor pbrMetallicRoughness.baseColorFactor 1
    let c2 ← GLM.index .baseColorFactor pbrMetallicRoughness.baseColorFactor 2
    let c3 ← GLM.index .baseColorFactor pbrMetallicRoughness.baseColorFactor 3
    GLM.emit (.glUniform4f loc.baseColorFactorLocation c0 c1 c2 c3)
    GLM.emit (.glUniform1f loc.metallicFactorLocation pbrMetallicRoughness.metallicFactor)
    GLM.emit (.glUniform1f loc.roughnessFactorLocation pbrMetallicRoughness.roughnessFactor)
  else do
    GLM.emit (.glActiveTexture (GL_TEXTURE0 + 1))
    GLM.emit (.glBindTexture GL_TEXTURE_2D 0)
    GLM.emit (.glUniform4f loc.baseColorFactorLocation (Dyadic.ofNat 1) (Dyadic.ofNat 1)
      (Dyadic.ofNat 1) (Dyadic.ofNat 1))
    GLM.emit (.glUniform1f loc.metallicFactorLocation (Dyadic.ofNat 0))
    GLM.emit (.glUniform1f loc.roughnessFactorLocation (Dyadic.ofNat 0))

/-- Source lines 1127-1150 of `bindMaterial`: the emissive texture and factor. -/
def bindEmissive (loc : Locations) (feat : Features) (res : Resources)
    (emissiveTexture : TextureInfo) (emissiveFactor : List Dyadic) : GLM Unit :=
  if feat.featureEmission then do
    GLM.emit (.glActiveTexture (GL_TEXTURE0 + 2))
    let t ← GLM.index .textureObjects res.textureObjects emissiveTexture.index
    GLM.emit (.glBindTexture GL_TEXTURE_2D t)
    let e0 ← GLM.index .emissiveFactor emissiveFactor 0
    let e1 ← GLM.index .emissiveFactor emissiveFactor 1
    let e2 ← GLM.index .emissiveFactor emissiveFactor 2
    GLM.emit (.glUniform3f loc.emissiveFactorLocation (.num e0) (.num e1) (.num e2))
  else do
    GLM.emit (.glActiveTexture (GL_TEXTURE0 + 2))
    GLM.emit (.glBindTexture GL_TEXTURE_2D 0)
    GLM.emit (.glUniform3f loc.emissiveFactorLocation (.num (Dyadic.ofNat 0))
      (.num (Dyadic.ofNat 0)) (.num (Dyadic.ofNat 0)))

/-- Source lines 1155-1177 of `bindMaterial`: the occlusion texture and strength. -/
def bindOcclusion (loc : Locations) (feat : Features) (res : Resources)
    (occlusionTexture : OcclusionTextureInfo) : GLM Unit :=
  if feat.featureOcclusion then do
    let occlusion0 ← GLM.index .textureObjects res.textureObjects occlusionTexture.index
    let occlusion := if occlusion0 = 0 then res.whiteTexture else occlusion0
    GLM.emit (.glActiveTexture (GL_TEXTURE0 + 3))
    GLM.emit (.glBindTexture GL_TEXTURE_2D occlusion)
    GLM.emit (.glUniform1f loc.occlusionStrengthLocation occlusionTexture.strength)
  else do
    GLM.emit (.glActiveTexture (GL_TEXTURE0 + 3))
    GLM.emit (.glBindTexture GL_TEXTURE_2D res.whiteTexture)
    GLM.emit (.glUniform1f loc.occlusionStrengthLocation (Dyadic.ofNat 1))

/-- Source lines 1182-1197 of `bindMaterial`: the normal map and its scale. -/
def bindNormal (loc : Locations) (feat : Features) (res : Resources)
    (normalTexture : NormalTextureInfo) : GLM Unit :=
  if feat.featureNormal then do
    GLM.emit (.glActiveTexture (GL_TEXTURE0 + 4))
    let t ← GLM.index .textureObjects res.textureObjects normalTexture.index
    GLM.emit (.glBindTexture GL_TEXTURE_2D t)
    GLM.emit (.glUniform1f loc.normalScaleLocation normalTexture.scale)
  else do
    GLM.emit (.glActiveTexture (GL_TEXTURE0 + 4))
    GLM.emit (.glBindTexture GL_TEXTURE_2D res.greyTexture)
    GLM.emit (.glUniform1f loc.normalScaleLocation (Dyadic.ofNat 1))

/-- Source lines 1202-1235 of `bindMaterial`: the three environment maps. -/
def bindEnvironment (feat : Features) (res : Resources) : GLM Unit :=
  if feat.featureEnvironment then do
    GLM.emit (.glActiveTexture (GL_TEXTURE0 + 5))
    GLM.emit (.glBindTexture GL_TEXTURE_CUBE_MAP res.irradianceMap)
    GLM.emit (.glActiveTexture (GL_TEXTURE0 + 6))
    GLM.emit (.glBindTexture GL_TEXTURE_CUBE_MAP res.prefilterMap)
    GLM.emit (.glActiveTexture (GL_TEXTURE0 + 7))
    GLM.emit (.glBindTexture GL_TEXTURE_2D res.brdfLUT)
  else do
    GLM.emit (.glActiveTexture (GL_TEXTURE0 + 5))
    GLM.emit (.glBindTexture GL_TEXTURE_CUBE_MAP 0)
    GLM.emit (.glActiveTexture (GL_TEXTURE0 + 6))
    GLM.emit (.glBindTexture GL_TEXTURE_CUBE_MAP 0)
    GLM.emit (.glActiveTexture (GL_TEXTURE0 + 7))
    GLM.emit (.glBindTexture GL_TEXTURE_2D 0)

/-- Source lines 1060-1239 of `bindMaterial`: the branch taken for a material when the
texture table is not empty; the six `if` statements are the six functions above. -/
def bindMaterialTextured (model : Model) (loc : Locations) (feat : Features) (res : Resources)
    (material : Material) : GLM Unit := do
  let texture ← GLM.index .textures model.textures
    material.pbrMetallicRoughness.baseColorTexture.index
  bindBaseColor feat res texture
  GLM.emit (.glUniform1i loc.baseColorLocation 0)
  bindMetallicRoughness loc feat res material.pbrMetallicRoughness
  GLM.emit (.glUniform1i loc.metallicRoughnessTextureLocation 1)
  bindEmissive loc feat res material.emissiveTexture material.emissiveFactor
  GLM.emit (.glUniform1i loc.emissiveTextureLocation 2)
  bindOcclusion loc feat res material.occlusionTexture
  GLM.emit (.glUniform1i loc.occlusionTextureLocation 3)
  bindNormal loc feat res material.normalTexture
  GLM.emit (.glUniform1i loc.normalTextureLocation 4)
  bindEnvironment feat res
  GLM.emit (.glUniform1i loc.irradianceTextureLocation 5)
  GLM.emit (.glUniform1i loc.prefilterTextureLocation 6)
  GLM.emit (.glUniform1i loc.brdfLUTLocation 7)

/-- The lambda `bindMaterial` of `run`. -/
def bindMaterial (model : Model) (loc : Locations) (feat : Features) (res : Resources)
    (materialIndex : Int) : GLM Unit := do
  if materialIndex ≥ 0 then do
    let material ← GLM.index .materials model.materials materialIndex
    if model.textures.length > 0 then
      bindMaterialTextured model loc feat res material
    else
      bindMaterialFallback loc res
  else
    bindMaterialFallback loc res

/-- The lambda `drawSkybox` of `drawScene`. -/
def drawSkybox (app : App) (loc : Locations) (res : Resources) : GLM Unit := do
  GLM.emit (.glActiveTexture GL_TEXTURE0)
  GLM.emit (.glBindTexture GL_TEXTURE_CUBE_MAP res.envTexture)
  GLM.emit (.glUniform1i loc.skyboxEquirectangularMapLocation 0)
  GLM.emit (.glUniformMatrix4fv loc.skyboxModelProjMatrixLocation 1 GL_FALSE .projMatrix)
  GLM.emit (.glUniformMatrix4fv loc.skyboxModelViewMatrixLocation 1 GL_FALSE .viewMatrix)
  renderCube app

/-- The part of the primitive loop of `drawNode` that issues the draw call (source lines
1382-1398), for primitive `i` of `mesh`. -/
def drawPrimitive (model : Model) (mesh : Mesh) (i : Nat) : GLM Unit := do
  let primitive ← GLM.index .primitives mesh.primitives i
  if primitive.indices ≥ 0 then do
    let accessor ← GLM.index .accessors model.accessors primitive.indices
    let bufferView ← GLM.index .bufferViews model.bufferViews accessor.bufferView
    let byteOffset := addSizeT bufferView.byteOffset accessor.byteOffset
    GLM.emit (.glDrawElements primitive.mode accessor.count accessor.componentType byteOffset)
  else
    match primitive.attributes.head? with
    | none => GLM.fault .emptyMap
    | some (_, accessorIdx) => do
      let accessor ← GLM.index .accessors model.accessors accessorIdx
      GLM.emit (.glDrawArrays primitive.mode 0 accessor.count)

/-- The body of the primitive loop of `drawNode` (source lines 1380-1398). -/
def drawNodePrimitive (model : Model) (loc : Locations) (feat : Features) (res : Resources)
    (mesh : Mesh) (range : VaoRange) (i : Nat) : GLM Unit := do
  let p ← GLM.index .primitives mesh.primitives i
  bindMaterial model loc feat res p.material
  let vao ← GLM.index .vertexArrayObjects res.vertexArrayObjects
    (addSizeT (toSizeT range.begin) i)
  GLM.emit (.glBindVertexArray vao)
  drawPrimitive model mesh i

/-- Source lines 1314-1373 of `drawNode`: the uniforms uploaded for a node that references
a mesh. -/
def uploadNodeUniforms (loc : Locations) (feat : Features) (node : Node) (modelMatrix : Mat4) :
    GLM Unit :=
  if node.mesh ≥ 0 then do
    let modelViewMatrix := Mat4.mul .viewMatrix modelMatrix
    let modelViewProjectionMatrix := Mat4.mul .projMatrix modelViewMatrix
    let normalMatrix := Mat4.inverse (Mat4.transpose modelViewMatrix)
    let lightDirection :=
      if feat.lightFromCamera then Vec3.normalize .cameraDirection
      else Vec3.normalize .lightDirectionRaw
    GLM.emit (.glUniformMatrix4fv loc.modelMatrixLocation 1 GL_FALSE modelMatrix)
    GLM.emit (.glUniformMatrix4fv loc.modelViewMatrixLocation 1 GL_FALSE modelViewMatrix)
    GLM.emit (.glUniformMatrix4fv loc.modelViewProjMatrixLocation 1 GL_FALSE
      modelViewProjectionMatrix)
    GLM.emit (.glUniformMatrix4fv loc.normalMatrixLocation 1 GL_FALSE normalMatrix)
    GLM.emit (.glUniform3fv loc.camDirLocation 1 .cameraDirection)
    (if loc.lightDirectionLocation ≥ 0 then
      GLM.emit (.glUniform3f loc.lightDirectionLocation (.comp lightDirection 0)
        (.comp lightDirection 1) (.comp lightDirection 2))
    else
      pure ())
    (if loc.lightRadianceLocation ≥ 0 then
      GLM.emit (.glUniform3f loc.lightRadianceLocation (.comp .lightRadiance 0)
        (.comp .lightRadiance 1) (.comp .lightRadiance 2))
    else
      pure ())
  else
    pure ()

/-- The lambda `drawNode` of `drawScene` (source lines 1305-1400). The body has no call of
`drawNode` and does not read `node.children`. -/
def drawNode (model : Model) (loc : Locations) (feat : Features) (res : Resources)
    (nodeIdx : Int) (parentMatrix : Mat4) : GLM Unit := do
  let node ← GLM.index .nodes model.nodes nodeIdx
  let modelMatrix := Mat4.localToWorld nodeIdx parentMatrix
  uploadNodeUniforms loc feat node modelMatrix
  let mesh ← GLM.index .meshes model.meshes node.mesh
  let range ← GLM.index .meshIndexToVaoRange res.meshIndexToVaoRange node.mesh
  loopFrom (fun i (_ : Unit) => drawNodePrimitive model loc feat res mesh range i)
    (toSizeT range.count) 0 ()

/-- Source lines 1405-1415 of `drawScene`: the skybox and the loop over the root nodes of
the default scene. Each evaluation of the loop condition reads
`model.scenes[model.defaultScene]`. -/
def drawDefaultScene (app : App) (model : Model) (loc : Locations) (feat : Features)
    (res : Resources) : GLM Unit := do
  GLM.emit (.glUseProgram res.glslSkyboxProgram)
  drawSkybox app loc res
  GLM.emit (.glUseProgram res.glslProgram)
  let scene ← GLM.index .scenes model.scenes model.defaultScene
  loopFrom (fun i (_ : Unit) => do
    let sc ← GLM.index .scenes model.scenes model.defaultScene
    let nodeIdx ← GLM.index .sceneNodes sc.nodes i
    drawNode model loc feat res nodeIdx .identity
    let _ ← GLM.index .scenes model.scenes model.defaultScene
    pure ()) scene.nodes.length 0 ()

/-- The lambda `drawScene` of `run`. -/
def drawScene (app : App) (model : Model) (loc : Locations) (feat : Features)
    (res : Resources) : GLM Unit := do
  GLM.emit (.glViewport 0 0 app.m_nWindowWidth app.m_nWindowHeight)
  GLM.emit (.glClear (GL_COLOR_BUFFER_BIT ||| GL_DEPTH_BUFFER_BIT))
  (if model.defaultScene ≥ 0 then drawDefaultScene app model loc feat res else pure ())
  GLM.emit (.glBindVertexArray 0)

/-! ## The frame driver (`run`) -/

/-- Source: `ViewerApplication::initCube`; returns the object with `m_unitCubeVAO` and
`m_unitCubeVBO` set. The vertex array holds 36 vertices of 8 floats. -/
def initCube (app : App) : GLM App := do
  let vao ← gen1 .glGenVertexArrays
  let vbo ← gen1 .glGenBuffers
  GLM.emit (.glBindBuffer GL_ARRAY_BUFFER vbo)
  GLM.emit (.glBufferData GL_ARRAY_BUFFER 1152 GL_STATIC_DRAW)
  GLM.emit (.glBindVertexArray vao)
  GLM.emit (.glEnableVertexAttribArray 0)
  GLM.emit (.glVertexAttribPointer 0 3 GL_FLOAT GL_FALSE 32 0)
  GLM.emit (.glEnableVertexAttribArray 1)
  GLM.emit (.glVertexAttribPointer 1 3 GL_FLOAT GL_FALSE 32 12)
  GLM.emit (.glEnableVertexAttribArray 2)
  GLM.emit (.glVertexAttribPointer 2 2 GL_FLOAT GL_FALSE 32 24)
  GLM.emit (.glBindBuffer GL_ARRAY_BUFFER 0)
  GLM.emit (.glBindVertexArray 0)
  pure { app with m_unitCubeVAO := vao, m_unitCubeVBO := vbo }

/-- Source: `ViewerApplication::initQuad`; returns the object with `m_quadVAO` and `m_quadVBO`
set. The vertex array holds 4 vertices of 5 floats. -/
def initQuad (app : App) : GLM App := do
  let vao ← gen1 .glGenVertexArrays
  let vbo ← gen1 .glGenBuffers
  GLM.emit (.glBindVertexArray vao)
  GLM.emit (.glBindBuffer GL_ARRAY_BUFFER vbo)
  GLM.emit (.glBufferData GL_ARRAY_BUFFER 80 GL_STATIC_DRAW)
  GLM.emit (.glEnableVertexAttribArray 0)
  GLM.emit (.glVertexAttribPointer 0 3 GL_FLOAT GL_FALSE 20 0)
  GLM.emit (.glEnableVertexAttribArray 1)
  GLM.emit (.glVertexAttribPointer 1 2 GL_FLOAT GL_FALSE 20 12)
  pure { app with m_quadVAO := vao, m_quadVBO := vbo }

/-- What the outside world answers during one call of `run`: whether `loadGltfFile` succeeds
and with which scene, after how many iterations of the interactive loop
`m_GLFWHandle.shouldClose()` first holds, and the values the GUI code of iteration `k` leaves
in the feature toggles. -/
structure Host where
  gltfLoads : Bool
  model : Model
  frames : Nat
  gui : Nat → Features

/-- The toggles as `run` initialises them (source lines 903-911). -/
def initialFeatures : Features :=
  { lightFromCamera := true, featureTexture := true, featureMetallicRoughness := true,
    featureOcclusion := true, featureEmission := true, featureNormal := true,
    featureEnvironment := true }

/-- The toggles in effect when iteration `k` of the interactive loop draws: the initial ones,
or those left by the GUI code of the iteration before. -/
def frameFeatures (host : Host) (k : Nat) : Features :=
  if k = 0 then initialFeatures else host.gui (k - 1)

/-- The programs and uniform locations `run` obtains before it loads the scene. -/
structure Programs where
  glslProgram : Nat
  glslSkyboxProgram : Nat
  loc : Locations

/-- Source lines 805-872 of `run`: the two programs and their uniform locations. -/
def runPrologue (app : App) (env : Env) : GLM Programs := do
  GLM.emit (.glEnable GL_TEXTURE_CUBE_MAP_SEAMLESS)
  let glslProgram ← compileProgram env [app.m_vertexShader, app.m_fragmentShader]
  let modelViewProjMatrixLocation ← glGetUniformLocation env glslProgram "uModelViewProjMatrix"
  let modelViewMatrixLocation ← glGetUniformLocation env glslProgram "uModelViewMatrix"
  let modelMatrixLocation ← glGetUniformLocation env glslProgram "uModelMatrix"
  let normalMatrixLocation ← glGetUniformLocation env glslProgram "uNormalMatrix"
  let lightDirectionLocation ← glGetUniformLocation env glslProgram "uLightDirection"
  let lightRadianceLocation ← glGetUniformLocation env glslProgram "uLightIntensity"
  let baseColorLocation ← glGetUniformLocation env glslProgram "uBaseColorTexture"
  let baseColorFactorLocation ← glGetUniformLocation env glslProgram "uBaseColorFactor"
  let metallicFactorLocation ← glGetUniformLocation env glslProgram "uMetallicFactor"
  let roughnessFactorLocation ← glGetUniformLocation env glslProgram "uRoughnessFactor"
  let metallicRoughnessTextureLocation ←
    glGetUniformLocation env glslProgram "uMetallicRoughnessTexture"
  let emissiveTextureLocation ← glGetUniformLocation env glslProgram "uEmissiveTexture"
  let emissiveFactorLocation ← glGetUniformLocation env glslProgram "uEmissiveFactor"
  let occlusionTextureLocation ← glGetUniformLocation env glslProgram "uOcclusionTexture"
  let occlusionStrengthLocation ← glGetUniformLocation env glslProgram "uOcclusionStrength"
  let normalTextureLocation ← glGetUniformLocation env glslProgram "uNormalTexture"
  let normalScaleLocation ← glGetUniformLocation env glslProgram "uNormalScale"
  let irradianceTextureLocation ← glGetUniformLocation env glslProgram "uIrradianceMap"
  let prefilterTextureLocation ← glGetUniformLocation env glslProgram "uPrefilterMap"
  let brdfLUTLocation ← glGetUniformLocation env glslProgram "uBrdfLUT"
  let camDirLocation ← glGetUniformLocation env glslProgram "uCamDir"
  let glslSkyboxProgram ←
    compileProgram env [app.m_skyboxVertexShader, app.m_skyboxFragmentShader]
  let skyboxEquirectangularMapLocation ←
    glGetUniformLocation env glslSkyboxProgram "uEquirectangularMap"
  let skyboxModelProjMatrixLocation ←
    glGetUniformLocation env glslSkyboxProgram "uModelProjMatrix"
  let skyboxModelViewMatrixLocation ←
    glGetUniformLocation env glslSkyboxProgram "uModelViewMatrix"
  pure {
    glslProgram := glslProgram
    glslSkyboxProgram := glslSkyboxProgram
    loc := {
      modelViewProjMatrixLocation := modelViewProjMatrixLocation
      modelViewMatrixLocation := modelViewMatrixLocation
      modelMatrixLocation := modelMatrixLocation
      normalMatrixLocation := normalMatrixLocation
      lightDirectionLocation := lightDirectionLocation
      lightRadianceLocation := lightRadianceLocation
      baseColorLocation := baseColorLocation
      baseColorFactorLocation := baseColorFactorLocation
      metallicFactorLocation := metallicFactorLocation
      roughnessFactorLocation := roughnessFactorLocation
      metallicRoughnessTextureLocation := metallicRoughnessTextureLocation
      emissiveTextureLocation := emissiveTextureLocation
      emissiveFactorLocation := emissiveFactorLocation
      occlusionTextureLocation := occlusionTextureLocation
      occlusionStrengthLocation := occlusionStrengthLocation
      normalTextureLocation := normalTextureLocation
      normalScaleLocation := normalScaleLocation
      irradianceTextureLocation := irradianceTextureLocation
      prefilterTextureLocation := prefilterTextureLocation
      brdfLUTLocation := brdfLUTLocation
      camDirLocation := camDirLocation
      skyboxEquirectangularMapLocation := skyboxEquirectangularMapLocation
      skyboxModelProjMatrixLocation := skyboxModelProjMatrixLocation
      skyboxModelViewMatrixLocation := skyboxModelViewMatrixLocation } }

/-- Source lines 945-983 of `run`: a 1 x 1 RGBA float texture with linear filtering and
repeat wrapping, filled from `data`. -/
def makeFlatTexture (data : Pixels) : GLM Nat := do
  let texture ← gen1 .glGenTextures
  GLM.emit (.glBindTexture GL_TEXTURE_2D texture)
  GLM.emit (.glTexImage2D GL_TEXTURE_2D 0 GL_RGBA 1 1 0 GL_RGBA GL_FLOAT data)
  GLM.emit (.glTexParameteri GL_TEXTURE_2D GL_TEXTURE_MIN_FILTER GL_LINEAR)
  GLM.emit (.glTexParameteri GL_TEXTURE_2D GL_TEXTURE_MAG_FILTER GL_LINEAR)
  GLM.emit (.glTexParameteri GL_TEXTURE_2D GL_TEXTURE_WRAP_S GL_REPEAT)
  GLM.emit (.glTexParameteri GL_TEXTURE_2D GL_TEXTURE_WRAP_T GL_REPEAT)
  GLM.emit (.glTexParameteri GL_TEXTURE_2D GL_TEXTURE_WRAP_R GL_REPEAT)
  pure texture

/-- Source lines 985-1008 of `run`: the dummy 1 x 1 cubemap `whiteCube`. -/
def makeWhiteCube : GLM Nat := do
  let whiteCube ← gen1 .glGenTextures
  GLM.emit (.glBindTexture GL_TEXTURE_CUBE_MAP whiteCube)
  loopFrom (fun i (_ : Unit) =>
    GLM.emit (.glTexImage2D (GL_TEXTURE_CUBE_MAP_POSITIVE_X + i) 0 GL_RGB16F 1 1 0 GL_RGB
      GL_FLOAT .white)) 6 0 ()
  cubeMapParameters
  pure whiteCube

/-- The handles of the four IBL stages, with the application object after `initQuad` and
`initCube`. -/
structure IblResources where
  app : App
  brdfLUT : Nat
  envTexture : Nat
  irradianceMap : Nat
  prefilterMap : Nat
deriving DecidableEq, Repr

/-- Source lines 1010-1016 of `run`: the quad, the BRDF LUT, the cube, the corrected
environment cubemap, the irradiance map and the prefilter map, in this order. -/
def precomputeIBL (app : App) (env : Env) : GLM IblResources := do
  let app1 ← initQuad app
  let brdfLUT ← integrateBRDF app1 env
  let app2 ← initCube app1
  let envTexture ← loadCorrectedEnvTexture app2 env
  let irradianceMap ← computeIrradianceMap app2 env envTexture
  let prefilterMap ← prefilterEnvironmentMap app2 env envTexture
  pure { app := app2, brdfLUT := brdfLUT, envTexture := envTexture,
         irradianceMap := irradianceMap, prefilterMap := prefilterMap }

/-- The application object and the captured resources once `run` has built them. -/
structure Built where
  app : App
  res : Resources
deriving DecidableEq, Repr

/-- Source lines 943-1034 of `run`: the scene textures, the flat textures, the IBL stages,
the buffer objects and the vertex arrays. The scene bounds, the projection matrix and the
camera (lines 883-941) issue no call and are kept symbolic. -/
def buildResources (app : App) (env : Env) (model : Model)
    (glslProgram glslSkyboxProgram : Nat) : GLM Built := do
  let textureObjects ← createTextureObjects model
  let whiteTexture ← makeFlatTexture .white
  let greyTexture ← makeFlatTexture .grey
  let _whiteCube ← makeWhiteCube
  let ibl ← precomputeIBL app env
  GLM.emit (.glBindTexture GL_TEXTURE_2D 0)
  let bufferObjects ← createBufferObjects model
  let tables ← createVertexArrayObjects model bufferObjects []
  GLM.emit (.glEnable GL_DEPTH_TEST)
  GLM.emit (.glDepthFunc GL_LEQUAL)
  pure { app := ibl.app,
         res := { glslProgram := glslProgram, glslSkyboxProgram := glslSkyboxProgram,
                  textureObjects := textureObjects, whiteTexture := whiteTexture,
                  greyTexture := greyTexture, brdfLUT := ibl.brdfLUT,
                  envTexture := ibl.envTexture, irradianceMap := ibl.irradianceMap,
                  prefilterMap := ibl.prefilterMap,
                  meshIndexToVaoRange := tables.meshIndexToVaoRange,
                  vertexArrayObjects := tables.vertexArrayObjects } }

/-- The expression `m_nWindowWidth * m_nWindowHeight * 3`. The two members are declared in
`ViewerApplication.hpp`, which is not part of the translated file; they are taken to be
`GLsizei`, the type `glViewport` receives them as, so a product that does not fit a 32-bit
signed `int` is a fault. -/
def windowBytes (app : App) : GLM Nat :=
  if app.m_nWindowWidth * app.m_nWindowHeight * 3 < 2 ^ 31 then
    pure (app.m_nWindowWidth * app.m_nWindowHeight * 3)
  else GLM.fault .intOverflow

/-- Modelled from the spec: `renderToImage` (declared in `utils/images.hpp`, not part of the
translated file) draws once into an offscreen colour target sized to the configured output
resolution: the call is recorded and the draw callback runs exactly once. -/
def renderToImage (width height numComponents : Nat) (drawScene : GLM Unit) : GLM Unit := do
  GLM.emit (.renderToImage width height numComponents)
  drawScene

/-- Source lines 1421-1451 of `run`: the branch taken when `m_OutputPath` is not empty. -/
def runCapture (app : App) (model : Model) (loc : Locations) (res : Resources)
    (strPath : String) : GLM Int := do
  let size ← windowBytes app
  GLM.emit (.allocatePixels size)
  renderToImage app.m_nWindowWidth app.m_nWindowHeight 3
    (drawScene app model loc initialFeatures res)
  GLM.emit (.flipImageYAxis app.m_nWindowWidth app.m_nWindowHeight 3)
  GLM.emit (.stbi_write_png strPath app.m_nWindowWidth app.m_nWindowHeight 3 0)
  pure 0

/-- Source lines 1456-1553 of `run`: one iteration of the interactive loop. The calls the
GUI library issues on its own are not recorded. -/
def interactiveFrame (app : App) (host : Host) (loc : Locations) (res : Resources) (k : Nat) :
    GLM Unit := do
  drawScene app host.model loc (frameFeatures host k) res
  GLM.emit .imguiRenderFrame
  GLM.emit .glfwPollEvents
  GLM.emit .swapBuffers

/-- Source lines 1453-1558 of `run`: the interactive loop, for a window that is closed after
`host.frames` iterations, and the final `return 0`. -/
def runInteractive (app : App) (host : Host) (loc : Locations) (res : Resources) : GLM Int := do
  loopFrom (fun k (_ : Unit) => interactiveFrame app host loc res k) host.frames 0 ()
  pure 0

/-- Source lines 883-1558 of `run`: what `run` does once the scene is loaded. The output path
is the one of the object `run` was called on. -/
def runLoaded (app : App) (env : Env) (host : Host) (programs : Programs) : GLM Int := do
  let built ← buildResources app env host.model programs.glslProgram
    programs.glslSkyboxProgram
  if app.m_OutputPath ≠ "" then
    runCapture built.app host.model programs.loc built.res app.m_OutputPath
  else
    runInteractive built.app host programs.loc built.res

/-- Source: `ViewerApplication::run`. -/
def run (app : App) (env : Env) (host : Host) : GLM Int := do
  let programs ← runPrologue app env
  if host.gltfLoads then runLoaded app env host programs else pure (-1)

/-! ## Well-formed scenes -/

/-- Accessor `a` exists, its buffer view exists, and the view's buffer is an index of both
`model.buffers` and `bufferObjects`. -/
def accessorOk (model : Model) (bufferObjects : List Nat) (a : Int) : Bool :=
  match at? model.accessors a with
  | none => false
  | some accessor =>
    match at? model.bufferViews accessor.bufferView with
    | none => false
    | some bufferView =>
      (at? model.buffers bufferView.buffer).isSome && (at? bufferObjects bufferView.buffer).isSome

/-- The attribute named `str`, when the primitive has it, refers to a resolvable accessor. -/
def attributeOk (model : Model) (bufferObjects : List Nat) (p : Primitive) (str : String) :
    Bool :=
  match p.attributes.lookup str with
  | none => true
  | some a => accessorOk model bufferObjects a

/-- The index accessor, when the primitive has one, resolves to a buffer object. -/
def indicesOk (model : Model) (bufferObjects : List Nat) (p : Primitive) : Bool :=
  if p.indices ≥ 0 then
    match at? model.accessors p.indices with
    | none => false
    | some accessor =>
      match at? model.bufferViews accessor.bufferView with
      | none => false
      | some bufferView => (at? bufferObjects bufferView.buffer).isSome
  else true

/-- Every reference `createVertexArrayObjects` follows from primitive `p` resolves. -/
def primitiveOk (model : Model) (bufferObjects : List Nat) (p : Primitive) : Bool :=
  attributeOk model bufferObjects p "POSITION" && attributeOk model bufferObjects p "NORMAL" &&
    attributeOk model bufferObjects p "TEXCOORD_0" && indicesOk model bufferObjects p

/-- Every primitive of every mesh is `primitiveOk`. -/
def resourcesOk (model : Model) (bufferObjects : List Nat) : Bool :=
  model.meshes.all (fun m => m.primitives.all (primitiveOk model bufferObjects))

/-- Number of primitives of the meshes with index below `i`. -/
def primitivesBefore (model : Model) (i : Nat) : Nat :=
  ((model.meshes.take i).map (fun m => m.primitives.length)).sum

/-- Number of primitives of the whole model. -/
def totalPrimitives (model : Model) : Nat :=
  (model.meshes.map (fun m => m.primitives.length)).sum

/-! ## Observations on traces -/

/-- Draw calls. -/
def isDraw : Ev → Bool
  | .glDrawArrays _ _ _ => true
  | .glDrawElements _ _ _ _ => true
  | _ => false

/-- The slot of a `glEnableVertexAttribArray` event. -/
def enabledSlot : Ev → Option Nat
  | .glEnableVertexAttribArray index => some index
  | _ => none

/-- The stride argument of a `glVertexAttribPointer` event. -/
def pointerStride : Ev → Option Int
  | .glVertexAttribPointer _ _ _ _ stride _ => some stride
  | _ => none

/-- The index of a `model.nodes[...]` lookup. -/
def nodeRead : Ev → Option Int
  | .read .nodes i => some i
  | _ => none

/-- Lookups in `model.textures` or `textureObjects`. -/
def isTextureRead : Ev → Bool
  | .read .textures _ => true
  | .read .textureObjects _ => true
  | _ => false

/-- The steps of a capture pass that select the view, attach the target and draw. -/
def isCaptureStep : Ev → Bool
  | .glUniformMatrix4fv _ _ _ (.captureView _) => true
  | .glFramebufferTexture2D _ _ _ _ _ => true
  | .glDrawArrays _ _ _ => true
  | _ => false

/-- The value of a `glUniform1f` event. -/
def uniform1fValue : Ev → Option Dyadic
  | .glUniform1f _ v => some v
  | _ => none

/-- The width and height of a `glRenderbufferStorage` event. -/
def renderbufferExtent : Ev → Option (Int × Int)
  | .glRenderbufferStorage _ _ width height => some (width, height)
  | _ => none

/-- The width and height of a `glViewport` event. -/
def viewportExtent : Ev → Option (Int × Int)
  | .glViewport _ _ width height => some (width, height)
  | _ => none

/-- The view, attachment and draw steps expected of one capture loop: for each face `i` in
order, view matrix `i`, colour attachment `GL_TEXTURE_CUBE_MAP_POSITIVE_X + i` of `texture`
at mip level `level`, and the 36-vertex cube draw. -/
def captureSteps (modelViewMatrixLocation : Int) (texture : Nat) (level : Int) : List Ev :=
  (List.range 6).flatMap (fun i =>
    [.glUniformMatrix4fv modelViewMatrixLocation 1 GL_FALSE (.captureView i),
     .glFramebufferTexture2D GL_FRAMEBUFFER GL_COLOR_ATTACHMENT0
       (GL_TEXTURE_CUBE_MAP_POSITIVE_X + i) texture level,
     .glDrawArrays GL_TRIANGLES 0 36])

/-- The events of one successful attribute wiring by `vao_init`. -/
def attributeEvents (index : Nat) (a : Int) (acc : Accessor) (bv : BufferView) (o : Nat) :
    List Ev :=
  [.read .accessors a, .read .bufferViews acc.bufferView, .read .buffers bv.buffer,
   .glEnableVertexAttribArray index, .read .bufferObjects bv.buffer,
   .glBindBuffer GL_ARRAY_BUFFER o,
   .glVertexAttribPointer index acc.type acc.componentType GL_FALSE bv.byteStride
     (addSizeT bv.byteOffset acc.byteOffset)]

/-- The calls of the neutral fallback of `bindMaterial`: white base colour with factor
(1, 1, 1, 1), no metallic-roughness texture with factors 0, no emissive texture with factor
(0, 0, 0), no texture on the occlusion unit with strength 1, and the grey normal map with
scale 1. -/
def fallbackEvents (loc : Locations) (res : Resources) : List Ev :=
  [.glActiveTexture GL_TEXTURE0, .glBindTexture GL_TEXTURE_2D res.whiteTexture,
   .glUniform1i loc.baseColorLocation 0,
   .glActiveTexture (GL_TEXTURE0 + 1), .glBindTexture GL_TEXTURE_2D 0,
   .glUniform1i loc.metallicRoughnessTextureLocation 1,
   .glUniform4f loc.baseColorFactorLocation ⟨1, 0⟩ ⟨1, 0⟩ ⟨1, 0⟩ ⟨1, 0⟩,
   .glUniform1f loc.metallicFactorLocation ⟨0, 0⟩,
   .glUniform1f loc.roughnessFactorLocation ⟨0, 0⟩,
   .glActiveTexture (GL_TEXTURE0 + 2), .glBindTexture GL_TEXTURE_2D 0,
   .glUniform3f loc.emissiveFactorLocation (.num ⟨0, 0⟩) (.num ⟨0, 0⟩) (.num ⟨0, 0⟩),
   .glActiveTexture (GL_TEXTURE0 + 3), .glBindTexture GL_TEXTURE_2D 0,
   .glUniform1f loc.occlusionStrengthLocation ⟨1, 0⟩,
   .glActiveTexture (GL_TEXTURE0 + 4), .glBindTexture GL_TEXTURE_2D res.greyTexture,
   .glUniform1f loc.normalScaleLocation ⟨1, 0⟩]

/-- The texture bindings of the OpenGL context: the selected texture unit and, latest first,
the texture bound to each pair of a unit and a target. -/
structure TextureUnits where
  active : Nat
  bound : List ((Nat × Nat) × Nat)
deriving DecidableEq, Repr

namespace TextureUnits

/-- The bindings of a new context: unit `GL_TEXTURE0` is selected and nothing is bound. -/
def initial : TextureUnits :=
  { active := GL_TEXTURE0, bound := [] }

/-- The effect of one call on the bindings: `glActiveTexture` selects a unit and
`glBindTexture` binds a texture to the given target of the selected unit. -/
def step (s : TextureUnits) : Ev → TextureUnits
  | .glActiveTexture texture => { s with active := texture }
  | .glBindTexture target texture =>
    { s with bound := ((s.active, target), texture) :: s.bound }
  | _ => s

/-- The bindings after the calls of a trace. -/
def after (s : TextureUnits) (t : List Ev) : TextureUnits :=
  t.foldl step s

/-- The texture bound to `target` of `unit`; 0 when no texture is bound. -/
def boundAt (s : TextureUnits) (unit target : Nat) : Nat :=
  (s.bound.lookup (unit, target)).getD 0

end TextureUnits

/-- The framebuffer state of the OpenGL context: the framebuffer and the renderbuffer
bound, and, latest first, the storage given to each renderbuffer, the depth attachment made
on each framebuffer and the framebuffer bound at each draw call. -/
structure Framebuffers where
  framebuffer : Nat
  renderbuffer : Nat
  storage : List (Nat × (Int × Int))
  depth : List (Nat × Nat)
  drawn : List Nat
deriving DecidableEq, Repr

namespace Framebuffers

/-- The state of a new context: the default framebuffer 0 is bound. -/
def initial : Framebuffers :=
  { framebuffer := 0, renderbuffer := 0, storage := [], depth := [], drawn := [] }

/-- The effect of one call: `glBindFramebuffer` and `glBindRenderbuffer` select an object,
`glRenderbufferStorage` sizes the renderbuffer bound, `glFramebufferRenderbuffer` with
`GL_DEPTH_ATTACHMENT` attaches a renderbuffer as depth buffer of the framebuffer bound, and
a draw call renders into the framebuffer bound. -/
def step (s : Framebuffers) : Ev → Framebuffers
  | .glBindFramebuffer _ framebuffer => { s with framebuffer := framebuffer }
  | .glBindRenderbuffer _ renderbuffer => { s with renderbuffer := renderbuffer }
  | .glRenderbufferStorage _ _ width height =>
    { s with storage := (s.renderbuffer, (width, height)) :: s.storage }
  | .glFramebufferRenderbuffer _ attachment _ renderbuffer =>
    if attachment = GL_DEPTH_ATTACHMENT then
      { s with depth := (s.framebuffer, renderbuffer) :: s.depth }
    else s
  | .glDrawArrays _ _ _ => { s with drawn := s.framebuffer :: s.drawn }
  | .glDrawElements _ _ _ _ => { s with drawn := s.framebuffer :: s.drawn }
  | _ => s

/-- The state after the calls of a trace. -/
def after (s : Framebuffers) (t : List Ev) : Framebuffers :=
  t.foldl step s

/-- The renderbuffer attached as depth buffer of `framebuffer`; 0 when there is none. -/
def depthOf (s : Framebuffers) (framebuffer : Nat) : Nat :=
  (s.depth.lookup framebuffer).getD 0

end Framebuffers

/-- The four values of a `glUniform4f` event at `location`. -/
def uniform4fAt (location : Int) : Ev → Option (Dyadic × Dyadic × Dyadic × Dyadic)
  | .glUniform4f l x y z w => if l = location then some (x, y, z, w) else none
  | _ => none

/-- The shader files of a `compileProgram` event. -/
def compiledShaders : Ev → Option (List String)
  | .compileProgram paths _ => some paths
  | _ => none

/-- The steps only the interactive loop of `run` takes. -/
def isLoopStep : Ev → Bool
  | .imguiRenderFrame => true
  | .glfwPollEvents => true
  | .swapBuffers => true
  | _ => false

/-- The steps only the two final branches of `run` take: those of the capture branch and
those of the interactive loop. -/
def isDriverStep : Ev → Bool
  | .allocatePixels _ => true
  | .renderToImage _ _ _ => true
  | .flipImageYAxis _ _ _ => true
  | .stbi_write_png _ _ _ _ _ => true
  | .imguiRenderFrame => true
  | .glfwPollEvents => true
  | .swapBuffers => true
  | _ => false

/-- Creation of an OpenGL object or a draw call. -/
def createsOrDraws : Ev → Bool
  | .glGenTextures _ _ => true
  | .glGenFramebuffers _ _ => true
  | .glGenRenderbuffers _ _ => true
  | .glGenBuffers _ _ => true
  | .glGenVertexArrays _ _ => true
  | .glDrawArrays _ _ _ => true
  | .glDrawElements _ _ _ _ => true
  | _ => false

/-- The name `textureObjects[i]`, or 0 when `i` is not an index of the table. -/
def handleAt (res : Resources) (i : Int) : Nat :=
  (at? res.textureObjects i).getD 0

/-- The element `v[i]` of a factor vector, or 0 when `i` is not an index of it. -/
def factorAt (v : List Dyadic) (i : Nat) : Dyadic :=
  (v[i]?).getD ⟨0, 0⟩

/-- The calls of the base colour channel: with the toggle `enabled` the texture of the image
`source`, else the white texture. -/
def baseColorEvents (enabled : Bool) (res : Resources) (source : Int) : List Ev :=
  if enabled then
    [.glActiveTexture GL_TEXTURE0, .read .textureObjects source,
     .glBindTexture GL_TEXTURE_2D (handleAt res source)]
  else
    [.glActiveTexture GL_TEXTURE0, .glBindTexture GL_TEXTURE_2D res.whiteTexture]

/-- The calls of the metallic-roughness channel: with the toggle `enabled` the material's texture
and its base colour, metallic and roughness factors, else no texture, base colour factor
(1, 1, 1, 1) and factors 0. -/
def metallicRoughnessEvents (enabled : Bool) (loc : Locations) (res : Resources)
    (pbr : PbrMetallicRoughness) : List Ev :=
  if enabled then
    [.glActiveTexture (GL_TEXTURE0 + 1), .read .textureObjects pbr.metallicRoughnessTexture.index,
     .glBindTexture GL_TEXTURE_2D (handleAt res pbr.metallicRoughnessTexture.index),
     .read .baseColorFactor 0, .read .baseColorFactor 1, .read .baseColorFactor 2,
     .read .baseColorFactor 3,
     .glUniform4f loc.baseColorFactorLocation (factorAt pbr.baseColorFactor 0)
       (factorAt pbr.baseColorFactor 1) (factorAt pbr.baseColorFactor 2)
       (factorAt pbr.baseColorFactor 3),
     .glUniform1f loc.metallicFactorLocation pbr.metallicFactor,
     .glUniform1f loc.roughnessFactorLocation pbr.roughnessFactor]
  else
    [.glActiveTexture (GL_TEXTURE0 + 1), .glBindTexture GL_TEXTURE_2D 0,
     .glUniform4f loc.baseColorFactorLocation ⟨1, 0⟩ ⟨1, 0⟩ ⟨1, 0⟩ ⟨1, 0⟩,
     .glUniform1f loc.metallicFactorLocation ⟨0, 0⟩,
     .glUniform1f loc.roughnessFactorLocation ⟨0, 0⟩]

/-- The calls of the emissive channel: with the toggle `enabled` the material's texture and
factor, else no texture and factor (0, 0, 0). -/
def emissiveEvents (enabled : Bool) (loc : Locations) (res : Resources) (material : Material) :
    List Ev :=
  if enabled then
    [.glActiveTexture (GL_TEXTURE0 + 2), .read .textureObjects material.emissiveTexture.index,
     .glBindTexture GL_TEXTURE_2D (handleAt res material.emissiveTexture.index),
     .read .emissiveFactor 0, .read .emissiveFactor 1, .read .emissiveFactor 2,
     .glUniform3f loc.emissiveFactorLocation (.num (factorAt material.emissiveFactor 0))
       (.num (factorAt material.emissiveFactor 1)) (.num (factorAt material.emissiveFactor 2))]
  else
    [.glActiveTexture (GL_TEXTURE0 + 2), .glBindTexture GL_TEXTURE_2D 0,
     .glUniform3f loc.emissiveFactorLocation (.num ⟨0, 0⟩) (.num ⟨0, 0⟩) (.num ⟨0, 0⟩)]

/-- The calls of the occlusion channel: with the toggle `enabled` the material's texture (the
white texture when its name is 0) and strength, else the white texture and strength 1. -/
def occlusionEvents (enabled : Bool) (loc : Locations) (res : Resources) (material : Material) :
    List Ev :=
  if enabled then
    [.read .textureObjects material.occlusionTexture.index,
     .glActiveTexture (GL_TEXTURE0 + 3),
     .glBindTexture GL_TEXTURE_2D
       (if handleAt res material.occlusionTexture.index = 0 then res.whiteTexture
        else handleAt res material.occlusionTexture.index),
     .glUniform1f loc.occlusionStrengthLocation material.occlusionTexture.strength]
  else
    [.glActiveTexture (GL_TEXTURE0 + 3), .glBindTexture GL_TEXTURE_2D res.whiteTexture,
     .glUniform1f loc.occlusionStrengthLocation ⟨1, 0⟩]

/-- The calls of the normal channel: with the toggle `enabled` the material's normal map and
scale, else the grey texture and scale 1. -/
def normalEvents (enabled : Bool) (loc : Locations) (res : Resources) (material : Material) :
    List Ev :=
  if enabled then
    [.glActiveTexture (GL_TEXTURE0 + 4), .read .textureObjects material.normalTexture.index,
     .glBindTexture GL_TEXTURE_2D (handleAt res material.normalTexture.index),
     .glUniform1f loc.normalScaleLocation material.normalTexture.scale]
  else
    [.glActiveTexture (GL_TEXTURE0 + 4), .glBindTexture GL_TEXTURE_2D res.greyTexture,
     .glUniform1f loc.normalScaleLocation ⟨1, 0⟩]

/-- The calls for the environment maps: with the toggle `enabled` the irradiance map, the
prefilter map and the BRDF LUT on units 5, 6 and 7, else texture 0 on each. -/
def environmentEvents (enabled : Bool) (res : Resources) : List Ev :=
  if enabled then
    [.glActiveTexture (GL_TEXTURE0 + 5), .glBindTexture GL_TEXTURE_CUBE_MAP res.irradianceMap,
     .glActiveTexture (GL_TEXTURE0 + 6), .glBindTexture GL_TEXTURE_CUBE_MAP res.prefilterMap,
     .glActiveTexture (GL_TEXTURE0 + 7), .glBindTexture GL_TEXTURE_2D res.brdfLUT]
  else
    [.glActiveTexture (GL_TEXTURE0 + 5), .glBindTexture GL_TEXTURE_CUBE_MAP 0,
     .glActiveTexture (GL_TEXTURE0 + 6), .glBindTexture GL_TEXTURE_CUBE_MAP 0,
     .glActiveTexture (GL_TEXTURE0 + 7), .glBindTexture GL_TEXTURE_2D 0]

/-- Whether every lookup `bindMaterial` can make for `material` is in range: the base colour
texture, the image index of that texture and the four other texture indices in
`textureObjects`, and the components of the two factor vectors. -/
def materialResolves (model : Model) (res : Resources) (material : Material) : Bool :=
  match at? model.textures material.pbrMetallicRoughness.baseColorTexture.index with
  | none => false
  | some texture =>
    (at? res.textureObjects texture.source).isSome
    && (at? res.textureObjects
          material.pbrMetallicRoughness.metallicRoughnessTexture.index).isSome
    && (at? res.textureObjects material.emissiveTexture.index).isSome
    && (at? res.textureObjects material.occlusionTexture.index).isSome
    && (at? res.textureObjects material.normalTexture.index).isSome
    && decide (4 ≤ material.pbrMetallicRoughness.baseColorFactor.length)
    && decide (3 ≤ material.emissiveFactor.length)

/-- The parameter name and value of a `glTexParameteri` event. -/
def texParameter : Ev → Option (Nat × Int)
  | .glTexParameteri _ pname param => some (pname, param)
  | _ => none

/-- Calls of `glGenerateMipmap`. -/
def isGenerateMipmap : Ev → Bool
  | .glGenerateMipmap _ => true
  | _ => false

/-- Whether the image and sampler references of a texture are in range. -/
def textureOk (model : Model) (texture : Texture) : Bool :=
  (at? model.images texture.source).isSome
  && (decide (texture.sampler < 0) || (at? model.samplers texture.sampler).isSome)

/-- Whether the image and sampler references of every texture are in range. -/
def texturesOk (model : Model) : Bool :=
  model.textures.all (textureOk model)

/-- The four minification filters that sample mipmaps. -/
def isMipmapFilter (f : Int) : Bool :=
  decide (f = GL_NEAREST_MIPMAP_NEAREST) || decide (f = GL_NEAREST_MIPMAP_LINEAR)
  || decide (f = GL_LINEAR_MIPMAP_NEAREST) || decide (f = GL_LINEAR_MIPMAP_LINEAR)

/-- The sampler a texture references, or the default sampler when it references none. -/
def samplerOf (model : Model) (texture : Texture) : Sampler :=
  if texture.sampler ≥ 0 then (at? model.samplers texture.sampler).getD defaultSampler
  else defaultSampler

/-- The minification filter resolved for a texture: the filter of its sampler, or
`GL_LINEAR` when the texture has no sampler or the sampler leaves the filter unspecified
(-1). -/
def resolvedMinFilter (model : Model) (texture : Texture) : Int :=
  if (samplerOf model texture).minFilter = -1 then GL_LINEAR
  else (samplerOf model texture).minFilter

/-- The magnification filter resolved for a texture, in the same way. -/
def resolvedMagFilter (model : Model) (texture : Texture) : Int :=
  if (samplerOf model texture).magFilter = -1 then GL_LINEAR
  else (samplerOf model texture).magFilter

/-- The steps expected for texture `i` when the first texture name is `n`: the name `n + i`
is generated and bound, the image is uploaded, the resolved filters and the wrap modes of
the sampler are set, and mipmaps are generated exactly when the resolved minification
filter samples mipmaps. -/
def textureEvents (model : Model) (n i : Nat) : List Ev :=
  match model.textures[i]? with
  | none => []
  | some texture =>
    match at? model.images texture.source with
    | none => []
    | some image =>
      [.read .textureObjects i, .glGenTextures 1 [n + i], .read .textureObjects i,
       .glBindTexture GL_TEXTURE_2D (n + i), .read .textures i, .read .images texture.source,
       .glTexImage2D GL_TEXTURE_2D 0 GL_RGBA image.width image.height 0 GL_RGBA
         image.pixel_type (.image texture.source)]
      ++ (if texture.sampler ≥ 0 then [Ev.read .samplers texture.sampler] else [])
      ++ [.glTexParameteri GL_TEXTURE_2D GL_TEXTURE_MIN_FILTER (resolvedMinFilter model texture),
          .glTexParameteri GL_TEXTURE_2D GL_TEXTURE_MAG_FILTER (resolvedMagFilter model texture),
          .glTexParameteri GL_TEXTURE_2D GL_TEXTURE_WRAP_S (samplerOf model texture).wrapS,
          .glTexParameteri GL_TEXTURE_2D GL_TEXTURE_WRAP_T (samplerOf model texture).wrapT,
          .glTexParameteri GL_TEXTURE_2D GL_TEXTURE_WRAP_R (samplerOf model texture).wrapR]
      ++ (if isMipmapFilter (resolvedMinFilter model texture) then
            [Ev.glGenerateMipmap GL_TEXTURE_2D]
          else [])

/-- Modelled from the spec: `componentCount(type)`, the number of components of an accessor
type, on the tinygltf type codes (VEC2 2, VEC3 3, VEC4 4, MAT2 34, MAT3 35, MAT4 36,
SCALAR 65). The function is not part of the translated file. -/
def componentCount (type : Int) : Nat :=
  if type = 65 then 1 else if type = 2 then 2 else if type = 3 then 3 else if type = 4 then 4
  else if type = 34 then 4 else if type = 35 then 9 else if type = 36 then 16 else 0

/-- Modelled from the spec: `componentSize(componentType)`, the size in bytes of one
component, on the glTF component type codes (BYTE 5120 .. FLOAT 5126, DOUBLE 5130). The
function is not part of the translated file. -/
def componentSize (componentType : Int) : Nat :=
  if componentType = 5120 ∨ componentType = 5121 then 1
  else if componentType = 5122 ∨ componentType = 5123 then 2
  else if componentType = 5124 ∨ componentType = 5125 ∨ componentType = 5126 then 4
  else if componentType = 5130 then 8 else 0

/-! ## Sample inputs -/

/-- A scene with two meshes (two primitives, then one) sharing a float VEC3 position accessor
and an unsigned-short index accessor; node 0 carries mesh 0 and has node 1, which carries
mesh 1, as its only child. -/
def sampleModel : Model :=
  { accessors := [⟨0, 0, 5126, 3, 3⟩, ⟨1, 0, 5123, 3, 65⟩],
    bufferViews := [⟨0, 0, 0⟩, ⟨0, 36, 0⟩],
    buffers := [⟨List.replicate 42 0⟩],
    meshes := [⟨[⟨[("POSITION", 0)], -1, 1, 4⟩, ⟨[("POSITION", 0)], -1, -1, 4⟩]⟩,
               ⟨[⟨[("NORMAL", 0), ("POSITION", 0)], -1, 1, 4⟩]⟩],
    materials := [], textures := [], images := [], samplers := [],
    nodes := [⟨0, [1]⟩, ⟨1, []⟩], scenes := [⟨[0]⟩], defaultScene := 0 }

/-- An application object with a 800 x 600 window whose cube and quad have been created. -/
def sampleApp : App :=
  { m_nWindowWidth := 800, m_nWindowHeight := 600, m_unitCubeVAO := 3, m_unitCubeVBO := 4,
    m_quadVAO := 1, m_quadVBO := 2, m_vertexShader := "forward.vs.glsl",
    m_fragmentShader := "pbr.fs.glsl", m_skyboxVertexShader := "skybox.vs.glsl",
    m_skyboxFragmentShader := "skybox.fs.glsl", m_cubemapVertexShader := "cubemap.vs.glsl",
    m_cubemapFragmentShader := "cubemap.fs.glsl",
    m_irradianceFragmentShader := "irradiance.fs.glsl",
    m_prefilterFragmentShader := "prefilter.fs.glsl",
    m_integrateVertexShader := "integrate.vs.glsl",
    m_integrateFragmentShader := "integrate.fs.glsl", hasCubeMapFilePath := false,
    m_OutputPath := "" }

/-- An environment in which every shader pair compiles to program 1, every uniform has
location 0 and no environment image is loaded. -/
def sampleEnv : Env :=
  { compileProgram := fun _ => 1, uniformLocation := fun _ _ => 0, envImage := none }

/-- Uniform locations 0 .. 23 in declaration order. -/
def sampleLocations : Locations :=
  { modelViewProjMatrixLocation := 0, modelViewMatrixLocation := 1, modelMatrixLocation := 2,
    normalMatrixLocation := 3, lightDirectionLocation := 4, lightRadianceLocation := 5,
    baseColorLocation := 6, baseColorFactorLocation := 7, metallicFactorLocation := 8,
    roughnessFactorLocation := 9, metallicRoughnessTextureLocation := 10,
    emissiveTextureLocation := 11, emissiveFactorLocation := 12, occlusionTextureLocation := 13,
    occlusionStrengthLocation := 14, normalTextureLocation := 15, normalScaleLocation := 16,
    irradianceTextureLocation := 17, prefilterTextureLocation := 18, brdfLUTLocation := 19,
    camDirLocation := 20, skyboxEquirectangularMapLocation := 0,
    skyboxModelProjMatrixLocation := 1, skyboxModelViewMatrixLocation := 2 }

/-- All feature toggles on, as `run` initialises them. -/
def sampleFeatures : Features :=
  { lightFromCamera := true, featureTexture := true, featureMetallicRoughness := true,
    featureOcclusion := true, featureEmission := true, featureNormal := true,
    featureEnvironment := true }

/-- Resources of `sampleModel`: the tables are those `createVertexArrayObjects` returns for it
when started with counter 10. -/
def sampleResources : Resources :=
  { glslProgram := 1, glslSkyboxProgram := 2, textureObjects := [], whiteTexture := 5,
    greyTexture := 6, brdfLUT := 7, envTexture := 8, irradianceMap := 9, prefilterMap := 4,
    meshIndexToVaoRange := [⟨0, 2⟩, ⟨2, 1⟩], vertexArrayObjects := [10, 11, 12] }

/-- A primitive without attributes, indices or material. -/
def barePrimitive : Primitive :=
  { attributes := [], material := -1, indices := -1, mode := 4 }

/-- The count `2^31`, one more than the largest `GLsizei`. -/
def hugeCount : Nat := 2 ^ 31

/-- A scene whose only mesh has `2^31` primitives. -/
def hugeModel : Model :=
  { accessors := [], bufferViews := [], buffers := [],
    meshes := [⟨List.replicate hugeCount barePrimitive⟩],
    materials := [], textures := [], images := [], samplers := [],
    nodes := [], scenes := [], defaultScene := -1 }

/-- A material with a texture on every channel, base colour factor (1/2, 1/4, 1, 1) and
emissive factor (1/4, 0, 1). -/
def fullMaterial : Material :=
  { emissiveFactor := [⟨1, -2⟩, ⟨0, 0⟩, ⟨1, 0⟩],
    pbrMetallicRoughness :=
      { baseColorFactor := [⟨1, -1⟩, ⟨1, -2⟩, ⟨1, 0⟩, ⟨1, 0⟩], baseColorTexture := ⟨0⟩,
        metallicFactor := ⟨1, -1⟩, roughnessFactor := ⟨3, -2⟩,
        metallicRoughnessTexture := ⟨1⟩ },
    normalTexture := ⟨1, ⟨1, 1⟩⟩, occlusionTexture := ⟨0, ⟨1, -1⟩⟩,
    emissiveTexture := ⟨1⟩ }

/-- A material with a base colour texture, a metallic-roughness texture, an emissive texture
and an occlusion texture, and no normal map (index -1). -/
def flatMaterial : Material :=
  { fullMaterial with normalTexture := ⟨-1, ⟨1, 0⟩⟩ }

/-- A material without any texture (all indices -1). -/
def bareMaterial : Material :=
  { emissiveFactor := [⟨0, 0⟩, ⟨0, 0⟩, ⟨0, 0⟩],
    pbrMetallicRoughness :=
      { baseColorFactor := [⟨1, 0⟩, ⟨1, 0⟩, ⟨1, 0⟩, ⟨1, 0⟩], baseColorTexture := ⟨-1⟩,
        metallicFactor := ⟨1, 0⟩, roughnessFactor := ⟨1, 0⟩,
        metallicRoughnessTexture := ⟨-1⟩ },
    normalTexture := ⟨-1, ⟨1, 0⟩⟩, occlusionTexture := ⟨-1, ⟨1, 0⟩⟩,
    emissiveTexture := ⟨-1⟩ }

/-- A scene with two textures, two images and one sampler, and the three materials above.
The three primitives of the only mesh use materials 0, 1 and none. -/
def texturedModel : Model :=
  { accessors := [⟨0, 0, 5126, 3, 3⟩, ⟨1, 0, 5123, 3, 65⟩],
    bufferViews := [⟨0, 0, 0⟩, ⟨0, 36, 0⟩],
    buffers := [⟨List.replicate 42 0⟩],
    meshes := [⟨[⟨[("POSITION", 0)], 0, 1, 4⟩, ⟨[("POSITION", 0)], 1, 1, 4⟩,
                 ⟨[("POSITION", 0)], -1, 1, 4⟩]⟩],
    materials := [fullMaterial, flatMaterial, bareMaterial],
    textures := [⟨-1, 0⟩, ⟨0, 1⟩],
    images := [⟨2, 2, 5121⟩, ⟨4, 4, 5121⟩],
    samplers := [⟨GL_LINEAR_MIPMAP_LINEAR, -1, GL_CLAMP_TO_EDGE, GL_REPEAT, GL_REPEAT⟩],
    nodes := [⟨0, []⟩], scenes := [⟨[0]⟩], defaultScene := 0 }

/-- Resources of `texturedModel`: the two scene textures have names 20 and 21. -/
def texturedResources : Resources :=
  { glslProgram := 1, glslSkyboxProgram := 2, textureObjects := [20, 21], whiteTexture := 5,
    greyTexture := 6, brdfLUT := 7, envTexture := 8, irradianceMap := 9, prefilterMap := 4,
    meshIndexToVaoRange := [⟨0, 3⟩], vertexArrayObjects := [10, 11, 12] }

/-- The textured sample scene with the images of its two textures exchanged: texture 0
shows image 1 and texture 1 shows image 0. -/
def crossedModel : Model :=
  { texturedModel with textures := [⟨-1, 1⟩, ⟨0, 0⟩] }

/-- The textured sample scene with a single texture, which shows image 1. -/
def singleTextureModel : Model :=
  { texturedModel with textures := [⟨-1, 1⟩] }

/-- Resources of `singleTextureModel`: its texture has the name 20. -/
def singleTextureResources : Resources :=
  { texturedResources with textureObjects := [20] }

/-- The sample scene with a root node that references no mesh (a group node) above the node
that carries mesh 1. -/
def groupModel : Model :=
  { sampleModel with nodes := [⟨-1, [1]⟩, ⟨1, []⟩] }

/-- The sample scene with one mesh whose only primitive has a NORMAL attribute and no
POSITION attribute, and no indices. -/
def normalOnlyModel : Model :=
  { sampleModel with meshes := [⟨[⟨[("NORMAL", 0)], -1, -1, 4⟩]⟩], nodes := [⟨0, []⟩] }

/-- Resources of `normalOnlyModel`. -/
def normalOnlyResources : Resources :=
  { sampleResources with meshIndexToVaoRange := [⟨0, 1⟩], vertexArrayObjects := [10] }

/-- The sample application object before `run`: no cube or quad yet, and the output path
`out.png`. -/
def captureApp : App :=
  { sampleApp with m_unitCubeVAO := 0, m_unitCubeVBO := 0, m_quadVAO := 0, m_quadVBO := 0,
                   m_OutputPath := "out.png" }

/-- The sample application object before `run`, without output path. -/
def interactiveApp : App :=
  { sampleApp with m_unitCubeVAO := 0, m_unitCubeVBO := 0, m_quadVAO := 0, m_quadVBO := 0 }

/-- A host whose loader succeeds with the sample scene and whose window is closed after two
frames; the GUI switches the environment maps off after the first frame. -/
def sampleHost : Host :=
  { gltfLoads := true, model := sampleModel, frames := 2,
    gui := fun _ => { initialFeatures with featureEnvironment := false } }

/-- A host whose loader fails. -/
def failingHost : Host :=
  { sampleHost with gltfLoads := false }

/-- A computation none of whose successful runs issues a draw call. -/
def NoDraw {α : Type} (m : GLM α) : Prop :=
  ∀ n a t n1, m n = .ok (a, t, n1) → t.filter isDraw = []

/-- A computation none of whose successful runs records an event satisfying `p`. -/
structure Silent {α : Type} (p : Ev → Bool) (m : GLM α) : Prop where
  quiet : ∀ n a t n1, m n = .ok (a, t, n1) → ∀ e ∈ t, p e = false

/-- A computation that takes no fresh object name: a successful run leaves the counter as it
was. -/
structure Steady {α : Type} (m : GLM α) : Prop where
  same : ∀ n a t n1, m n = .ok (a, t, n1) → n1 = n

/-! # Theorems -/

/-! ## The monad and the VAO builder -/

theorem GLM.pure_apply {α : Type} (a : α) (n : Nat) :
    (pure a : GLM α) n = .ok (a, [], n) := rfl

theorem GLM.bind_apply {α β : Type} (m : GLM α) (f : α → GLM β) (n : Nat) :
    (m >>= f) n = GLM.andThen m f n := rfl

theorem GLM.bind_ok {α β : Type} {m : GLM α} {f : α → GLM β} {n n1 n2 : Nat} {a : α} {b : β}
    {t u : List Ev} (h1 : m n = .ok (a, t, n1)) (h2 : f a n1 = .ok (b, u, n2)) :
    (m >>= f) n = .ok (b, t ++ u, n2) := by
  simp [GLM.bind_apply, GLM.andThen, h1, h2]

theorem at?_natCast {α : Type} (v : List α) (i : Nat) : at? v (i : Int) = v[i]? := by
  simp [at?]

theorem GLM.index_ok {α : Type} (t : Table) (v : List α) (i : Nat) (h : i < v.length) (n : Nat) :
    GLM.index t v (i : Int) n = .ok (v[i], [Ev.read t i], n) := by
  simp [GLM.index, at?_natCast, h]

theorem GLM.index_of_at? {α : Type} (t : Table) (v : List α) (i : Int) (x : α)
    (h : at? v i = some x) (n : Nat) :
    GLM.index t v i n = .ok (x, [Ev.read t i], n) := by
  simp [GLM.index, h]

theorem toGLsizei_small (k : Nat) (h : k < 2 ^ 31) : toGLsizei k = k := by
  unfold toGLsizei
  have : k % 2 ^ 32 = k := Nat.mod_eq_of_lt (by omega)
  rw [this]; norm_num at h; simp [h]

theorem genCount_small (k : Nat) (h : k < 2 ^ 31) : genCount (toGLsizei k) = k := by
  rw [toGLsizei_small k h]; simp [genCount]

theorem genCount_natCast (k : Nat) : genCount (k : Int) = k := by
  simp [genCount]

theorem addSizeT_small (a b : Nat) (h : a + b < 2 ^ 64) : addSizeT a b = a + b := by
  unfold addSizeT; exact Nat.mod_eq_of_lt h

theorem resize_grow (v : List Nat) (k : Nat) : resize v (v.length + k) 0 = v ++ List.replicate k 0 := by
  simp [resize]

theorem writeAt_end (v names : List Nat) :
    writeAt (v ++ List.replicate names.length 0) v.length names = v ++ names := by
  simp [writeAt]

theorem loopFrom_one {σ : Type} (body : Nat → σ → GLM σ) (i : Nat) (s : σ) (n : Nat) (s1 : σ)
    (t : List Ev) (n1 : Nat) (h : body i s n = .ok (s1, t, n1)) :
    loopFrom body 1 i s n = .ok (s1, t ++ [], n1) :=
  GLM.bind_ok h rfl

/-- A unit-state loop whose bodies all succeed without touching the counter succeeds. -/
theorem loopFrom_unit_ok (body : Nat → Unit → GLM Unit) (n : Nat) :
    ∀ (count i : Nat), (∀ k, i ≤ k → k < i + count → ∃ t, body k () n = .ok ((), t, n)) →
      ∃ t, loopFrom body count i () n = .ok ((), t, n) := by
  intro count
  induction count with
  | zero => intro i _; exact ⟨[], rfl⟩
  | succ c ih =>
    intro i h
    obtain ⟨t1, h1⟩ := h i (Nat.le_refl i) (by omega)
    obtain ⟨t2, h2⟩ := ih (i + 1) (fun k hk1 hk2 => h k (by omega) (by omega))
    exact ⟨t1 ++ t2, by simp only [loopFrom]; exact GLM.bind_ok h1 h2⟩

theorem vao_init_absent (model : Model) (p : Primitive) (bo : List Nat) (str : String)
    (index : Nat) (hl : p.attributes.lookup str = none) (n : Nat) :
    vao_init model p bo str index n = .ok ((), [], n) := by
  simp only [vao_init, hl]; rfl

theorem vao_init_present (model : Model) (p : Primitive) (bo : List Nat) (str : String)
    (index : Nat) (a : Int) (acc : Accessor) (bv : BufferView) (b : Buffer) (o : Nat)
    (hl : p.attributes.lookup str = some a) (ha : at? model.accessors a = some acc)
    (hb : at? model.bufferViews acc.bufferView = some bv)
    (hb1 : at? model.buffers bv.buffer = some b) (hb2 : at? bo bv.buffer = some o) (n : Nat) :
    vao_init model p bo str index n = .ok ((), attributeEvents index a acc bv o, n) := by
  simp only [vao_init, hl]
  simp [GLM.bind_apply, GLM.andThen, GLM.index, GLM.emit, ha, hb, hb1, hb2, attributeEvents]

theorem vao_init_ok (model : Model) (p : Primitive) (bo : List Nat) (str : String) (index : Nat)
    (h : attributeOk model bo p str = true) (n : Nat) :
    ∃ t, vao_init model p bo str index n = .ok ((), t, n) := by
  unfold attributeOk at h
  cases hl : p.attributes.lookup str with
  | none => exact ⟨[], vao_init_absent model p bo str index hl n⟩
  | some a =>
    rw [hl] at h
    simp only at h
    unfold accessorOk at h
    cases ha : at? model.accessors a with
    | none => simp [ha] at h
    | some acc =>
      simp only [ha] at h
      cases hb : at? model.bufferViews acc.bufferView with
      | none => simp [hb] at h
      | some bv =>
        simp only [hb, Bool.and_eq_true, Option.isSome_iff_exists] at h
        obtain ⟨⟨b, hb1⟩, ⟨o, hb2⟩⟩ := h
        exact ⟨_, vao_init_present model p bo str index a acc bv b o hl ha hb hb1 hb2 n⟩

theorem indices_ok (model : Model) (p : Primitive) (bo : List Nat)
    (h : indicesOk model bo p = true) (n : Nat) :
    ∃ t, (if p.indices ≥ 0 then do
        let accessor ← GLM.index .accessors model.accessors p.indices
        let bufferView ← GLM.index .bufferViews model.bufferViews accessor.bufferView
        let bo ← GLM.index .bufferObjects bo bufferView.buffer
        GLM.emit (.glBindBuffer GL_ELEMENT_ARRAY_BUFFER bo)
      else (pure () : GLM Unit)) n = .ok ((), t, n) := by
  unfold indicesOk at h
  by_cases hi : p.indices ≥ 0
  · simp only [hi, if_true] at h ⊢
    cases ha : at? model.accessors p.indices with
    | none => simp [ha] at h
    | some acc =>
      simp only [ha] at h
      cases hb : at? model.bufferViews acc.bufferView with
      | none => simp [hb] at h
      | some bv =>
        simp only [hb, Option.isSome_iff_exists] at h
        obtain ⟨o, hb2⟩ := h
        exact ⟨[.read .accessors p.indices, .read .bufferViews acc.bufferView,
          .read .bufferObjects bv.buffer, .glBindBuffer GL_ELEMENT_ARRAY_BUFFER o], by
          simp [GLM.bind_apply, GLM.andThen, GLM.index, GLM.emit, ha, hb, hb2]⟩
  · simp only [hi, if_false]; exact ⟨[], rfl⟩

theorem initPrimitive_ok (model : Model) (bo vaos : List Nat) (i offset k : Nat) (mesh : Mesh)
    (p : Primitive) (hv : offset + k < vaos.length) (h64 : offset + k < 2 ^ 64)
    (hm : model.meshes[i]? = some mesh) (hp : mesh.primitives[k]? = some p)
    (hok : primitiveOk model bo p = true) (n : Nat) :
    ∃ t, initPrimitive model bo vaos i offset k n = .ok ((), t, n) := by
  simp only [primitiveOk, Bool.and_eq_true] at hok
  obtain ⟨⟨⟨h1, h2⟩, h3⟩, h4⟩ := hok
  obtain ⟨t1, e1⟩ := vao_init_ok model p bo "POSITION" VERTEX_ATTRIB_POSITION_IDX h1 n
  obtain ⟨t2, e2⟩ := vao_init_ok model p bo "NORMAL" VERTEX_ATTRIB_NORMAL_IDX h2 n
  obtain ⟨t3, e3⟩ := vao_init_ok model p bo "TEXCOORD_0" VERTEX_ATTRIB_TEXCOORD0_IDX h3 n
  obtain ⟨t4, e4⟩ := indices_ok model p bo h4 n
  have hvao : at? vaos ((addSizeT offset k : Nat) : Int) = some (vaos[offset + k]) := by
    rw [addSizeT_small offset k h64, at?_natCast]; simp [hv]
  have hm2 : at? model.meshes (i : Int) = some mesh := by rw [at?_natCast]; exact hm
  have hp2 : at? mesh.primitives (k : Int) = some p := by rw [at?_natCast]; exact hp
  unfold initPrimitive
  simp only [GLM.bind_apply, GLM.andThen, GLM.index, hvao, hm2, hp2, GLM.emit, e1, e2, e3, e4]
  exact ⟨_, rfl⟩

theorem primitivesBefore_succ (model : Model) (i : Nat) (mesh : Mesh)
    (hm : model.meshes[i]? = some mesh) :
    primitivesBefore model (i + 1) = primitivesBefore model i + mesh.primitives.length := by
  unfold primitivesBefore
  rw [List.take_succ, hm]
  simp

theorem primitivesBefore_length (model : Model) :
    primitivesBefore model model.meshes.length = totalPrimitives model := by
  simp [primitivesBefore, totalPrimitives]

theorem primitivesBefore_mono (model : Model) (i : Nat) :
    primitivesBefore model i ≤ primitivesBefore model (i + 1) := by
  cases hm : model.meshes[i]? with
  | none =>
    have hlen : model.meshes.length ≤ i := by
      rcases Nat.lt_or_ge i model.meshes.length with h | h
      · simp [List.getElem?_eq_getElem h] at hm
      · exact h
    unfold primitivesBefore
    rw [List.take_of_length_le hlen, List.take_of_length_le (by omega)]
  | some mesh => rw [primitivesBefore_succ model i mesh hm]; omega

theorem primitivesBefore_le_total (model : Model) (i : Nat) :
    primitivesBefore model i ≤ totalPrimitives model := by
  rcases Nat.lt_or_ge i model.meshes.length with h | h
  · have key : ∀ d, primitivesBefore model i ≤ primitivesBefore model (i + d) := by
      intro d
      induction d with
      | zero => exact Nat.le_refl _
      | succ d ih => exact Nat.le_trans ih (primitivesBefore_mono model (i + d))
    have := key (model.meshes.length - i)
    rw [show i + (model.meshes.length - i) = model.meshes.length by omega,
      primitivesBefore_length] at this
    exact this
  · unfold primitivesBefore totalPrimitives
    rw [List.take_of_length_le h]

theorem resourcesOk_primitive (model : Model) (bo : List Nat) (hok : resourcesOk model bo = true)
    (i k : Nat) (mesh : Mesh) (p : Primitive) (hm : model.meshes[i]? = some mesh)
    (hp : mesh.primitives[k]? = some p) : primitiveOk model bo p = true := by
  unfold resourcesOk at hok
  rw [List.all_eq_true] at hok
  have h1 := hok mesh (List.getElem?_mem hm)
  rw [List.all_eq_true] at h1
  exact h1 p (List.getElem?_mem hp)

theorem initMesh_small (model : Model) (bo : List Nat) (hok : resourcesOk model bo = true)
    (i : Nat) (st : VaoTables) (mesh : Mesh) (hm : model.meshes[i]? = some mesh)
    (hi : i < st.meshIndexToVaoRange.length)
    (hs : st.vertexArrayObjects.length + mesh.primitives.length < 2 ^ 31) (n : Nat) :
    ∃ t, initMesh model bo i st n = .ok
      ({ vertexArrayObjects :=
           st.vertexArrayObjects ++ (List.range mesh.primitives.length).map (fun j => n + j),
         meshIndexToVaoRange := st.meshIndexToVaoRange.set i
           { begin := st.vertexArrayObjects.length, count := mesh.primitives.length } },
       t, n + mesh.primitives.length) := by
  have hL : mesh.primitives.length < 2 ^ 31 := by omega
  have hO : st.vertexArrayObjects.length < 2 ^ 31 := by omega
  have hm2 : at? model.meshes (i : Int) = some mesh := by rw [at?_natCast]; exact hm
  have hr0 : at? st.meshIndexToVaoRange (i : Int) = some (st.meshIndexToVaoRange[i]) := by
    rw [at?_natCast]; simp [hi]
  have hr1 : at? (st.meshIndexToVaoRange.set i
      { st.meshIndexToVaoRange[i] with begin := (st.vertexArrayObjects.length : Int) }) (i : Int)
      = some { st.meshIndexToVaoRange[i] with begin := (st.vertexArrayObjects.length : Int) } := by
    rw [at?_natCast]; simp [hi]
  have hvaos : writeAt (resize st.vertexArrayObjects
      (addSizeT st.vertexArrayObjects.length mesh.primitives.length) 0)
      st.vertexArrayObjects.length ((List.range mesh.primitives.length).map (fun j => n + j))
      = st.vertexArrayObjects ++ (List.range mesh.primitives.length).map (fun j => n + j) := by
    rw [addSizeT_small _ _ (by omega), resize_grow]
    have := writeAt_end st.vertexArrayObjects
      ((List.range mesh.primitives.length).map (fun j => n + j))
    simpa using this
  obtain ⟨t, ht⟩ := loopFrom_unit_ok
    (fun k (_ : Unit) => initPrimitive model bo
      (st.vertexArrayObjects ++ (List.range mesh.primitives.length).map (fun j => n + j))
      i st.vertexArrayObjects.length k) (n + mesh.primitives.length) mesh.primitives.length 0
    (fun k _ hk => by
      have hk2 : k < mesh.primitives.length := by omega
      exact initPrimitive_ok model bo _ i _ k mesh (mesh.primitives[k]) (by simp; omega)
        (by omega) hm (List.getElem?_eq_getElem hk2)
        (resourcesOk_primitive model bo hok i k mesh _ hm (List.getElem?_eq_getElem hk2)) _)
  unfold initMesh
  simp only [GLM.bind_apply, GLM.andThen, GLM.index, hm2, hr0, toGLsizei_small _ hL,
    toGLsizei_small _ hO, hr1, GLM.fresh, genCount_natCast, GLM.emit, hvaos, ht,
    GLM.pure_apply, List.set_set]
  exact ⟨_, rfl⟩

theorem range_map_add_split (n a b : Nat) :
    (List.range a).map (fun j => n + j) ++ (List.range b).map (fun j => n + a + j)
      = (List.range (a + b)).map (fun j => n + j) := by
  rw [List.range_add, List.map_append, List.map_map]
  congr 1
  apply List.map_congr_left
  intro x _
  simp [Nat.add_assoc]

theorem meshLoop_small (model : Model) (bo : List Nat) (hok : resourcesOk model bo = true)
    (hsmall : totalPrimitives model < 2 ^ 31) :
    ∀ (count i : Nat) (st : VaoTables) (n : Nat), i + count = model.meshes.length →
      st.meshIndexToVaoRange.length = model.meshes.length →
      st.vertexArrayObjects.length = primitivesBefore model i →
      ∃ t st1, loopFrom (initMesh model bo) count i st n
          = .ok (st1, t, n + (totalPrimitives model - primitivesBefore model i)) ∧
        st1.vertexArrayObjects = st.vertexArrayObjects ++
          (List.range (totalPrimitives model - primitivesBefore model i)).map (fun j => n + j) ∧
        st1.meshIndexToVaoRange.length = model.meshes.length ∧
        (∀ j, j < i → st1.meshIndexToVaoRange[j]? = st.meshIndexToVaoRange[j]?) ∧
        (∀ j mesh, i ≤ j → model.meshes[j]? = some mesh → st1.meshIndexToVaoRange[j]? =
          some { begin := primitivesBefore model j, count := mesh.primitives.length }) := by
  intro count
  induction count with
  | zero =>
    intro i st n hi hr hv
    have hi2 : i = model.meshes.length := by omega
    refine ⟨[], st, ?_, ?_, hr, fun _ _ => rfl, ?_⟩
    · subst hi2
      rw [primitivesBefore_length]; simp [loopFrom, GLM.pure_apply]
    · subst hi2
      rw [primitivesBefore_length]; simp
    · intro j mesh hj hm
      have : j < model.meshes.length := by
        rcases Nat.lt_or_ge j model.meshes.length with h | h
        · exact h
        · rw [List.getElem?_eq_none h] at hm; cases hm
      omega
  | succ c ih =>
    intro i st n hi hr hv
    have hlt : i < model.meshes.length := by omega
    have hm : model.meshes[i]? = some model.meshes[i] := List.getElem?_eq_getElem hlt
    have hpb := primitivesBefore_succ model i _ hm
    have hle := primitivesBefore_le_total model (i + 1)
    obtain ⟨t1, h1⟩ := initMesh_small model bo hok i st _ hm (by omega) (by omega) n
    obtain ⟨t2, st2, h2, hv2, hr2, hlow, hhigh⟩ := ih (i + 1)
      { vertexArrayObjects := st.vertexArrayObjects ++
          (List.range model.meshes[i].primitives.length).map (fun j => n + j),
        meshIndexToVaoRange := st.meshIndexToVaoRange.set i
          { begin := st.vertexArrayObjects.length, count := model.meshes[i].primitives.length } }
      (n + model.meshes[i].primitives.length)
      (by omega) (by simpa using hr) (by simp [hv, hpb])
    have hsplit : totalPrimitives model - primitivesBefore model i
        = model.meshes[i].primitives.length
          + (totalPrimitives model - primitivesBefore model (i + 1)) := by omega
    refine ⟨t1 ++ t2, st2, ?_, ?_, hr2, ?_, ?_⟩
    · simp only [loopFrom]
      have := GLM.bind_ok h1 h2
      rw [this, hsplit, Nat.add_assoc]
    · rw [hv2, hsplit, List.append_assoc, range_map_add_split]
    · intro j hj
      rw [hlow j (by omega)]
      simp only
      rw [List.getElem?_set_ne (by omega)]
    · intro j mesh hj hmj
      rcases Nat.eq_or_lt_of_le hj with heq | hgt
      · subst heq
        rw [hm] at hmj
        cases hmj
        rw [hlow i (by omega)]
        simp only
        rw [List.getElem?_set_self (by omega), hv]
      · exact hhigh j mesh (by omega) hmj

theorem primitivesBefore_le (model : Model) (i j : Nat) (h : i ≤ j) :
    primitivesBefore model i ≤ primitivesBefore model j := by
  induction j with
  | zero => have : i = 0 := by omega
            subst this; exact Nat.le_refl _
  | succ j ih =>
    rcases Nat.eq_or_lt_of_le h with heq | hlt
    · subst heq; exact Nat.le_refl _
    · exact Nat.le_trans (ih (by omega)) (primitivesBefore_mono model j)

theorem resize_length {α : Type} (v : List α) (k : Nat) (d : α) : (resize v k d).length = k := by
  simp [resize]; omega

/-- The tables `createVertexArrayObjects` returns for a well-formed model with fewer than
`2^31` primitives. -/
theorem createVertexArrayObjects_small (model : Model) (bo : List Nat) (r0 : List VaoRange)
    (n : Nat) (hok : resourcesOk model bo = true) (hsmall : totalPrimitives model < 2 ^ 31) :
    ∃ st, (createVertexArrayObjects model bo r0).result n = some st ∧
      st.vertexArrayObjects = (List.range (totalPrimitives model)).map (fun j => n + j) ∧
      st.meshIndexToVaoRange.length = model.meshes.length ∧
      ∀ (i : Nat) (mesh : Mesh), model.meshes[i]? = some mesh → st.meshIndexToVaoRange[i]? =
        some ({ begin := primitivesBefore model i, count := mesh.primitives.length } : VaoRange) := by
  obtain ⟨t, st, h, hv, hr, _, hhigh⟩ := meshLoop_small model bo hok hsmall model.meshes.length 0
    { vertexArrayObjects := [],
      meshIndexToVaoRange := resize r0 model.meshes.length { begin := 0, count := 0 } } n
    (by omega) (resize_length _ _ _) (by simp [primitivesBefore])
  refine ⟨st, ?_, ?_, hr, fun i mesh hm => hhigh i mesh (Nat.zero_le i) hm⟩
  · simp only [GLM.result, createVertexArrayObjects, GLM.bind_apply, GLM.andThen, h, GLM.emit,
      GLM.pure_apply]
  · simpa [primitivesBefore] using hv

/-- What `initMesh` returns once its primitive loop is known to succeed. -/
theorem initMesh_of_loop (model : Model) (bo : List Nat) (i : Nat) (st : VaoTables) (mesh : Mesh)
    (n n1 : Nat) (t : List Ev) (hm : model.meshes[i]? = some mesh)
    (hi : i < st.meshIndexToVaoRange.length)
    (hloop : loopFrom (fun k (_ : Unit) => initPrimitive model bo
        (writeAt (resize st.vertexArrayObjects
            (addSizeT st.vertexArrayObjects.length mesh.primitives.length) 0)
          st.vertexArrayObjects.length
          ((List.range (genCount (toGLsizei mesh.primitives.length))).map (fun j => n + j)))
        i st.vertexArrayObjects.length k) mesh.primitives.length 0 ()
        (n + genCount (toGLsizei mesh.primitives.length)) = .ok ((), t, n1)) :
    (initMesh model bo i st).result n = some
      { vertexArrayObjects := writeAt (resize st.vertexArrayObjects
            (addSizeT st.vertexArrayObjects.length mesh.primitives.length) 0)
          st.vertexArrayObjects.length
          ((List.range (genCount (toGLsizei mesh.primitives.length))).map (fun j => n + j)),
        meshIndexToVaoRange := st.meshIndexToVaoRange.set i
          { begin := toGLsizei st.vertexArrayObjects.length,
            count := toGLsizei mesh.primitives.length } } := by
  have hm2 : at? model.meshes (i : Int) = some mesh := by rw [at?_natCast]; exact hm
  have hr0 : at? st.meshIndexToVaoRange (i : Int) = some (st.meshIndexToVaoRange[i]) := by
    rw [at?_natCast]; simp [hi]
  have hr1 : ∀ r : VaoRange, at? (st.meshIndexToVaoRange.set i r) (i : Int) = some r := by
    intro r; rw [at?_natCast]; simp [hi]
  unfold initMesh GLM.result
  simp only [GLM.bind_apply, GLM.andThen, GLM.index, hm2, hr0, hr1, GLM.fresh, GLM.emit, hloop,
    GLM.pure_apply, List.set_set]

theorem result_bind_emit {α : Type} (m : GLM α) (e : Ev) (n : Nat) :
    (m >>= fun a => GLM.emit e >>= fun _ => pure a).result n = m.result n := by
  simp only [GLM.result, GLM.bind_apply, GLM.andThen]
  cases m n with
  | error e => rfl
  | ok r => rfl

theorem loopFrom_one_result {σ : Type} (body : Nat → σ → GLM σ) (i : Nat) (s : σ) (n : Nat) :
    (loopFrom body 1 i s).result n = (body i s).result n := by
  simp only [GLM.result, loopFrom, GLM.bind_apply, GLM.andThen]
  cases body i s n with
  | error e => rfl
  | ok r => rfl

theorem createVertexArrayObjects_huge (n : Nat) :
    (createVertexArrayObjects hugeModel [] []).result n
      = some ⟨List.replicate hugeCount 0, [⟨0, -2147483648⟩]⟩ := by
  have hlen : (List.replicate hugeCount barePrimitive).length = hugeCount :=
    List.length_replicate _ _
  have hg : toGLsizei hugeCount = -2147483648 := by decide
  have hz : toGLsizei 0 = 0 := by decide
  have hc : genCount (-2147483648) = 0 := by decide
  have ha : addSizeT 0 hugeCount = hugeCount := by decide
  have hres : resize ([] : List Nat) hugeCount 0 = List.replicate hugeCount 0 := by
    simp only [resize, List.take_nil, List.length_nil, Nat.sub_zero, List.nil_append]
  have hw : writeAt (List.replicate hugeCount 0) 0 [] = List.replicate hugeCount 0 := by
    simp only [writeAt, List.take_zero, List.length_nil, Nat.add_zero, List.drop_zero,
      List.nil_append]
  obtain ⟨t, ht⟩ := loopFrom_unit_ok
    (fun k (_ : Unit) => initPrimitive hugeModel [] (List.replicate hugeCount 0) 0 0 k) n
    hugeCount 0
    (fun k _ hk => by
      have hk2 : k < hugeCount := by omega
      exact initPrimitive_ok hugeModel [] _ 0 0 k ⟨List.replicate hugeCount barePrimitive⟩
        barePrimitive (by rw [List.length_replicate]; omega)
        (by have : hugeCount < 2 ^ 64 := by decide
            omega) rfl
        (by rw [List.getElem?_replicate]; simp [hk2]) (by decide) n)
  have key := initMesh_of_loop hugeModel [] 0 ⟨[], [⟨0, 0⟩]⟩
    ⟨List.replicate hugeCount barePrimitive⟩ n n t rfl (by decide)
  simp only [List.length_nil, hlen, hg, hz, hc, ha, hres, List.range_zero, List.map_nil, hw,
    Nat.add_zero, List.set_cons_zero] at key
  have key2 := key ht
  show (loopFrom (initMesh hugeModel []) 1 0 ⟨[], [⟨0, 0⟩]⟩ >>= fun st =>
    GLM.emit (.glBindVertexArray 0) >>= fun _ => pure st).result n = _
  rw [result_bind_emit, loopFrom_one_result, key2]


/-! ## C1 -/

/-- C1 (amended): for every well-formed model with fewer than 2^31 primitives in total,
`createVertexArrayObjects` returns, and records for each mesh index `i` a range whose `count`
is the number of primitives of mesh `i` and whose `begin` is the number of handles allocated
for the meshes before it; the ranges of two different meshes do not overlap and follow mesh
order. -/
theorem createVertexArrayObjects_ranges (model : Model) (bo : List Nat) (r0 : List VaoRange)
    (n : Nat) (hok : resourcesOk model bo = true) (hsmall : totalPrimitives model < 2 ^ 31) :
    ∃ st, (createVertexArrayObjects model bo r0).result n = some st ∧
      st.meshIndexToVaoRange.length = model.meshes.length ∧
      (∀ (i : Nat) (mesh : Mesh), model.meshes[i]? = some mesh →
        st.meshIndexToVaoRange[i]? = some (⟨primitivesBefore model i, mesh.primitives.length⟩ : VaoRange)) ∧
      (∀ (i j : Nat) (ri rj : VaoRange), i < j → st.meshIndexToVaoRange[i]? = some ri →
        st.meshIndexToVaoRange[j]? = some rj → ri.begin + ri.count ≤ rj.begin) := by
  obtain ⟨st, hres, _, hlen, hr⟩ := createVertexArrayObjects_small model bo r0 n hok hsmall
  refine ⟨st, hres, hlen, hr, ?_⟩
  intro i j ri rj hij hi hj
  have hjlt : j < model.meshes.length := by
    rw [← hlen]
    rcases Nat.lt_or_ge j st.meshIndexToVaoRange.length with h | h
    · exact h
    · rw [List.getElem?_eq_none h] at hj; cases hj
  have hilt : i < model.meshes.length := by omega
  have hi2 := hr i _ (List.getElem?_eq_getElem hilt)
  have hj2 := hr j _ (List.getElem?_eq_getElem hjlt)
  rw [hi] at hi2
  rw [hj] at hj2
  cases hi2
  cases hj2
  have h1 := primitivesBefore_succ model i _ (List.getElem?_eq_getElem hilt)
  have h2 := primitivesBefore_le model (i + 1) j (by omega)
  simp only
  omega

/-- C1, witness: the sample model is well-formed and small, and gets the ranges
`[0, 2)` and `[2, 3)`. -/
theorem createVertexArrayObjects_ranges_witness :
    resourcesOk sampleModel [7] = true ∧ totalPrimitives sampleModel < 2 ^ 31 ∧
    ∃ st, (createVertexArrayObjects sampleModel [7] []).result 10 = some st ∧
      st.meshIndexToVaoRange.length = sampleModel.meshes.length ∧
      (∀ (i : Nat) (mesh : Mesh), sampleModel.meshes[i]? = some mesh →
        st.meshIndexToVaoRange[i]? = some (⟨primitivesBefore sampleModel i, mesh.primitives.length⟩ : VaoRange)) ∧
      (∀ (i j : Nat) (ri rj : VaoRange), i < j → st.meshIndexToVaoRange[i]? = some ri →
        st.meshIndexToVaoRange[j]? = some rj → ri.begin + ri.count ≤ rj.begin) :=
  ⟨by decide, by decide,
    createVertexArrayObjects_ranges sampleModel [7] [] 10 (by decide) (by decide)⟩

/-- C1, counterexample: for the mesh with 2^31 primitives the recorded `count` is
`-2147483648`, not the number of primitives. -/
theorem createVertexArrayObjects_ranges_counterexample :
    hugeModel.meshes.map (fun m => (m.primitives.length : Int)) = [2147483648] ∧
    ((createVertexArrayObjects hugeModel [] []).result 1).map
      (fun st => st.meshIndexToVaoRange.map (fun r => r.count)) = some [-2147483648] := by
  constructor
  · show [((List.replicate hugeCount barePrimitive).length : Int)] = [2147483648]
    rw [List.length_replicate]
    rfl
  · rw [createVertexArrayObjects_huge 1]
    rfl

/-! ## C2 -/

/-- C2 (amended): for every attribute `vao_init` wires, the stride it passes to
`glVertexAttribPointer` is the buffer view's declared `byteStride`, unchanged; for a view
that declares stride 0 the stride passed is 0 (the tight stride is not computed by the
builder). -/
theorem vao_init_stride (model : Model) (p : Primitive) (bo : List Nat) (str : String)
    (index : Nat) (a : Int) (acc : Accessor) (bv : BufferView) (b : Buffer) (o : Nat) (n : Nat)
    (hl : p.attributes.lookup str = some a) (ha : at? model.accessors a = some acc)
    (hb : at? model.bufferViews acc.bufferView = some bv)
    (hb1 : at? model.buffers bv.buffer = some b) (hb2 : at? bo bv.buffer = some o) :
    (vao_init model p bo str index).result n = some () ∧
    ((vao_init model p bo str index).trace n).filterMap pointerStride = [(bv.byteStride : Int)] ∧
    (bv.byteStride = 0 →
      ((vao_init model p bo str index).trace n).filterMap pointerStride = [0]) := by
  have h := vao_init_present model p bo str index a acc bv b o hl ha hb hb1 hb2 n
  have ht : ((vao_init model p bo str index).trace n).filterMap pointerStride
      = [(bv.byteStride : Int)] := by
    simp only [GLM.trace, h, attributeEvents]
    rfl
  refine ⟨by simp only [GLM.result, h], ht, fun h0 => ?_⟩
  rw [ht, h0]
  rfl

/-- C2, witness: the POSITION attribute of the first sample primitive (float VEC3, view
stride 0). -/
theorem vao_init_stride_witness :
    (⟨[("POSITION", 0)], -1, 1, 4⟩ : Primitive).attributes.lookup "POSITION" = some 0 ∧
    at? sampleModel.accessors 0 = some ⟨0, 0, 5126, 3, 3⟩ ∧
    at? sampleModel.bufferViews 0 = some ⟨0, 0, 0⟩ ∧
    at? sampleModel.buffers 0 = some ⟨List.replicate 42 0⟩ ∧
    at? [7] 0 = some 7 ∧
    ((vao_init sampleModel ⟨[("POSITION", 0)], -1, 1, 4⟩ [7] "POSITION" 0).result 1 = some () ∧
    ((vao_init sampleModel ⟨[("POSITION", 0)], -1, 1, 4⟩ [7] "POSITION" 0).trace 1).filterMap
      pointerStride = [((⟨0, 0, 0⟩ : BufferView).byteStride : Int)] ∧
    ((⟨0, 0, 0⟩ : BufferView).byteStride = 0 →
      ((vao_init sampleModel ⟨[("POSITION", 0)], -1, 1, 4⟩ [7] "POSITION" 0).trace 1).filterMap
        pointerStride = [0])) :=
  ⟨by decide, by decide, by decide, by decide, by decide,
    vao_init_stride sampleModel ⟨[("POSITION", 0)], -1, 1, 4⟩ [7] "POSITION" 0 0
      ⟨0, 0, 5126, 3, 3⟩ ⟨0, 0, 0⟩ ⟨List.replicate 42 0⟩ 7 1 (by decide) (by decide)
      (by decide) (by decide) (by decide)⟩

/-- C2, counterexample: for a float VEC3 accessor on a view with stride 0 the stride passed
is 0, while component count times component size is 12. -/
theorem vao_init_stride_counterexample :
    sampleModel.accessors[0]? = some ⟨0, 0, 5126, 3, 3⟩ ∧
    sampleModel.bufferViews[0]? = some ⟨0, 0, 0⟩ ∧
    componentCount 3 * componentSize 5126 = 12 ∧
    ((vao_init sampleModel ⟨[("POSITION", 0)], -1, 1, 4⟩ [7] "POSITION" 0).trace 1).filterMap
      pointerStride = [0] := by
  decide

/-! ## C3 -/

theorem bindMaterialFallback_eq (loc : Locations) (res : Resources) (n : Nat) :
    bindMaterialFallback loc res n = .ok ((), fallbackEvents loc res, n) := rfl

/-- C3: when the texture table is empty, for every material index that is negative or an
index of `model.materials` and for every setting of the toggles, `bindMaterial` returns after
at most the lookup of the material, makes no lookup in `model.textures` or `textureObjects`,
and issues exactly the calls of the neutral fallback. -/
theorem bindMaterial_empty_textures (model : Model) (loc : Locations) (feat : Features)
    (res : Resources) (materialIndex : Int) (n : Nat) (hempty : model.textures = [])
    (hidx : materialIndex < 0 ∨ (at? model.materials materialIndex).isSome = true) :
    (bindMaterial model loc feat res materialIndex).result n = some () ∧
    ((bindMaterial model loc feat res materialIndex).trace n).filter isTextureRead = [] ∧
    (bindMaterial model loc feat res materialIndex).trace n =
      (if materialIndex ≥ 0 then [Ev.read .materials materialIndex] else []) ++
        fallbackEvents loc res := by
  have hf := bindMaterialFallback_eq loc res n
  by_cases hneg : materialIndex ≥ 0
  · have hsome : (at? model.materials materialIndex).isSome = true := by
      rcases hidx with h | h
      · omega
      · exact h
    obtain ⟨m, hm⟩ := Option.isSome_iff_exists.mp hsome
    have hrun : bindMaterial model loc feat res materialIndex n
        = .ok ((), [Ev.read .materials materialIndex] ++ fallbackEvents loc res, n) := by
      unfold bindMaterial
      simp only [hneg, if_true, hempty, List.length_nil, Nat.lt_irrefl, if_false,
        GLM.bind_apply, GLM.andThen, GLM.index, hm, hf, gt_iff_lt]
    refine ⟨by simp only [GLM.result, hrun], ?_, ?_⟩
    · simp only [GLM.trace, hrun]
      rfl
    · simp only [GLM.trace, hrun, hneg, if_true]
  · have hrun : bindMaterial model loc feat res materialIndex n
        = .ok ((), fallbackEvents loc res, n) := by
      unfold bindMaterial
      simp only [hneg, if_false]
      exact hf
    refine ⟨by simp only [GLM.result, hrun], ?_, ?_⟩
    · simp only [GLM.trace, hrun]
      rfl
    · simp only [GLM.trace, hrun, hneg, if_false, List.nil_append]

/-- C3, witness: the sample model has no textures; its primitives have no material. -/
theorem bindMaterial_empty_textures_witness :
    sampleModel.textures = [] ∧
    ((-1 : Int) < 0 ∨ (at? sampleModel.materials (-1)).isSome = true) ∧
    (bindMaterial sampleModel sampleLocations sampleFeatures sampleResources (-1)).result 1
      = some () ∧
    ((bindMaterial sampleModel sampleLocations sampleFeatures sampleResources (-1)).trace
      1).filter isTextureRead = [] ∧
    (bindMaterial sampleModel sampleLocations sampleFeatures sampleResources (-1)).trace 1 =
      (if (-1 : Int) ≥ 0 then [Ev.read .materials (-1)] else []) ++
        fallbackEvents sampleLocations sampleResources :=
  ⟨rfl, Or.inl (by decide),
    bindMaterial_empty_textures sampleModel sampleLocations sampleFeatures sampleResources (-1) 1
      rfl (Or.inl (by decide))⟩

/-! ## C4 -/

set_option maxRecDepth 100000 in
/-- C4 (code evaluated at the failing input): in the sample scene node 1 is the child of
root node 0 and carries mesh 1, yet `drawScene` returns having looked up node 0 only and
having issued the two draw calls of mesh 0 and none for mesh 1. -/
theorem drawScene_skips_children :
    sampleModel.scenes[0]? = some ⟨[0]⟩ ∧
    sampleModel.nodes[0]? = some ⟨0, [1]⟩ ∧
    sampleModel.nodes[1]? = some ⟨1, []⟩ ∧
    (drawScene sampleApp sampleModel sampleLocations sampleFeatures sampleResources).result 1
      = some () ∧
    ((drawScene sampleApp sampleModel sampleLocations sampleFeatures sampleResources).trace
      1).filterMap nodeRead = [0] ∧
    ((drawScene sampleApp sampleModel sampleLocations sampleFeatures sampleResources).trace
      1).filter isDraw =
      [.glDrawArrays GL_TRIANGLES 0 36, .glDrawElements 4 3 5123 36, .glDrawArrays 4 0 3] ∧
    Ev.read .meshes 1 ∉
      (drawScene sampleApp sampleModel sampleLocations sampleFeatures sampleResources).trace 1 := by
  decide

/-! ## Draw calls of the primitive loop -/

theorem NoDraw.pure {α : Type} (a : α) : NoDraw (pure a : GLM α) := by
  intro n b t n1 h
  cases h
  rfl

theorem NoDraw.emit (e : Ev) (h : isDraw e = false) : NoDraw (GLM.emit e) := by
  intro n b t n1 hr
  cases hr
  simp [h]

theorem NoDraw.index {α : Type} (tb : Table) (v : List α) (i : Int) :
    NoDraw (GLM.index tb v i) := by
  intro n b t n1 hr
  unfold GLM.index at hr
  cases h : at? v i with
  | none => simp [h] at hr
  | some x =>
    simp only [h] at hr
    cases hr
    rfl

theorem NoDraw.bind {α β : Type} (m : GLM α) (f : α → GLM β) (hm : NoDraw m)
    (hf : ∀ a, NoDraw (f a)) : NoDraw (m >>= f) := by
  intro n b t n2 hr
  rw [GLM.bind_apply] at hr
  unfold GLM.andThen at hr
  cases h1 : m n with
  | error e => simp [h1] at hr
  | ok r1 =>
    obtain ⟨a, t1, n1⟩ := r1
    simp only [h1] at hr
    cases h2 : f a n1 with
    | error e => simp [h2] at hr
    | ok r2 =>
      obtain ⟨b2, t2, n3⟩ := r2
      simp only [h2] at hr
      cases hr
      rw [List.filter_append, hm n a t1 n1 h1, hf a n1 b t2 n2 h2]
      rfl

theorem NoDraw.ite {α : Type} (c : Prop) [Decidable c] (x y : GLM α) (hx : NoDraw x)
    (hy : NoDraw y) : NoDraw (if c then x else y) := by
  by_cases h : c
  · simp only [h, if_true]; exact hx
  · simp only [h, if_false]; exact hy

theorem bindMaterialFallback_noDraw (loc : Locations) (res : Resources) :
    NoDraw (bindMaterialFallback loc res) := by
  intro n a t n1 h
  cases h
  rfl

set_option maxRecDepth 100000 in
theorem bindMaterialTextured_noDraw (model : Model) (loc : Locations) (feat : Features)
    (res : Resources) (material : Material) :
    NoDraw (bindMaterialTextured model loc feat res material) := by
  unfold bindMaterialTextured bindBaseColor bindMetallicRoughness bindEmissive bindOcclusion
    bindNormal bindEnvironment
  repeat first
    | exact NoDraw.pure _
    | exact NoDraw.emit _ rfl
    | exact NoDraw.index _ _ _
    | apply NoDraw.bind
    | apply NoDraw.ite
    | intro _

theorem bindMaterial_noDraw (model : Model) (loc : Locations) (feat : Features)
    (res : Resources) (materialIndex : Int) :
    NoDraw (bindMaterial model loc feat res materialIndex) := by
  unfold bindMaterial
  apply NoDraw.ite
  · apply NoDraw.bind
    · exact NoDraw.index _ _ _
    · intro material
      apply NoDraw.ite
      · exact bindMaterialTextured_noDraw model loc feat res material
      · exact bindMaterialFallback_noDraw loc res
  · exact bindMaterialFallback_noDraw loc res

theorem result_eq_some_iff {α : Type} (m : GLM α) (n : Nat) (a : α) :
    m.result n = some a ↔ ∃ t n1, m n = .ok (a, t, n1) := by
  unfold GLM.result
  cases h : m n with
  | error e => simp
  | ok r =>
    obtain ⟨b, t, n1⟩ := r
    simp

theorem drawPrimitive_indexed (model : Model) (mesh : Mesh) (i : Nat) (p : Primitive)
    (acc : Accessor) (bv : BufferView) (n : Nat) (hp : mesh.primitives[i]? = some p)
    (hi : p.indices ≥ 0) (ha : at? model.accessors p.indices = some acc)
    (hb : at? model.bufferViews acc.bufferView = some bv) :
    drawPrimitive model mesh i n = .ok ((),
      [.read .primitives i, .read .accessors p.indices, .read .bufferViews acc.bufferView,
       .glDrawElements p.mode acc.count acc.componentType
         (addSizeT bv.byteOffset acc.byteOffset)], n) := by
  have hp2 : at? mesh.primitives (i : Int) = some p := by rw [at?_natCast]; exact hp
  unfold drawPrimitive
  simp only [GLM.bind_apply, GLM.andThen, GLM.index, hp2, hi, if_true, ha, hb, GLM.emit]
  rfl

theorem drawPrimitive_arrays (model : Model) (mesh : Mesh) (i : Nat) (p : Primitive)
    (name : String) (a : Int) (acc : Accessor) (n : Nat) (hp : mesh.primitives[i]? = some p)
    (hi : p.indices < 0) (hh : p.attributes.head? = some (name, a))
    (ha : at? model.accessors a = some acc) :
    drawPrimitive model mesh i n = .ok ((),
      [.read .primitives i, .read .accessors a, .glDrawArrays p.mode 0 acc.count], n) := by
  have hp2 : at? mesh.primitives (i : Int) = some p := by rw [at?_natCast]; exact hp
  have hi2 : ¬ p.indices ≥ 0 := by omega
  unfold drawPrimitive
  simp only [GLM.bind_apply, GLM.andThen, GLM.index, hp2, hi2, if_false, hh, ha, GLM.emit]
  rfl

theorem drawNodePrimitive_of_draw (model : Model) (loc : Locations) (feat : Features)
    (res : Resources) (mesh : Mesh) (range : VaoRange) (i : Nat) (p : Primitive) (vao : Nat)
    (n : Nat) (d : List Ev) (hp : mesh.primitives[i]? = some p)
    (hmat : (bindMaterial model loc feat res p.material).result n = some ())
    (hvao : at? res.vertexArrayObjects (addSizeT (toSizeT range.begin) i) = some vao)
    (hd : ∀ k, drawPrimitive model mesh i k = .ok ((), d, k)) :
    (drawNodePrimitive model loc feat res mesh range i).result n = some () ∧
    ((drawNodePrimitive model loc feat res mesh range i).trace n).filter isDraw
      = d.filter isDraw := by
  have hp2 : at? mesh.primitives (i : Int) = some p := by rw [at?_natCast]; exact hp
  obtain ⟨t1, n1, h1⟩ := (result_eq_some_iff _ _ _).mp hmat
  have hnd := bindMaterial_noDraw model loc feat res p.material n () t1 n1 h1
  have hrun : drawNodePrimitive model loc feat res mesh range i n = .ok ((),
      [.read .primitives i] ++ (t1 ++ ([.read .vertexArrayObjects
        (addSizeT (toSizeT range.begin) i)] ++ ([.glBindVertexArray vao] ++ d))), n1) := by
    unfold drawNodePrimitive
    simp only [GLM.bind_apply, GLM.andThen, GLM.index, hp2, h1, hvao, GLM.emit, hd n1]
  refine ⟨by simp only [GLM.result, hrun], ?_⟩
  simp only [GLM.trace, hrun, List.filter_append, hnd]
  rfl

/-! ## C5 -/

/-- C5: for a primitive `p` at index `i` of the mesh whose material binds and whose vertex
array lookup is in range, the body of the primitive loop of `drawNode` returns and issues
exactly one draw call: when `p.indices >= 0` (and the index accessor `acc` and its buffer
view `bv` resolve) it is `glDrawElements` with the primitive's mode, the accessor's count and
component type and the byte offset `bv.byteOffset + acc.byteOffset`; when `p.indices < 0`
(and the first attribute's accessor `acc` resolves) it is `glDrawArrays` with the
primitive's mode. -/
theorem drawNodePrimitive_draws (model : Model) (loc : Locations) (feat : Features)
    (res : Resources) (mesh : Mesh) (range : VaoRange) (i : Nat) (p : Primitive) (vao : Nat)
    (name : String) (a : Int) (acc : Accessor) (bv : BufferView) (n : Nat)
    (hp : mesh.primitives[i]? = some p)
    (hmat : (bindMaterial model loc feat res p.material).result n = some ())
    (hvao : at? res.vertexArrayObjects (addSizeT (toSizeT range.begin) i) = some vao)
    (hcase : (p.indices ≥ 0 ∧ at? model.accessors p.indices = some acc ∧
        at? model.bufferViews acc.bufferView = some bv ∧
        bv.byteOffset + acc.byteOffset < 2 ^ 64) ∨
      (p.indices < 0 ∧ p.attributes.head? = some (name, a) ∧
        at? model.accessors a = some acc)) :
    (drawNodePrimitive model loc feat res mesh range i).result n = some () ∧
    ((drawNodePrimitive model loc feat res mesh range i).trace n).filter isDraw =
      [if p.indices ≥ 0 then
        Ev.glDrawElements p.mode acc.count acc.componentType (bv.byteOffset + acc.byteOffset)
      else Ev.glDrawArrays p.mode 0 acc.count] := by
  rcases hcase with ⟨hi, ha, hb, h64⟩ | ⟨hi, hh, ha⟩
  · have h := drawNodePrimitive_of_draw model loc feat res mesh range i p vao n _ hp hmat hvao
      (fun k => drawPrimitive_indexed model mesh i p acc bv k hp hi ha hb)
    rw [addSizeT_small _ _ h64] at h
    refine ⟨h.1, ?_⟩
    rw [h.2]
    simp only [hi, if_true]
    rfl
  · have hi2 : ¬ p.indices ≥ 0 := by omega
    have h := drawNodePrimitive_of_draw model loc feat res mesh range i p vao n _ hp hmat hvao
      (fun k => drawPrimitive_arrays model mesh i p name a acc k hp hi hh ha)
    refine ⟨h.1, ?_⟩
    rw [h.2]
    simp only [hi2, if_false]
    rfl

set_option maxRecDepth 100000 in
/-- C5, witness: the indexed first primitive of sample mesh 0 is drawn by one
`glDrawElements` of 3 unsigned-short indices at byte offset 36. -/
theorem drawNodePrimitive_draws_witness :
    (drawNodePrimitive sampleModel sampleLocations sampleFeatures sampleResources
      ⟨[⟨[("POSITION", 0)], -1, 1, 4⟩, ⟨[("POSITION", 0)], -1, -1, 4⟩]⟩ ⟨0, 2⟩ 0).result 1
      = some () ∧
    ((drawNodePrimitive sampleModel sampleLocations sampleFeatures sampleResources
      ⟨[⟨[("POSITION", 0)], -1, 1, 4⟩, ⟨[("POSITION", 0)], -1, -1, 4⟩]⟩ ⟨0, 2⟩ 0).trace
      1).filter isDraw =
      [if (⟨[("POSITION", 0)], -1, 1, 4⟩ : Primitive).indices ≥ 0 then
        Ev.glDrawElements (⟨[("POSITION", 0)], -1, 1, 4⟩ : Primitive).mode
          (⟨1, 0, 5123, 3, 65⟩ : Accessor).count (⟨1, 0, 5123, 3, 65⟩ : Accessor).componentType
          ((⟨0, 36, 0⟩ : BufferView).byteOffset + (⟨1, 0, 5123, 3, 65⟩ : Accessor).byteOffset)
      else Ev.glDrawArrays (⟨[("POSITION", 0)], -1, 1, 4⟩ : Primitive).mode 0
        (⟨1, 0, 5123, 3, 65⟩ : Accessor).count] :=
  drawNodePrimitive_draws sampleModel sampleLocations sampleFeatures sampleResources
    ⟨[⟨[("POSITION", 0)], -1, 1, 4⟩, ⟨[("POSITION", 0)], -1, -1, 4⟩]⟩ ⟨0, 2⟩ 0
    ⟨[("POSITION", 0)], -1, 1, 4⟩ 10 "POSITION" 0 ⟨1, 0, 5123, 3, 65⟩ ⟨0, 36, 0⟩ 1
    (by decide) (by decide) (by decide)
    (Or.inl ⟨by decide, by decide, by decide, by decide⟩)

/-! ## Attribute wiring -/

/-- The two outcomes of `vao_init` on a resolvable attribute: nothing when the attribute is
absent, the wiring events when it is present. -/
theorem vao_init_cases (model : Model) (p : Primitive) (bo : List Nat) (str : String)
    (index : Nat) (h : attributeOk model bo p str = true) (n : Nat) :
    ∃ t, vao_init model p bo str index n = .ok ((), t, n) ∧
      ((p.attributes.lookup str = none ∧ t = []) ∨
       ∃ a acc bv o, p.attributes.lookup str = some a ∧ at? model.accessors a = some acc ∧
         at? model.bufferViews acc.bufferView = some bv ∧ at? bo bv.buffer = some o ∧
         t = attributeEvents index a acc bv o) := by
  unfold attributeOk at h
  cases hl : p.attributes.lookup str with
  | none => exact ⟨[], vao_init_absent model p bo str index hl n, Or.inl ⟨rfl, rfl⟩⟩
  | some a =>
    rw [hl] at h
    simp only at h
    unfold accessorOk at h
    cases ha : at? model.accessors a with
    | none => simp [ha] at h
    | some acc =>
      simp only [ha] at h
      cases hb : at? model.bufferViews acc.bufferView with
      | none => simp [hb] at h
      | some bv =>
        simp only [hb, Bool.and_eq_true, Option.isSome_iff_exists] at h
        obtain ⟨⟨b, hb1⟩, ⟨o, hb2⟩⟩ := h
        exact ⟨_, vao_init_present model p bo str index a acc bv b o hl ha hb hb1 hb2 n,
          Or.inr ⟨a, acc, bv, o, rfl, ha, hb, hb2, rfl⟩⟩

theorem enabledSlot_attributeEvents (index : Nat) (a : Int) (acc : Accessor) (bv : BufferView)
    (o : Nat) : (attributeEvents index a acc bv o).filterMap enabledSlot = [index] := rfl

/-- What `vao_init` contributes to the enabled slots and where its wiring calls sit. -/
theorem vao_init_wiring (model : Model) (p : Primitive) (bo : List Nat) (str : String)
    (index : Nat) (h : attributeOk model bo p str = true) (n : Nat) :
    ∃ t, vao_init model p bo str index n = .ok ((), t, n) ∧
      t.filterMap enabledSlot = (if (p.attributes.lookup str).isSome then [index] else []) ∧
      ∀ a acc bv o, p.attributes.lookup str = some a → at? model.accessors a = some acc →
        at? model.bufferViews acc.bufferView = some bv → at? bo bv.buffer = some o →
        ∃ s, t = s ++ [.glBindBuffer GL_ARRAY_BUFFER o,
          .glVertexAttribPointer index acc.type acc.componentType GL_FALSE bv.byteStride
            (addSizeT bv.byteOffset acc.byteOffset)] := by
  obtain ⟨t, ht, hc⟩ := vao_init_cases model p bo str index h n
  refine ⟨t, ht, ?_, ?_⟩
  · rcases hc with ⟨hl, rfl⟩ | ⟨a, acc, bv, o, hl, _, _, _, rfl⟩
    · simp [hl]
    · simp [hl, enabledSlot_attributeEvents]
  · intro a acc bv o hl ha hb ho
    rcases hc with ⟨hl2, _⟩ | ⟨a2, acc2, bv2, o2, hl2, ha2, hb2, ho2, rfl⟩
    · rw [hl] at hl2; cases hl2
    · rw [hl] at hl2; cases hl2
      rw [ha] at ha2; cases ha2
      rw [hb] at hb2; cases hb2
      rw [ho] at ho2; cases ho2
      exact ⟨[.read .accessors a, .read .bufferViews acc.bufferView, .read .buffers bv.buffer,
        .glEnableVertexAttribArray index, .read .bufferObjects bv.buffer], rfl⟩

theorem indices_events (model : Model) (p : Primitive) (bo : List Nat)
    (h : indicesOk model bo p = true) (n : Nat) :
    ∃ t, (if p.indices ≥ 0 then do
        let accessor ← GLM.index .accessors model.accessors p.indices
        let bufferView ← GLM.index .bufferViews model.bufferViews accessor.bufferView
        let bo ← GLM.index .bufferObjects bo bufferView.buffer
        GLM.emit (.glBindBuffer GL_ELEMENT_ARRAY_BUFFER bo)
      else (pure () : GLM Unit)) n = .ok ((), t, n) ∧ t.filterMap enabledSlot = [] := by
  unfold indicesOk at h
  by_cases hi : p.indices ≥ 0
  · simp only [hi, if_true] at h ⊢
    cases ha : at? model.accessors p.indices with
    | none => simp [ha] at h
    | some acc =>
      simp only [ha] at h
      cases hb : at? model.bufferViews acc.bufferView with
      | none => simp [hb] at h
      | some bv =>
        simp only [hb, Option.isSome_iff_exists] at h
        obtain ⟨o, hb2⟩ := h
        exact ⟨[.read .accessors p.indices, .read .bufferViews acc.bufferView,
          .read .bufferObjects bv.buffer, .glBindBuffer GL_ELEMENT_ARRAY_BUFFER o], by
          simp [GLM.bind_apply, GLM.andThen, GLM.index, GLM.emit, ha, hb, hb2], rfl⟩
  · simp only [hi, if_false]; exact ⟨[], rfl, rfl⟩

/-! ## C6 -/

/-- C6: for a primitive `p` (primitive `k` of mesh `i`, vertex array `offset + k`) whose
references resolve, the loop body of `createVertexArrayObjects` returns, binds the
primitive's vertex array first, and the slots it then enables are exactly 0 if POSITION is
present, 1 if NORMAL is present and 2 if TEXCOORD_0 is present, in this order; each present attribute is wired by binding the buffer object of its
accessor's buffer view and describing the layout at byte offset
`bv.byteOffset + acc.byteOffset`. -/
theorem initPrimitive_slots (model : Model) (bo vaos : List Nat) (i offset k : Nat) (mesh : Mesh)
    (p : Primitive) (n : Nat) (hv : offset + k < vaos.length) (h64 : offset + k < 2 ^ 64)
    (hm : model.meshes[i]? = some mesh) (hp : mesh.primitives[k]? = some p)
    (hok : primitiveOk model bo p = true)
    (hoff : ∀ acc ∈ model.accessors, ∀ bv ∈ model.bufferViews,
      bv.byteOffset + acc.byteOffset < 2 ^ 64) :
    (initPrimitive model bo vaos i offset k).result n = some () ∧
    ((initPrimitive model bo vaos i offset k).trace n)[1]? =
      some (Ev.glBindVertexArray (vaos.getD (offset + k) 0)) ∧
    ((initPrimitive model bo vaos i offset k).trace n).filterMap enabledSlot =
      (if (p.attributes.lookup "POSITION").isSome then [VERTEX_ATTRIB_POSITION_IDX] else []) ++
      (if (p.attributes.lookup "NORMAL").isSome then [VERTEX_ATTRIB_NORMAL_IDX] else []) ++
      (if (p.attributes.lookup "TEXCOORD_0").isSome then [VERTEX_ATTRIB_TEXCOORD0_IDX]
        else []) ∧
    ∀ (str : String) (slot : Nat) (a : Int) (acc : Accessor) (bv : BufferView) (o : Nat),
      (str, slot) ∈ [("POSITION", VERTEX_ATTRIB_POSITION_IDX),
        ("NORMAL", VERTEX_ATTRIB_NORMAL_IDX), ("TEXCOORD_0", VERTEX_ATTRIB_TEXCOORD0_IDX)] →
      p.attributes.lookup str = some a → at? model.accessors a = some acc →
      at? model.bufferViews acc.bufferView = some bv → at? bo bv.buffer = some o →
      [Ev.glBindBuffer GL_ARRAY_BUFFER o,
        Ev.glVertexAttribPointer slot acc.type acc.componentType GL_FALSE bv.byteStride
          (bv.byteOffset + acc.byteOffset)] <:+:
        (initPrimitive model bo vaos i offset k).trace n := by
  have hok2 := hok
  simp only [primitiveOk, Bool.and_eq_true] at hok2
  obtain ⟨⟨⟨h1, h2⟩, h3⟩, h4⟩ := hok2
  obtain ⟨t1, e1, s1, w1⟩ :=
    vao_init_wiring model p bo "POSITION" VERTEX_ATTRIB_POSITION_IDX h1 n
  obtain ⟨t2, e2, s2, w2⟩ := vao_init_wiring model p bo "NORMAL" VERTEX_ATTRIB_NORMAL_IDX h2 n
  obtain ⟨t3, e3, s3, w3⟩ :=
    vao_init_wiring model p bo "TEXCOORD_0" VERTEX_ATTRIB_TEXCOORD0_IDX h3 n
  obtain ⟨t4, e4, s4⟩ := indices_events model p bo h4 n
  have hvao : at? vaos ((addSizeT offset k : Nat) : Int) = some (vaos[offset + k]) := by
    rw [addSizeT_small offset k h64, at?_natCast]; simp [hv]
  have hm2 : at? model.meshes (i : Int) = some mesh := by rw [at?_natCast]; exact hm
  have hp2 : at? mesh.primitives (k : Int) = some p := by rw [at?_natCast]; exact hp
  have hrun : initPrimitive model bo vaos i offset k n = .ok ((),
      [.read .vertexArrayObjects (addSizeT offset k)] ++ ([.glBindVertexArray vaos[offset + k]]
        ++ ([.read .meshes i] ++ ([.read .primitives k] ++ (t1 ++ (t2 ++ (t3 ++ t4)))))), n) := by
    unfold initPrimitive
    simp only [GLM.bind_apply, GLM.andThen, GLM.index, hvao, hm2, hp2, GLM.emit, e1, e2, e3, e4]
  refine ⟨by simp only [GLM.result, hrun], ?_, ?_, ?_⟩
  · simp only [GLM.trace, hrun]
    have hg : vaos.getD (offset + k) 0 = vaos[offset + k] := by
      simp [List.getD_eq_getElem?_getD, List.getElem?_eq_getElem hv]
    rw [hg]
    rfl
  · simp only [GLM.trace, hrun, List.filterMap_append, s1, s2, s3, s4, List.append_nil,
      List.append_assoc]
    rfl
  · intro str slot a acc bv o hmem hl ha hb ho
    have hsum : addSizeT bv.byteOffset acc.byteOffset = bv.byteOffset + acc.byteOffset :=
      addSizeT_small _ _ (hoff acc (by
        unfold at? at ha
        split at ha
        · cases ha
        · exact List.getElem?_mem ha) bv (by
        unfold at? at hb
        split at hb
        · cases hb
        · exact List.getElem?_mem hb))
    simp only [GLM.trace, hrun]
    simp only [List.mem_cons, Prod.mk.injEq, List.mem_singleton, List.not_mem_nil, or_false]
      at hmem
    rcases hmem with ⟨rfl, rfl⟩ | ⟨rfl, rfl⟩ | ⟨rfl, rfl⟩
    · obtain ⟨s, hs⟩ := w1 a acc bv o hl ha hb ho
      rw [hsum] at hs
      exact ⟨[.read .vertexArrayObjects (addSizeT offset k), .glBindVertexArray vaos[offset + k],
        .read .meshes i, .read .primitives k] ++ s, t2 ++ (t3 ++ t4), by rw [hs]; simp⟩
    · obtain ⟨s, hs⟩ := w2 a acc bv o hl ha hb ho
      rw [hsum] at hs
      exact ⟨[.read .vertexArrayObjects (addSizeT offset k), .glBindVertexArray vaos[offset + k],
        .read .meshes i, .read .primitives k] ++ (t1 ++ s), t3 ++ t4, by rw [hs]; simp⟩
    · obtain ⟨s, hs⟩ := w3 a acc bv o hl ha hb ho
      rw [hsum] at hs
      exact ⟨[.read .vertexArrayObjects (addSizeT offset k), .glBindVertexArray vaos[offset + k],
        .read .meshes i, .read .primitives k] ++ (t1 ++ (t2 ++ s)), t4, by rw [hs]; simp⟩

set_option maxRecDepth 100000 in
/-- C6, witness: the first primitive of sample mesh 0 has POSITION and indices only; slot 0
alone is enabled. -/
theorem initPrimitive_slots_witness :
    (initPrimitive sampleModel [7] [10, 11, 12] 0 0 0).result 1 = some () ∧
    ((initPrimitive sampleModel [7] [10, 11, 12] 0 0 0).trace 1)[1]? =
      some (Ev.glBindVertexArray 10) ∧
    ((initPrimitive sampleModel [7] [10, 11, 12] 0 0 0).trace 1).filterMap enabledSlot = [0] ∧
    [Ev.glBindBuffer GL_ARRAY_BUFFER 7, Ev.glVertexAttribPointer 0 3 5126 GL_FALSE 0 0] <:+:
      (initPrimitive sampleModel [7] [10, 11, 12] 0 0 0).trace 1 :=
  have h := initPrimitive_slots sampleModel [7] [10, 11, 12] 0 0 0
    ⟨[⟨[("POSITION", 0)], -1, 1, 4⟩, ⟨[("POSITION", 0)], -1, -1, 4⟩]⟩
    ⟨[("POSITION", 0)], -1, 1, 4⟩ 1 (by decide) (by decide) (by decide) (by decide) (by decide)
    (by decide)
  ⟨h.1, h.2.1, h.2.2.1.trans (by decide),
    h.2.2.2 "POSITION" 0 0 ⟨0, 0, 5126, 3, 3⟩ ⟨0, 0, 0⟩ 7 (by decide) (by decide) (by decide)
      (by decide) (by decide)⟩

/-! ## IBL passes -/

theorem mipRoughness_values (n : Nat) :
    (mipRoughness 0).result n = some ⟨0, 0⟩ ∧ (mipRoughness 1).result n = some ⟨1, -2⟩ ∧
    (mipRoughness 2).result n = some ⟨1, -1⟩ ∧ (mipRoughness 3).result n = some ⟨3, -2⟩ ∧
    (mipRoughness 4).result n = some ⟨1, 0⟩ := by
  refine ⟨?_, ?_, ?_, ?_, ?_⟩ <;> rfl

theorem mipExtent_values (n : Nat) :
    (mipExtent 0).result n = some 128 ∧ (mipExtent 1).result n = some 64 ∧
    (mipExtent 2).result n = some 32 ∧ (mipExtent 3).result n = some 16 ∧
    (mipExtent 4).result n = some 8 := by
  refine ⟨?_, ?_, ?_, ?_, ?_⟩ <;> rfl


theorem prefilterMip_eq (app : App) (rbo map : Nat) (rl vl : Int) (n m : Nat)
    (hm : m < maxMipLevels) :
    ∃ r, (mipRoughness m).result n = some r ∧
    prefilterMip app rbo map rl vl m n = .ok ((),
      [.glBindRenderbuffer GL_RENDERBUFFER rbo,
       .glRenderbufferStorage GL_RENDERBUFFER GL_DEPTH_COMPONENT24 (128 / 2 ^ m : Nat)
         (128 / 2 ^ m : Nat),
       .glViewport 0 0 (128 / 2 ^ m : Nat) (128 / 2 ^ m : Nat),
       .glUniform1f rl r] ++ (captureFaces app vl map m).trace n, n) := by
  have h5 : m < 5 := hm
  interval_cases m
  · exact ⟨_, rfl, rfl⟩
  · exact ⟨_, rfl, rfl⟩
  · exact ⟨_, rfl, rfl⟩
  · exact ⟨_, rfl, rfl⟩
  · exact ⟨_, rfl, rfl⟩

theorem captureFaces_steps (app : App) (vl : Int) (tex : Nat) (level : Int) (n : Nat) :
    ((captureFaces app vl tex level).trace n).filter isCaptureStep = captureSteps vl tex level :=
  rfl

theorem integrate_draws (app : App) (env : Env) (n : Nat) :
    ((integrateBRDF app env).trace n).filter isDraw = [.glDrawArrays GL_TRIANGLE_STRIP 0 4] :=
  rfl

theorem irradiance_steps (app : App) (env : Env) (c n : Nat) :
    ((computeIrradianceMap app env c).trace n).filter isCaptureStep
      = captureSteps (env.uniformLocation (env.compileProgram
          [app.m_cubemapVertexShader, app.m_irradianceFragmentShader]) "uModelViewMatrix") n 0 :=
  rfl

set_option maxRecDepth 100000 in
theorem prefilter_steps (app : App) (env : Env) (c n : Nat) :
    ((prefilterEnvironmentMap app env c).trace n).filter isCaptureStep
      = (List.range 5).flatMap (fun mip => captureSteps (env.uniformLocation (env.compileProgram
          [app.m_cubemapVertexShader, app.m_prefilterFragmentShader]) "uModelViewMatrix") n mip) :=
  rfl

theorem correction_steps (app : App) (env : Env) (n : Nat) :
    ((loadCorrectedEnvTexture app env).trace n).filter isCaptureStep
      = captureSteps (env.uniformLocation (env.compileProgram
          [app.m_cubemapVertexShader, app.m_cubemapFragmentShader]) "uModelViewMatrix")
          (n + 2) 0 := by
  cases app
  cases env
  rename_i img
  cases ‹Bool›
  · rfl
  · cases img with
    | none => rfl
    | some wh => cases wh; rfl

theorem mipRoughness_toRat (n m : Nat) (hm : m < maxMipLevels) :
    ∃ r, (mipRoughness m).result n = some r ∧ r.isFloat = true ∧
      r.toRat = (m : ℚ) / ((maxMipLevels : ℚ) - 1) := by
  have h5 : m < 5 := hm
  interval_cases m
  · exact ⟨⟨0, 0⟩, by rfl, by decide, by norm_num [Dyadic.toRat, maxMipLevels]⟩
  · exact ⟨⟨1, -2⟩, by rfl, by decide, by norm_num [Dyadic.toRat, maxMipLevels]⟩
  · exact ⟨⟨1, -1⟩, by rfl, by decide, by norm_num [Dyadic.toRat, maxMipLevels]⟩
  · exact ⟨⟨3, -2⟩, by rfl, by decide, by norm_num [Dyadic.toRat, maxMipLevels]⟩
  · exact ⟨⟨1, 0⟩, by rfl, by decide, by norm_num [Dyadic.toRat, maxMipLevels]⟩

/-! ## C7 -/

set_option maxRecDepth 100000 in
/-- C7: for every mip level `m < maxMipLevels = 5`, the value `prefilterEnvironmentMap`
computes for the roughness uniform is a binary32 number equal to the rational
`m / (maxMipLevels - 1)`; the loop body sets it with `glUniform1f` after resizing and before
the six faces of level `m` are rendered; it is 0 at level 0 and 1 at level 4, and strictly
increasing in `m`. Over the whole function the `glUniform1f` values are, in call order, the
resolution 512 and then 0, 1/4, 1/2, 3/4, 1. -/
theorem prefilter_roughness (app : App) (env : Env) (c rbo map : Nat) (rl vl : Int) (n m : Nat)
    (hm : m < maxMipLevels) :
    ∃ r, (mipRoughness m).result n = some r ∧ r.isFloat = true ∧
      r.toRat = (m : ℚ) / ((maxMipLevels : ℚ) - 1) ∧
      (prefilterMip app rbo map rl vl m).trace n =
        [.glBindRenderbuffer GL_RENDERBUFFER rbo,
         .glRenderbufferStorage GL_RENDERBUFFER GL_DEPTH_COMPONENT24 (128 / 2 ^ m : Nat)
           (128 / 2 ^ m : Nat),
         .glViewport 0 0 (128 / 2 ^ m : Nat) (128 / 2 ^ m : Nat),
         .glUniform1f rl r] ++ (captureFaces app vl map m).trace n ∧
      (m = 0 → r.toRat = 0) ∧ (m = 4 → r.toRat = 1) ∧
      (∀ m2 r2, m < m2 → m2 < maxMipLevels → (mipRoughness m2).result n = some r2 →
        r.toRat < r2.toRat) ∧
      (((prefilterEnvironmentMap app env c).trace n).filterMap uniform1fValue).map Dyadic.toRat
        = [512, 0, 1 / 4, 1 / 2, 3 / 4, 1] := by
  obtain ⟨r, hr, hf, hq⟩ := mipRoughness_toRat n m hm
  obtain ⟨r1, hr1, hrun⟩ := prefilterMip_eq app rbo map rl vl n m hm
  rw [hr] at hr1
  cases hr1
  refine ⟨r, hr, hf, hq, by simp only [GLM.trace, hrun], ?_, ?_, ?_, ?_⟩
  · intro h0
    rw [hq, h0]
    norm_num
  · intro h4
    rw [hq, h4]
    norm_num [maxMipLevels]
  · intro m2 r2 hlt hm2 hr2
    obtain ⟨r3, hr3, _, hq3⟩ := mipRoughness_toRat n m2 hm2
    rw [hr2] at hr3
    cases hr3
    rw [hq, hq3]
    have hlt2 : (m : ℚ) < (m2 : ℚ) := by exact_mod_cast hlt
    have hpos : (0 : ℚ) < (maxMipLevels : ℚ) - 1 := by norm_num [maxMipLevels]
    exact div_lt_div_of_pos_right hlt2 hpos
  · have hvals : ((prefilterEnvironmentMap app env c).trace n).filterMap uniform1fValue
        = [⟨1, 9⟩, ⟨0, 0⟩, ⟨1, -2⟩, ⟨1, -1⟩, ⟨3, -2⟩, ⟨1, 0⟩] := rfl
    rw [hvals]
    norm_num [Dyadic.toRat]

/-- C7, witness: mip level 2 gets roughness 1/2. -/
theorem prefilter_roughness_witness :
    2 < maxMipLevels ∧ ∃ r, (mipRoughness 2).result 1 = some r ∧ r.toRat = 1 / 2 := by
  refine ⟨by decide, ?_⟩
  obtain ⟨r, hr, _, hq, _⟩ :=
    prefilter_roughness sampleApp sampleEnv 3 2 1 0 0 1 2 (by decide)
  refine ⟨r, hr, ?_⟩
  rw [hq]
  norm_num [maxMipLevels]

/-! ## C8 -/

set_option maxRecDepth 100000 in
/-- C8: for every mip level `m < 5` the size computed is `128 / 2^m`; the loop body of
`prefilterEnvironmentMap` gives the depth renderbuffer that square storage and sets the
viewport to it before the capture loop that attaches the six faces at mip level `m` of the
prefilter cubemap and draws them. Over the whole function the storage sizes are, in call
order, the initial 128 and then 128, 64, 32, 16, 8, and the viewport sizes are
128, 64, 32, 16, 8. -/
theorem prefilter_extent (app : App) (env : Env) (c rbo map : Nat) (rl vl : Int) (n m : Nat)
    (hm : m < maxMipLevels) :
    (mipExtent m).result n = some (128 / 2 ^ m) ∧
    (prefilterMip app rbo map rl vl m).result n = some () ∧
    ((prefilterMip app rbo map rl vl m).trace n).take 3 =
      [.glBindRenderbuffer GL_RENDERBUFFER rbo,
       .glRenderbufferStorage GL_RENDERBUFFER GL_DEPTH_COMPONENT24 (128 / 2 ^ m : Nat)
         (128 / 2 ^ m : Nat),
       .glViewport 0 0 (128 / 2 ^ m : Nat) (128 / 2 ^ m : Nat)] ∧
    ((prefilterMip app rbo map rl vl m).trace n).drop 4 = (captureFaces app vl map m).trace n ∧
    ((captureFaces app vl map m).trace n).filter isCaptureStep = captureSteps vl map m ∧
    ((prefilterEnvironmentMap app env c).trace n).filterMap renderbufferExtent
      = [(128, 128), (128, 128), (64, 64), (32, 32), (16, 16), (8, 8)] ∧
    ((prefilterEnvironmentMap app env c).trace n).filterMap viewportExtent
      = [(128, 128), (64, 64), (32, 32), (16, 16), (8, 8)] := by
  obtain ⟨r, _, hrun⟩ := prefilterMip_eq app rbo map rl vl n m hm
  have hext : (mipExtent m).result n = some (128 / 2 ^ m) := by
    have h5 : m < 5 := hm
    interval_cases m <;> rfl
  refine ⟨hext, by simp only [GLM.result, hrun], by simp only [GLM.trace, hrun]; rfl,
    by simp only [GLM.trace, hrun]; rfl, captureFaces_steps app vl map m n, by rfl, by rfl⟩

set_option maxRecDepth 100000 in
/-- C8, witness: mip level 3 is rendered at 16 x 16. -/
theorem prefilter_extent_witness :
    3 < maxMipLevels ∧ (mipExtent 3).result 1 = some 16 ∧
    ((prefilterMip sampleApp 2 1 0 0 3).trace 1).take 3 =
      [.glBindRenderbuffer GL_RENDERBUFFER 2,
       .glRenderbufferStorage GL_RENDERBUFFER GL_DEPTH_COMPONENT24 16 16,
       .glViewport 0 0 16 16] :=
  have h := prefilter_extent sampleApp sampleEnv 3 2 1 0 0 1 3 (by decide)
  ⟨by decide, h.1, h.2.2.1⟩

/-! ## C9 -/

/-- C9: `integrateBRDF` returns the name of a 512 x 512 `GL_RG16F` 2-D texture, attaches it as
the colour target, and issues exactly one draw call, the 4-vertex triangle strip of the
full-screen quad bound from `m_quadVAO`; in particular it issues no 36-vertex unit-cube
draw. The whole trace is as listed. -/
theorem integrateBRDF_single_draw (app : App) (env : Env) (n : Nat) :
    (integrateBRDF app env).result n = some n ∧
    ((integrateBRDF app env).trace n).filter isDraw = [.glDrawArrays GL_TRIANGLE_STRIP 0 4] ∧
    Ev.glDrawArrays GL_TRIANGLES 0 36 ∉ ((integrateBRDF app env).trace n).filter isDraw ∧
    (integrateBRDF app env).trace n =
      [.glGenTextures 1 [n], .glBindTexture GL_TEXTURE_2D n,
       .glTexImage2D GL_TEXTURE_2D 0 GL_RG16F 512 512 0 GL_RG GL_FLOAT .null,
       .glTexParameteri GL_TEXTURE_2D GL_TEXTURE_WRAP_S GL_CLAMP_TO_EDGE,
       .glTexParameteri GL_TEXTURE_2D GL_TEXTURE_WRAP_T GL_CLAMP_TO_EDGE,
       .glTexParameteri GL_TEXTURE_2D GL_TEXTURE_MIN_FILTER GL_LINEAR,
       .glTexParameteri GL_TEXTURE_2D GL_TEXTURE_MAG_FILTER GL_LINEAR,
       .glGenFramebuffers 1 [n + 1], .glGenRenderbuffers 1 [n + 1 + 1],
       .glBindFramebuffer GL_FRAMEBUFFER (n + 1),
       .glBindRenderbuffer GL_RENDERBUFFER (n + 1 + 1),
       .glRenderbufferStorage GL_RENDERBUFFER GL_DEPTH_COMPONENT24 512 512,
       .glFramebufferTexture2D GL_FRAMEBUFFER GL_COLOR_ATTACHMENT0 GL_TEXTURE_2D n 0,
       .glViewport 0 0 512 512,
       .compileProgram [app.m_integrateVertexShader, app.m_integrateFragmentShader]
         (env.compileProgram [app.m_integrateVertexShader, app.m_integrateFragmentShader]),
       .glUseProgram
         (env.compileProgram [app.m_integrateVertexShader, app.m_integrateFragmentShader]),
       .glClear (GL_COLOR_BUFFER_BIT ||| GL_DEPTH_BUFFER_BIT),
       .glBindVertexArray app.m_quadVAO, .glDrawArrays GL_TRIANGLE_STRIP 0 4,
       .glBindVertexArray 0, .glBindFramebuffer GL_FRAMEBUFFER 0] := by
  refine ⟨by rfl, by rfl, ?_, by rfl⟩
  have h : ((integrateBRDF app env).trace n).filter isDraw
      = [.glDrawArrays GL_TRIANGLE_STRIP 0 4] := by rfl
  rw [h]
  decide

/-! ## C10 -/

set_option maxRecDepth 100000 in
/-- C10: the correction pass, the irradiance pass and each prefilter mip pass run the capture
loop once: for `i = 0 .. 5` in order, view matrix `i` is uploaded, face
`GL_TEXTURE_CUBE_MAP_POSITIVE_X + i` of the pass's cubemap is attached as colour target and
the 36-vertex unit cube is drawn. Hence the correction and irradiance passes issue six draws
each, the prefilter stage issues 30, and the six targets of a pass are pairwise distinct. -/
theorem capture_passes_six_faces (app : App) (env : Env) (c n : Nat) :
    ((loadCorrectedEnvTexture app env).trace n).filter isCaptureStep
      = captureSteps (env.uniformLocation (env.compileProgram
          [app.m_cubemapVertexShader, app.m_cubemapFragmentShader]) "uModelViewMatrix")
          (n + 2) 0 ∧
    ((computeIrradianceMap app env c).trace n).filter isCaptureStep
      = captureSteps (env.uniformLocation (env.compileProgram
          [app.m_cubemapVertexShader, app.m_irradianceFragmentShader]) "uModelViewMatrix")
          n 0 ∧
    ((prefilterEnvironmentMap app env c).trace n).filter isCaptureStep
      = (List.range maxMipLevels).flatMap (fun mip => captureSteps (env.uniformLocation
          (env.compileProgram [app.m_cubemapVertexShader, app.m_prefilterFragmentShader])
          "uModelViewMatrix") n mip) ∧
    (∀ (vl : Int) (tex : Nat) (level : Int),
      (captureSteps vl tex level).filter isDraw
        = List.replicate 6 (.glDrawArrays GL_TRIANGLES 0 36)) ∧
    ((loadCorrectedEnvTexture app env).trace n).filter isDraw
      = List.replicate 6 (.glDrawArrays GL_TRIANGLES 0 36) ∧
    ((computeIrradianceMap app env c).trace n).filter isDraw
      = List.replicate 6 (.glDrawArrays GL_TRIANGLES 0 36) ∧
    ((prefilterEnvironmentMap app env c).trace n).filter isDraw
      = List.replicate 30 (.glDrawArrays GL_TRIANGLES 0 36) ∧
    ((List.range 6).map (fun i => GL_TEXTURE_CUBE_MAP_POSITIVE_X + i)).Nodup := by
  refine ⟨correction_steps app env n, irradiance_steps app env c n, prefilter_steps app env c n,
    fun _ _ _ => rfl, ?_, by rfl, by rfl, by decide⟩
  cases app
  cases env
  rename_i img
  cases ‹Bool›
  · rfl
  · cases img with
    | none => rfl
    | some wh => cases wh; rfl

/-! ## Closure properties of computations -/

theorem GLM.bind_inv {α β : Type} {m : GLM α} {f : α → GLM β} {n n2 : Nat} {b : β}
    {t : List Ev} (h : (m >>= f) n = .ok (b, t, n2)) :
    ∃ a t1 n1 t2, m n = .ok (a, t1, n1) ∧ f a n1 = .ok (b, t2, n2) ∧ t = t1 ++ t2 := by
  rw [GLM.bind_apply] at h
  unfold GLM.andThen at h
  cases h1 : m n with
  | error e => simp [h1] at h
  | ok r1 =>
    obtain ⟨a, t1, n1⟩ := r1
    simp only [h1] at h
    cases h2 : f a n1 with
    | error e => simp [h2] at h
    | ok r2 =>
      obtain ⟨b2, t2, n3⟩ := r2
      simp only [h2] at h
      cases h
      exact ⟨a, t1, n1, t2, rfl, h2, rfl⟩

theorem GLM.trace_of_ok {α : Type} {m : GLM α} {n n1 : Nat} {a : α} {t : List Ev}
    (h : m n = .ok (a, t, n1)) : m.trace n = t := by
  simp only [GLM.trace, h]

theorem GLM.result_of_ok {α : Type} {m : GLM α} {n n1 : Nat} {a : α} {t : List Ev}
    (h : m n = .ok (a, t, n1)) : m.result n = some a := by
  simp only [GLM.result, h]

theorem silent_pure {α : Type} (p : Ev → Bool) (a : α) : Silent p (pure a : GLM α) := by
  constructor
  intro n b t n1 h e he
  cases h
  cases he

theorem silent_emit (p : Ev → Bool) (e : Ev) (h : p e = false) : Silent p (GLM.emit e) := by
  constructor
  intro n b t n1 hr x hx
  cases hr
  rw [List.mem_singleton] at hx
  rw [hx]; exact h

theorem silent_fault {α : Type} (p : Ev → Bool) (f : Fault) :
    Silent p (GLM.fault f : GLM α) := by
  constructor
  intro n b t n1 hr
  cases hr

theorem silent_fresh (p : Ev → Bool) (k : Nat) : Silent p (GLM.fresh k) := by
  constructor
  intro n b t n1 hr x hx
  cases hr
  cases hx

theorem silent_index {α : Type} (p : Ev → Bool) (tb : Table) (v : List α) (i : Int)
    (h : ∀ j, p (.read tb j) = false) : Silent p (GLM.index tb v i) := by
  constructor
  intro n b t n1 hr x hx
  unfold GLM.index at hr
  cases hv : at? v i with
  | none => simp [hv] at hr
  | some y =>
    simp only [hv] at hr
    cases hr
    rw [List.mem_singleton] at hx
    rw [hx]; exact h i

theorem silent_bind {α β : Type} (p : Ev → Bool) (m : GLM α) (f : α → GLM β)
    (hm : Silent p m) (hf : ∀ a, Silent p (f a)) : Silent p (m >>= f) := by
  constructor
  intro n b t n2 hr x hx
  obtain ⟨a, t1, n1, t2, h1, h2, ht⟩ := GLM.bind_inv hr
  rw [ht, List.mem_append] at hx
  rcases hx with hx | hx
  · exact hm.quiet n a t1 n1 h1 x hx
  · exact (hf a).quiet n1 b t2 n2 h2 x hx

theorem silent_ite {α : Type} (p : Ev → Bool) (c : Prop) [Decidable c] (x y : GLM α)
    (hx : Silent p x) (hy : Silent p y) : Silent p (if c then x else y) := by
  by_cases h : c
  · simp only [h, if_true]; exact hx
  · simp only [h, if_false]; exact hy

theorem silent_loop {σ : Type} (p : Ev → Bool) (body : Nat → σ → GLM σ)
    (h : ∀ i s, Silent p (body i s)) : ∀ c i s, Silent p (loopFrom body c i s) := by
  intro c
  induction c with
  | zero => intro i s; exact silent_pure p s
  | succ c ih =>
    intro i s
    simp only [loopFrom]
    exact silent_bind p _ _ (h i s) (fun s1 => ih (i + 1) s1)

theorem silent_filter_eq_nil {α : Type} {p : Ev → Bool} {m : GLM α} (h : Silent p m)
    {n n1 : Nat} {a : α} {t : List Ev} (hr : m n = .ok (a, t, n1)) : t.filter p = [] := by
  rw [List.filter_eq_nil_iff]
  intro e he
  rw [h.quiet n a t n1 hr e he]
  exact Bool.false_ne_true

theorem silent_gen1 (p : Ev → Bool) (mk : Int → List Nat → Ev)
    (h : ∀ k l, p (mk k l) = false) : Silent p (gen1 mk) := by
  unfold gen1
  exact silent_bind p _ _ (silent_fresh p 1) (fun names =>
    silent_bind p _ _ (silent_emit p _ (h _ _)) (fun _ => silent_pure p _))

theorem silent_compileProgram (p : Ev → Bool) (env : Env) (paths : List String)
    (h : ∀ prog, p (.compileProgram paths prog) = false) :
    Silent p (compileProgram env paths) := by
  unfold compileProgram
  exact silent_bind p _ _ (silent_emit p _ (h _)) (fun _ => silent_pure p _)

theorem silent_glGetUniformLocation (p : Ev → Bool) (env : Env) (program : Nat)
    (name : String) (h : ∀ l, p (.glGetUniformLocation program name l) = false) :
    Silent p (glGetUniformLocation env program name) := by
  unfold glGetUniformLocation
  exact silent_bind p _ _ (silent_emit p _ (h _)) (fun _ => silent_pure p _)

theorem steady_pure {α : Type} (a : α) : Steady (pure a : GLM α) := by
  constructor
  intro n b t n1 h
  cases h
  rfl

theorem steady_emit (e : Ev) : Steady (GLM.emit e) := by
  constructor
  intro n b t n1 h
  cases h
  rfl

theorem steady_fault {α : Type} (f : Fault) : Steady (GLM.fault f : GLM α) := by
  constructor
  intro n b t n1 hr
  cases hr

theorem steady_index {α : Type} (tb : Table) (v : List α) (i : Int) :
    Steady (GLM.index tb v i) := by
  constructor
  intro n b t n1 hr
  unfold GLM.index at hr
  cases hv : at? v i with
  | none => simp [hv] at hr
  | some y =>
    simp only [hv] at hr
    cases hr
    rfl

theorem steady_bind {α β : Type} (m : GLM α) (f : α → GLM β) (hm : Steady m)
    (hf : ∀ a, Steady (f a)) : Steady (m >>= f) := by
  constructor
  intro n b t n2 hr
  obtain ⟨a, t1, n1, t2, h1, h2, _⟩ := GLM.bind_inv hr
  have e1 := hm.same n a t1 n1 h1
  have e2 := (hf a).same n1 b t2 n2 h2
  omega

theorem steady_ite {α : Type} (c : Prop) [Decidable c] (x y : GLM α) (hx : Steady x)
    (hy : Steady y) : Steady (if c then x else y) := by
  by_cases h : c
  · simp only [h, if_true]; exact hx
  · simp only [h, if_false]; exact hy

theorem steady_loop {σ : Type} (body : Nat → σ → GLM σ) (h : ∀ i s, Steady (body i s)) :
    ∀ c i s, Steady (loopFrom body c i s) := by
  intro c
  induction c with
  | zero => intro i s; exact steady_pure s
  | succ c ih =>
    intro i s
    simp only [loopFrom]
    exact steady_bind _ _ (h i s) (fun s1 => ih (i + 1) s1)

set_option linter.unusedTactic false
set_option linter.unreachableTactic false

theorem runPrologue_creates_nothing (app : App) (env : Env) :
    Silent createsOrDraws (runPrologue app env) := by
  unfold runPrologue
  repeat first
    | with_reducible exact silent_pure _ _
    | (with_reducible apply silent_emit) <;> rfl
    | with_reducible exact silent_fault _ _
    | with_reducible exact silent_fresh _ _
    | (with_reducible apply silent_index) <;> (intro _; rfl)
    | (with_reducible apply silent_gen1) <;> (intro _ _; rfl)
    | (with_reducible apply silent_compileProgram) <;> (intro _; rfl)
    | (with_reducible apply silent_glGetUniformLocation) <;> (intro _; rfl)
    | with_reducible apply silent_bind
    | with_reducible apply silent_ite
    | intro _
    | dsimp only

theorem bindMaterialFallback_quiet (loc : Locations) (res : Resources) :
    Silent isDriverStep (bindMaterialFallback loc res) := by
  unfold bindMaterialFallback
  repeat first
    | with_reducible exact silent_pure _ _
    | (with_reducible apply silent_emit) <;> rfl
    | with_reducible exact silent_fault _ _
    | with_reducible exact silent_fresh _ _
    | (with_reducible apply silent_index) <;> (intro _; rfl)
    | (with_reducible apply silent_gen1) <;> (intro _ _; rfl)
    | (with_reducible apply silent_compileProgram) <;> (intro _; rfl)
    | (with_reducible apply silent_glGetUniformLocation) <;> (intro _; rfl)
    | with_reducible apply silent_bind
    | with_reducible apply silent_ite
    | intro _
    | dsimp only

set_option maxRecDepth 100000 in
theorem bindMaterialTextured_quiet (model : Model) (loc : Locations) (feat : Features)
    (res : Resources) (material : Material) :
    Silent isDriverStep (bindMaterialTextured model loc feat res material) := by
  unfold bindMaterialTextured bindBaseColor bindMetallicRoughness bindEmissive bindOcclusion
    bindNormal bindEnvironment
  repeat first
    | with_reducible exact silent_pure _ _
    | (with_reducible apply silent_emit) <;> rfl
    | with_reducible exact silent_fault _ _
    | with_reducible exact silent_fresh _ _
    | (with_reducible apply silent_index) <;> (intro _; rfl)
    | (with_reducible apply silent_gen1) <;> (intro _ _; rfl)
    | (with_reducible apply silent_compileProgram) <;> (intro _; rfl)
    | (with_reducible apply silent_glGetUniformLocation) <;> (intro _; rfl)
    | with_reducible apply silent_bind
    | with_reducible apply silent_ite
    | intro _
    | dsimp only

theorem bindMaterial_quiet (model : Model) (loc : Locations) (feat : Features)
    (res : Resources) (materialIndex : Int) :
    Silent isDriverStep (bindMaterial model loc feat res materialIndex) := by
  unfold bindMaterial
  repeat first
    | with_reducible exact silent_pure _ _
    | (with_reducible apply silent_emit) <;> rfl
    | with_reducible exact silent_fault _ _
    | with_reducible exact silent_fresh _ _
    | (with_reducible apply silent_index) <;> (intro _; rfl)
    | (with_reducible apply silent_gen1) <;> (intro _ _; rfl)
    | (with_reducible apply silent_compileProgram) <;> (intro _; rfl)
    | (with_reducible apply silent_glGetUniformLocation) <;> (intro _; rfl)
    | with_reducible exact bindMaterialTextured_quiet _ _ _ _ _
    | with_reducible exact bindMaterialFallback_quiet _ _
    | with_reducible apply silent_bind
    | with_reducible apply silent_ite
    | intro _
    | dsimp only

theorem drawPrimitive_quiet (model : Model) (mesh : Mesh) (i : Nat) :
    Silent isDriverStep (drawPrimitive model mesh i) := by
  unfold drawPrimitive
  repeat first
    | with_reducible exact silent_pure _ _
    | (with_reducible apply silent_emit) <;> rfl
    | with_reducible exact silent_fault _ _
    | with_reducible exact silent_fresh _ _
    | (with_reducible apply silent_index) <;> (intro _; rfl)
    | (with_reducible apply silent_gen1) <;> (intro _ _; rfl)
    | (with_reducible apply silent_compileProgram) <;> (intro _; rfl)
    | (with_reducible apply silent_glGetUniformLocation) <;> (intro _; rfl)
    | with_reducible apply silent_bind
    | with_reducible apply silent_ite
    | intro _
    | split
    | dsimp only

theorem drawNodePrimitive_quiet (model : Model) (loc : Locations) (feat : Features)
    (res : Resources) (mesh : Mesh) (range : VaoRange) (i : Nat) :
    Silent isDriverStep (drawNodePrimitive model loc feat res mesh range i) := by
  unfold drawNodePrimitive
  repeat first
    | with_reducible exact silent_pure _ _
    | (with_reducible apply silent_emit) <;> rfl
    | with_reducible exact silent_fault _ _
    | with_reducible exact silent_fresh _ _
    | (with_reducible apply silent_index) <;> (intro _; rfl)
    | (with_reducible apply silent_gen1) <;> (intro _ _; rfl)
    | (with_reducible apply silent_compileProgram) <;> (intro _; rfl)
    | (with_reducible apply silent_glGetUniformLocation) <;> (intro _; rfl)
    | with_reducible exact bindMaterial_quiet _ _ _ _ _
    | with_reducible exact drawPrimitive_quiet _ _ _
    | with_reducible apply silent_bind
    | with_reducible apply silent_ite
    | intro _
    | dsimp only

theorem uploadNodeUniforms_quiet (loc : Locations) (feat : Features) (node : Node)
    (modelMatrix : Mat4) :
    Silent isDriverStep (uploadNodeUniforms loc feat node modelMatrix) := by
  unfold uploadNodeUniforms
  repeat first
    | with_reducible exact silent_pure _ _
    | (with_reducible apply silent_emit) <;> rfl
    | with_reducible exact silent_fault _ _
    | with_reducible exact silent_fresh _ _
    | (with_reducible apply silent_index) <;> (intro _; rfl)
    | (with_reducible apply silent_gen1) <;> (intro _ _; rfl)
    | (with_reducible apply silent_compileProgram) <;> (intro _; rfl)
    | (with_reducible apply silent_glGetUniformLocation) <;> (intro _; rfl)
    | with_reducible apply silent_bind
    | with_reducible apply silent_ite
    | intro _
    | dsimp only

theorem drawNode_quiet (model : Model) (loc : Locations) (feat : Features)
    (res : Resources) (nodeIdx : Int) (parentMatrix : Mat4) :
    Silent isDriverStep (drawNode model loc feat res nodeIdx parentMatrix) := by
  unfold drawNode
  repeat first
    | with_reducible exact silent_pure _ _
    | (with_reducible apply silent_emit) <;> rfl
    | with_reducible exact silent_fault _ _
    | with_reducible exact silent_fresh _ _
    | (with_reducible apply silent_index) <;> (intro _; rfl)
    | (with_reducible apply silent_gen1) <;> (intro _ _; rfl)
    | (with_reducible apply silent_compileProgram) <;> (intro _; rfl)
    | (with_reducible apply silent_glGetUniformLocation) <;> (intro _; rfl)
    | with_reducible exact uploadNodeUniforms_quiet _ _ _ _
    | with_reducible exact drawNodePrimitive_quiet _ _ _ _ _ _ _
    | with_reducible apply silent_loop
    | with_reducible apply silent_bind
    | with_reducible apply silent_ite
    | intro _
    | dsimp only

theorem renderCube_quiet (app : App) :
    Silent isDriverStep (renderCube app) := by
  unfold renderCube
  repeat first
    | with_reducible exact silent_pure _ _
    | (with_reducible apply silent_emit) <;> rfl
    | with_reducible exact silent_fault _ _
    | with_reducible exact silent_fresh _ _
    | (with_reducible apply silent_index) <;> (intro _; rfl)
    | (with_reducible apply silent_gen1) <;> (intro _ _; rfl)
    | (with_reducible apply silent_compileProgram) <;> (intro _; rfl)
    | (with_reducible apply silent_glGetUniformLocation) <;> (intro _; rfl)
    | with_reducible apply silent_bind
    | with_reducible apply silent_ite
    | intro _
    | dsimp only

theorem drawSkybox_quiet (app : App) (loc : Locations) (res : Resources) :
    Silent isDriverStep (drawSkybox app loc res) := by
  unfold drawSkybox
  repeat first
    | with_reducible exact silent_pure _ _
    | (with_reducible apply silent_emit) <;> rfl
    | with_reducible exact silent_fault _ _
    | with_reducible exact silent_fresh _ _
    | (with_reducible apply silent_index) <;> (intro _; rfl)
    | (with_reducible apply silent_gen1) <;> (intro _ _; rfl)
    | (with_reducible apply silent_compileProgram) <;> (intro _; rfl)
    | (with_reducible apply silent_glGetUniformLocation) <;> (intro _; rfl)
    | with_reducible exact renderCube_quiet _
    | with_reducible apply silent_bind
    | with_reducible apply silent_ite
    | intro _
    | dsimp only

theorem drawDefaultScene_quiet (app : App) (model : Model) (loc : Locations)
    (feat : Features) (res : Resources) :
    Silent isDriverStep (drawDefaultScene app model loc feat res) := by
  unfold drawDefaultScene
  repeat first
    | with_reducible exact silent_pure _ _
    | (with_reducible apply silent_emit) <;> rfl
    | with_reducible exact silent_fault _ _
    | with_reducible exact silent_fresh _ _
    | (with_reducible apply silent_index) <;> (intro _; rfl)
    | (with_reducible apply silent_gen1) <;> (intro _ _; rfl)
    | (with_reducible apply silent_compileProgram) <;> (intro _; rfl)
    | (with_reducible apply silent_glGetUniformLocation) <;> (intro _; rfl)
    | with_reducible exact drawSkybox_quiet _ _ _
    | with_reducible exact drawNode_quiet _ _ _ _ _ _
    | with_reducible apply silent_loop
    | with_reducible apply silent_bind
    | with_reducible apply silent_ite
    | intro _
    | dsimp only

theorem drawScene_quiet (app : App) (model : Model) (loc : Locations) (feat : Features)
    (res : Resources) :
    Silent isDriverStep (drawScene app model loc feat res) := by
  unfold drawScene
  repeat first
    | with_reducible exact silent_pure _ _
    | (with_reducible apply silent_emit) <;> rfl
    | with_reducible exact silent_fault _ _
    | with_reducible exact silent_fresh _ _
    | (with_reducible apply silent_index) <;> (intro _; rfl)
    | (with_reducible apply silent_gen1) <;> (intro _ _; rfl)
    | (with_reducible apply silent_compileProgram) <;> (intro _; rfl)
    | (with_reducible apply silent_glGetUniformLocation) <;> (intro _; rfl)
    | with_reducible exact drawDefaultScene_quiet _ _ _ _ _
    | with_reducible apply silent_bind
    | with_reducible apply silent_ite
    | intro _
    | dsimp only

theorem runPrologue_quiet (app : App) (env : Env) :
    Silent isDriverStep (runPrologue app env) := by
  unfold runPrologue
  repeat first
    | with_reducible exact silent_pure _ _
    | (with_reducible apply silent_emit) <;> rfl
    | with_reducible exact silent_fault _ _
    | with_reducible exact silent_fresh _ _
    | (with_reducible apply silent_index) <;> (intro _; rfl)
    | (with_reducible apply silent_gen1) <;> (intro _ _; rfl)
    | (with_reducible apply silent_compileProgram) <;> (intro _; rfl)
    | (with_reducible apply silent_glGetUniformLocation) <;> (intro _; rfl)
    | with_reducible apply silent_bind
    | with_reducible apply silent_ite
    | intro _
    | dsimp only

theorem createTextureObjects_quiet (model : Model) :
    Silent isDriverStep (createTextureObjects model) := by
  unfold createTextureObjects initTexture resolveSampler generateMipmapIfRequested
  repeat first
    | with_reducible exact silent_pure _ _
    | (with_reducible apply silent_emit) <;> rfl
    | with_reducible exact silent_fault _ _
    | with_reducible exact silent_fresh _ _
    | (with_reducible apply silent_index) <;> (intro _; rfl)
    | (with_reducible apply silent_gen1) <;> (intro _ _; rfl)
    | (with_reducible apply silent_compileProgram) <;> (intro _; rfl)
    | (with_reducible apply silent_glGetUniformLocation) <;> (intro _; rfl)
    | with_reducible apply silent_loop
    | with_reducible apply silent_bind
    | with_reducible apply silent_ite
    | intro _
    | dsimp only

theorem makeFlatTexture_quiet (data : Pixels) :
    Silent isDriverStep (makeFlatTexture data) := by
  unfold makeFlatTexture
  repeat first
    | with_reducible exact silent_pure _ _
    | (with_reducible apply silent_emit) <;> rfl
    | with_reducible exact silent_fault _ _
    | with_reducible exact silent_fresh _ _
    | (with_reducible apply silent_index) <;> (intro _; rfl)
    | (with_reducible apply silent_gen1) <;> (intro _ _; rfl)
    | (with_reducible apply silent_compileProgram) <;> (intro _; rfl)
    | (with_reducible apply silent_glGetUniformLocation) <;> (intro _; rfl)
    | with_reducible apply silent_bind
    | with_reducible apply silent_ite
    | intro _
    | dsimp only

theorem cubeMapParameters_quiet :
    Silent isDriverStep (cubeMapParameters) := by
  unfold cubeMapParameters
  repeat first
    | with_reducible exact silent_pure _ _
    | (with_reducible apply silent_emit) <;> rfl
    | with_reducible exact silent_fault _ _
    | with_reducible exact silent_fresh _ _
    | (with_reducible apply silent_index) <;> (intro _; rfl)
    | (with_reducible apply silent_gen1) <;> (intro _ _; rfl)
    | (with_reducible apply silent_compileProgram) <;> (intro _; rfl)
    | (with_reducible apply silent_glGetUniformLocation) <;> (intro _; rfl)
    | with_reducible apply silent_bind
    | with_reducible apply silent_ite
    | intro _
    | dsimp only

theorem allocateFaces_quiet (size : Nat) :
    Silent isDriverStep (allocateFaces size) := by
  unfold allocateFaces
  repeat first
    | with_reducible exact silent_pure _ _
    | (with_reducible apply silent_emit) <;> rfl
    | with_reducible exact silent_fault _ _
    | with_reducible exact silent_fresh _ _
    | (with_reducible apply silent_index) <;> (intro _; rfl)
    | (with_reducible apply silent_gen1) <;> (intro _ _; rfl)
    | (with_reducible apply silent_compileProgram) <;> (intro _; rfl)
    | (with_reducible apply silent_glGetUniformLocation) <;> (intro _; rfl)
    | with_reducible apply silent_loop
    | with_reducible apply silent_bind
    | with_reducible apply silent_ite
    | intro _
    | dsimp only

theorem makeWhiteCube_quiet :
    Silent isDriverStep (makeWhiteCube) := by
  unfold makeWhiteCube
  repeat first
    | with_reducible exact silent_pure _ _
    | (with_reducible apply silent_emit) <;> rfl
    | with_reducible exact silent_fault _ _
    | with_reducible exact silent_fresh _ _
    | (with_reducible apply silent_index) <;> (intro _; rfl)
    | (with_reducible apply silent_gen1) <;> (intro _ _; rfl)
    | (with_reducible apply silent_compileProgram) <;> (intro _; rfl)
    | (with_reducible apply silent_glGetUniformLocation) <;> (intro _; rfl)
    | with_reducible exact cubeMapParameters_quiet
    | with_reducible apply silent_loop
    | with_reducible apply silent_bind
    | with_reducible apply silent_ite
    | intro _
    | dsimp only

theorem initQuad_quiet (app : App) :
    Silent isDriverStep (initQuad app) := by
  unfold initQuad
  repeat first
    | with_reducible exact silent_pure _ _
    | (with_reducible apply silent_emit) <;> rfl
    | with_reducible exact silent_fault _ _
    | with_reducible exact silent_fresh _ _
    | (with_reducible apply silent_index) <;> (intro _; rfl)
    | (with_reducible apply silent_gen1) <;> (intro _ _; rfl)
    | (with_reducible apply silent_compileProgram) <;> (intro _; rfl)
    | (with_reducible apply silent_glGetUniformLocation) <;> (intro _; rfl)
    | with_reducible apply silent_bind
    | with_reducible apply silent_ite
    | intro _
    | dsimp only

theorem initCube_quiet (app : App) :
    Silent isDriverStep (initCube app) := by
  unfold initCube
  repeat first
    | with_reducible exact silent_pure _ _
    | (with_reducible apply silent_emit) <;> rfl
    | with_reducible exact silent_fault _ _
    | with_reducible exact silent_fresh _ _
    | (with_reducible apply silent_index) <;> (intro _; rfl)
    | (with_reducible apply silent_gen1) <;> (intro _ _; rfl)
    | (with_reducible apply silent_compileProgram) <;> (intro _; rfl)
    | (with_reducible apply silent_glGetUniformLocation) <;> (intro _; rfl)
    | with_reducible apply silent_bind
    | with_reducible apply silent_ite
    | intro _
    | dsimp only

theorem renderQuad_quiet (app : App) :
    Silent isDriverStep (renderQuad app) := by
  unfold renderQuad
  repeat first
    | with_reducible exact silent_pure _ _
    | (with_reducible apply silent_emit) <;> rfl
    | with_reducible exact silent_fault _ _
    | with_reducible exact silent_fresh _ _
    | (with_reducible apply silent_index) <;> (intro _; rfl)
    | (with_reducible apply silent_gen1) <;> (intro _ _; rfl)
    | (with_reducible apply silent_compileProgram) <;> (intro _; rfl)
    | (with_reducible apply silent_glGetUniformLocation) <;> (intro _; rfl)
    | with_reducible apply silent_bind
    | with_reducible apply silent_ite
    | intro _
    | dsimp only

theorem integrateBRDF_quiet (app : App) (env : Env) :
    Silent isDriverStep (integrateBRDF app env) := by
  unfold integrateBRDF
  repeat first
    | with_reducible exact silent_pure _ _
    | (with_reducible apply silent_emit) <;> rfl
    | with_reducible exact silent_fault _ _
    | with_reducible exact silent_fresh _ _
    | (with_reducible apply silent_index) <;> (intro _; rfl)
    | (with_reducible apply silent_gen1) <;> (intro _ _; rfl)
    | (with_reducible apply silent_compileProgram) <;> (intro _; rfl)
    | (with_reducible apply silent_glGetUniformLocation) <;> (intro _; rfl)
    | with_reducible exact renderQuad_quiet _
    | with_reducible apply silent_bind
    | with_reducible apply silent_ite
    | intro _
    | dsimp only

theorem captureFaces_quiet (app : App) (l : Int) (texture : Nat) (level : Int) :
    Silent isDriverStep (captureFaces app l texture level) := by
  unfold captureFaces captureFace
  repeat first
    | with_reducible exact silent_pure _ _
    | (with_reducible apply silent_emit) <;> rfl
    | with_reducible exact silent_fault _ _
    | with_reducible exact silent_fresh _ _
    | (with_reducible apply silent_index) <;> (intro _; rfl)
    | (with_reducible apply silent_gen1) <;> (intro _ _; rfl)
    | (with_reducible apply silent_compileProgram) <;> (intro _; rfl)
    | (with_reducible apply silent_glGetUniformLocation) <;> (intro _; rfl)
    | with_reducible exact renderCube_quiet _
    | with_reducible apply silent_loop
    | with_reducible apply silent_bind
    | with_reducible apply silent_ite
    | intro _
    | dsimp only

theorem loadEnvTexture_quiet (app : App) (env : Env) :
    Silent isDriverStep (loadEnvTexture app env) := by
  unfold loadEnvTexture
  repeat first
    | with_reducible exact silent_pure _ _
    | (with_reducible apply silent_emit) <;> rfl
    | with_reducible exact silent_fault _ _
    | with_reducible exact silent_fresh _ _
    | (with_reducible apply silent_index) <;> (intro _; rfl)
    | (with_reducible apply silent_gen1) <;> (intro _ _; rfl)
    | (with_reducible apply silent_compileProgram) <;> (intro _; rfl)
    | (with_reducible apply silent_glGetUniformLocation) <;> (intro _; rfl)
    | with_reducible apply silent_bind
    | with_reducible apply silent_ite
    | intro _
    | split
    | dsimp only

theorem loadCorrectedEnvTexture_quiet (app : App) (env : Env) :
    Silent isDriverStep (loadCorrectedEnvTexture app env) := by
  unfold loadCorrectedEnvTexture
  repeat first
    | with_reducible exact silent_pure _ _
    | (with_reducible apply silent_emit) <;> rfl
    | with_reducible exact silent_fault _ _
    | with_reducible exact silent_fresh _ _
    | (with_reducible apply silent_index) <;> (intro _; rfl)
    | (with_reducible apply silent_gen1) <;> (intro _ _; rfl)
    | (with_reducible apply silent_compileProgram) <;> (intro _; rfl)
    | (with_reducible apply silent_glGetUniformLocation) <;> (intro _; rfl)
    | with_reducible exact cubeMapParameters_quiet
    | with_reducible exact allocateFaces_quiet _
    | with_reducible exact captureFaces_quiet _ _ _ _
    | with_reducible exact loadEnvTexture_quiet _ _
    | with_reducible apply silent_bind
    | with_reducible apply silent_ite
    | intro _
    | dsimp only

theorem computeIrradianceMap_quiet (app : App) (env : Env) (c : Nat) :
    Silent isDriverStep (computeIrradianceMap app env c) := by
  unfold computeIrradianceMap
  repeat first
    | with_reducible exact silent_pure _ _
    | (with_reducible apply silent_emit) <;> rfl
    | with_reducible exact silent_fault _ _
    | with_reducible exact silent_fresh _ _
    | (with_reducible apply silent_index) <;> (intro _; rfl)
    | (with_reducible apply silent_gen1) <;> (intro _ _; rfl)
    | (with_reducible apply silent_compileProgram) <;> (intro _; rfl)
    | (with_reducible apply silent_glGetUniformLocation) <;> (intro _; rfl)
    | with_reducible exact cubeMapParameters_quiet
    | with_reducible exact allocateFaces_quiet _
    | with_reducible exact captureFaces_quiet _ _ _ _
    | with_reducible apply silent_bind
    | with_reducible apply silent_ite
    | intro _
    | dsimp only

theorem prefilterMip_quiet (app : App) (rbo map : Nat) (rl vl : Int) (mip : Nat) :
    Silent isDriverStep (prefilterMip app rbo map rl vl mip) := by
  unfold prefilterMip mipExtent mipRoughness asDouble asFloat toGLuint
  repeat first
    | with_reducible exact silent_pure _ _
    | (with_reducible apply silent_emit) <;> rfl
    | with_reducible exact silent_fault _ _
    | with_reducible exact silent_fresh _ _
    | (with_reducible apply silent_index) <;> (intro _; rfl)
    | (with_reducible apply silent_gen1) <;> (intro _ _; rfl)
    | (with_reducible apply silent_compileProgram) <;> (intro _; rfl)
    | (with_reducible apply silent_glGetUniformLocation) <;> (intro _; rfl)
    | with_reducible exact captureFaces_quiet _ _ _ _
    | with_reducible apply silent_bind
    | with_reducible apply silent_ite
    | intro _
    | split
    | dsimp only

theorem prefilterEnvironmentMap_quiet (app : App) (env : Env) (c : Nat) :
    Silent isDriverStep (prefilterEnvironmentMap app env c) := by
  unfold prefilterEnvironmentMap
  repeat first
    | with_reducible exact silent_pure _ _
    | (with_reducible apply silent_emit) <;> rfl
    | with_reducible exact silent_fault _ _
    | with_reducible exact silent_fresh _ _
    | (with_reducible apply silent_index) <;> (intro _; rfl)
    | (with_reducible apply silent_gen1) <;> (intro _ _; rfl)
    | (with_reducible apply silent_compileProgram) <;> (intro _; rfl)
    | (with_reducible apply silent_glGetUniformLocation) <;> (intro _; rfl)
    | with_reducible exact allocateFaces_quiet _
    | with_reducible exact prefilterMip_quiet _ _ _ _ _ _
    | with_reducible apply silent_loop
    | with_reducible apply silent_bind
    | with_reducible apply silent_ite
    | intro _
    | dsimp only

theorem precomputeIBL_quiet (app : App) (env : Env) :
    Silent isDriverStep (precomputeIBL app env) := by
  unfold precomputeIBL
  repeat first
    | with_reducible exact silent_pure _ _
    | (with_reducible apply silent_emit) <;> rfl
    | with_reducible exact silent_fault _ _
    | with_reducible exact silent_fresh _ _
    | (with_reducible apply silent_index) <;> (intro _; rfl)
    | (with_reducible apply silent_gen1) <;> (intro _ _; rfl)
    | (with_reducible apply silent_compileProgram) <;> (intro _; rfl)
    | (with_reducible apply silent_glGetUniformLocation) <;> (intro _; rfl)
    | with_reducible exact initQuad_quiet _
    | with_reducible exact initCube_quiet _
    | with_reducible exact integrateBRDF_quiet _ _
    | with_reducible exact loadCorrectedEnvTexture_quiet _ _
    | with_reducible exact computeIrradianceMap_quiet _ _ _
    | with_reducible exact prefilterEnvironmentMap_quiet _ _ _
    | with_reducible apply silent_bind
    | with_reducible apply silent_ite
    | intro _
    | dsimp only

theorem createBufferObjects_quiet (model : Model) :
    Silent isDriverStep (createBufferObjects model) := by
  unfold createBufferObjects
  repeat first
    | with_reducible exact silent_pure _ _
    | (with_reducible apply silent_emit) <;> rfl
    | with_reducible exact silent_fault _ _
    | with_reducible exact silent_fresh _ _
    | (with_reducible apply silent_index) <;> (intro _; rfl)
    | (with_reducible apply silent_gen1) <;> (intro _ _; rfl)
    | (with_reducible apply silent_compileProgram) <;> (intro _; rfl)
    | (with_reducible apply silent_glGetUniformLocation) <;> (intro _; rfl)
    | with_reducible apply silent_loop
    | with_reducible apply silent_bind
    | with_reducible apply silent_ite
    | intro _
    | dsimp only

theorem vao_init_quiet (model : Model) (p : Primitive) (bo : List Nat) (str : String)
    (index : Nat) :
    Silent isDriverStep (vao_init model p bo str index) := by
  unfold vao_init
  repeat first
    | with_reducible exact silent_pure _ _
    | (with_reducible apply silent_emit) <;> rfl
    | with_reducible exact silent_fault _ _
    | with_reducible exact silent_fresh _ _
    | (with_reducible apply silent_index) <;> (intro _; rfl)
    | (with_reducible apply silent_gen1) <;> (intro _ _; rfl)
    | (with_reducible apply silent_compileProgram) <;> (intro _; rfl)
    | (with_reducible apply silent_glGetUniformLocation) <;> (intro _; rfl)
    | with_reducible apply silent_bind
    | with_reducible apply silent_ite
    | intro _
    | split
    | dsimp only

theorem initPrimitive_quiet (model : Model) (bo vaos : List Nat) (i offset k : Nat) :
    Silent isDriverStep (initPrimitive model bo vaos i offset k) := by
  unfold initPrimitive
  repeat first
    | with_reducible exact silent_pure _ _
    | (with_reducible apply silent_emit) <;> rfl
    | with_reducible exact silent_fault _ _
    | with_reducible exact silent_fresh _ _
    | (with_reducible apply silent_index) <;> (intro _; rfl)
    | (with_reducible apply silent_gen1) <;> (intro _ _; rfl)
    | (with_reducible apply silent_compileProgram) <;> (intro _; rfl)
    | (with_reducible apply silent_glGetUniformLocation) <;> (intro _; rfl)
    | with_reducible exact vao_init_quiet _ _ _ _ _
    | with_reducible apply silent_bind
    | with_reducible apply silent_ite
    | intro _
    | dsimp only

theorem initMesh_quiet (model : Model) (bo : List Nat) (i : Nat) (st : VaoTables) :
    Silent isDriverStep (initMesh model bo i st) := by
  unfold initMesh
  repeat first
    | with_reducible exact silent_pure _ _
    | (with_reducible apply silent_emit) <;> rfl
    | with_reducible exact silent_fault _ _
    | with_reducible exact silent_fresh _ _
    | (with_reducible apply silent_index) <;> (intro _; rfl)
    | (with_reducible apply silent_gen1) <;> (intro _ _; rfl)
    | (with_reducible apply silent_compileProgram) <;> (intro _; rfl)
    | (with_reducible apply silent_glGetUniformLocation) <;> (intro _; rfl)
    | with_reducible exact initPrimitive_quiet _ _ _ _ _ _
    | with_reducible apply silent_loop
    | with_reducible apply silent_bind
    | with_reducible apply silent_ite
    | intro _
    | dsimp only

theorem createVertexArrayObjects_quiet (model : Model) (bo : List Nat) (r0 : List VaoRange) :
    Silent isDriverStep (createVertexArrayObjects model bo r0) := by
  unfold createVertexArrayObjects
  repeat first
    | with_reducible exact silent_pure _ _
    | (with_reducible apply silent_emit) <;> rfl
    | with_reducible exact silent_fault _ _
    | with_reducible exact silent_fresh _ _
    | (with_reducible apply silent_index) <;> (intro _; rfl)
    | (with_reducible apply silent_gen1) <;> (intro _ _; rfl)
    | (with_reducible apply silent_compileProgram) <;> (intro _; rfl)
    | (with_reducible apply silent_glGetUniformLocation) <;> (intro _; rfl)
    | with_reducible exact initMesh_quiet _ _ _ _
    | with_reducible apply silent_loop
    | with_reducible apply silent_bind
    | with_reducible apply silent_ite
    | intro _
    | dsimp only

theorem buildResources_quiet (app : App) (env : Env) (model : Model) (program skybox : Nat) :
    Silent isDriverStep (buildResources app env model program skybox) := by
  unfold buildResources
  repeat first
    | with_reducible exact silent_pure _ _
    | (with_reducible apply silent_emit) <;> rfl
    | with_reducible exact silent_fault _ _
    | with_reducible exact silent_fresh _ _
    | (with_reducible apply silent_index) <;> (intro _; rfl)
    | (with_reducible apply silent_gen1) <;> (intro _ _; rfl)
    | (with_reducible apply silent_compileProgram) <;> (intro _; rfl)
    | (with_reducible apply silent_glGetUniformLocation) <;> (intro _; rfl)
    | with_reducible exact createTextureObjects_quiet _
    | with_reducible exact makeFlatTexture_quiet _
    | with_reducible exact makeWhiteCube_quiet
    | with_reducible exact precomputeIBL_quiet _ _
    | with_reducible exact createBufferObjects_quiet _
    | with_reducible exact createVertexArrayObjects_quiet _ _ _
    | with_reducible apply silent_bind
    | with_reducible apply silent_ite
    | intro _
    | dsimp only

theorem bindMaterialFallback_steady (loc : Locations) (res : Resources) :
    Steady (bindMaterialFallback loc res) := by
  unfold bindMaterialFallback
  repeat first
    | with_reducible exact steady_pure _
    | with_reducible exact steady_emit _
    | with_reducible exact steady_fault _
    | with_reducible exact steady_index _ _ _
    | with_reducible apply steady_bind
    | with_reducible apply steady_ite
    | intro _
    | dsimp only

set_option maxRecDepth 100000 in
theorem bindMaterialTextured_steady (model : Model) (loc : Locations) (feat : Features)
    (res : Resources) (material : Material) :
    Steady (bindMaterialTextured model loc feat res material) := by
  unfold bindMaterialTextured bindBaseColor bindMetallicRoughness bindEmissive bindOcclusion
    bindNormal bindEnvironment
  repeat first
    | with_reducible exact steady_pure _
    | with_reducible exact steady_emit _
    | with_reducible exact steady_fault _
    | with_reducible exact steady_index _ _ _
    | with_reducible apply steady_bind
    | with_reducible apply steady_ite
    | intro _
    | dsimp only

theorem bindMaterial_steady (model : Model) (loc : Locations) (feat : Features)
    (res : Resources) (materialIndex : Int) :
    Steady (bindMaterial model loc feat res materialIndex) := by
  unfold bindMaterial
  repeat first
    | with_reducible exact steady_pure _
    | with_reducible exact steady_emit _
    | with_reducible exact steady_fault _
    | with_reducible exact steady_index _ _ _
    | with_reducible exact bindMaterialTextured_steady _ _ _ _ _
    | with_reducible exact bindMaterialFallback_steady _ _
    | with_reducible apply steady_bind
    | with_reducible apply steady_ite
    | intro _
    | dsimp only

theorem drawPrimitive_steady (model : Model) (mesh : Mesh) (i : Nat) :
    Steady (drawPrimitive model mesh i) := by
  unfold drawPrimitive
  repeat first
    | with_reducible exact steady_pure _
    | with_reducible exact steady_emit _
    | with_reducible exact steady_fault _
    | with_reducible exact steady_index _ _ _
    | with_reducible apply steady_bind
    | with_reducible apply steady_ite
    | intro _
    | split
    | dsimp only

theorem drawNodePrimitive_steady (model : Model) (loc : Locations) (feat : Features)
    (res : Resources) (mesh : Mesh) (range : VaoRange) (i : Nat) :
    Steady (drawNodePrimitive model loc feat res mesh range i) := by
  unfold drawNodePrimitive
  repeat first
    | with_reducible exact steady_pure _
    | with_reducible exact steady_emit _
    | with_reducible exact steady_fault _
    | with_reducible exact steady_index _ _ _
    | with_reducible exact bindMaterial_steady _ _ _ _ _
    | with_reducible exact drawPrimitive_steady _ _ _
    | with_reducible apply steady_bind
    | with_reducible apply steady_ite
    | intro _
    | dsimp only

theorem uploadNodeUniforms_steady (loc : Locations) (feat : Features) (node : Node)
    (modelMatrix : Mat4) :
    Steady (uploadNodeUniforms loc feat node modelMatrix) := by
  unfold uploadNodeUniforms
  repeat first
    | with_reducible exact steady_pure _
    | with_reducible exact steady_emit _
    | with_reducible exact steady_fault _
    | with_reducible exact steady_index _ _ _
    | with_reducible apply steady_bind
    | with_reducible apply steady_ite
    | intro _
    | dsimp only

theorem drawNode_steady (model : Model) (loc : Locations) (feat : Features)
    (res : Resources) (nodeIdx : Int) (parentMatrix : Mat4) :
    Steady (drawNode model loc feat res nodeIdx parentMatrix) := by
  unfold drawNode
  repeat first
    | with_reducible exact steady_pure _
    | with_reducible exact steady_emit _
    | with_reducible exact steady_fault _
    | with_reducible exact steady_index _ _ _
    | with_reducible exact uploadNodeUniforms_steady _ _ _ _
    | with_reducible exact drawNodePrimitive_steady _ _ _ _ _ _ _
    | with_reducible apply steady_loop
    | with_reducible apply steady_bind
    | with_reducible apply steady_ite
    | intro _
    | dsimp only

theorem renderCube_steady (app : App) :
    Steady (renderCube app) := by
  unfold renderCube
  repeat first
    | with_reducible exact steady_pure _
    | with_reducible exact steady_emit _
    | with_reducible exact steady_fault _
    | with_reducible exact steady_index _ _ _
    | with_reducible apply steady_bind
    | with_reducible apply steady_ite
    | intro _
    | dsimp only

theorem drawSkybox_steady (app : App) (loc : Locations) (res : Resources) :
    Steady (drawSkybox app loc res) := by
  unfold drawSkybox
  repeat first
    | with_reducible exact steady_pure _
    | with_reducible exact steady_emit _
    | with_reducible exact steady_fault _
    | with_reducible exact steady_index _ _ _
    | with_reducible exact renderCube_steady _
    | with_reducible apply steady_bind
    | with_reducible apply steady_ite
    | intro _
    | dsimp only

theorem drawDefaultScene_steady (app : App) (model : Model) (loc : Locations)
    (feat : Features) (res : Resources) :
    Steady (drawDefaultScene app model loc feat res) := by
  unfold drawDefaultScene
  repeat first
    | with_reducible exact steady_pure _
    | with_reducible exact steady_emit _
    | with_reducible exact steady_fault _
    | with_reducible exact steady_index _ _ _
    | with_reducible exact drawSkybox_steady _ _ _
    | with_reducible exact drawNode_steady _ _ _ _ _ _
    | with_reducible apply steady_loop
    | with_reducible apply steady_bind
    | with_reducible apply steady_ite
    | intro _
    | dsimp only

theorem drawScene_steady (app : App) (model : Model) (loc : Locations) (feat : Features)
    (res : Resources) :
    Steady (drawScene app model loc feat res) := by
  unfold drawScene
  repeat first
    | with_reducible exact steady_pure _
    | with_reducible exact steady_emit _
    | with_reducible exact steady_fault _
    | with_reducible exact steady_index _ _ _
    | with_reducible exact drawDefaultScene_steady _ _ _ _ _
    | with_reducible apply steady_bind
    | with_reducible apply steady_ite
    | intro _
    | dsimp only

/-! ## The frame driver -/

theorem initQuad_eq (app : App) (n : Nat) :
    initQuad app n = .ok ({ app with m_quadVAO := n, m_quadVBO := n + 1 },
      (initQuad app).trace n, n + 2) := rfl

theorem initCube_eq (app : App) (n : Nat) :
    initCube app n = .ok ({ app with m_unitCubeVAO := n, m_unitCubeVBO := n + 1 },
      (initCube app).trace n, n + 2) := rfl

/-- The four IBL stages of `run` in the order of their calls, with the counters they start
from and the handle the correction stage returns. -/
theorem precomputeIBL_inv {app : App} {env : Env} {n n1 : Nat} {ibl : IblResources}
    {t : List Ev} (h : precomputeIBL app env n = .ok (ibl, t, n1)) :
    ∃ (app1 app2 : App) (nb nc ne ni np : Nat),
      (initQuad app).result n = some app1 ∧ (initCube app1).result nc = some app2 ∧
      (integrateBRDF app1 env).result nb = some ibl.brdfLUT ∧
      (loadCorrectedEnvTexture app2 env).result ne = some ibl.envTexture ∧
      (computeIrradianceMap app2 env ibl.envTexture).result ni = some ibl.irradianceMap ∧
      (prefilterEnvironmentMap app2 env ibl.envTexture).result np = some ibl.prefilterMap ∧
      ibl.app = app2 ∧
      app2.m_nWindowWidth = app.m_nWindowWidth ∧ app2.m_nWindowHeight = app.m_nWindowHeight ∧
      t = (initQuad app).trace n ++ (integrateBRDF app1 env).trace nb
        ++ (initCube app1).trace nc ++ (loadCorrectedEnvTexture app2 env).trace ne
        ++ (computeIrradianceMap app2 env ibl.envTexture).trace ni
        ++ (prefilterEnvironmentMap app2 env ibl.envTexture).trace np := by
  unfold precomputeIBL at h
  obtain ⟨app1, t1, m1, u1, h1, h, e1⟩ := GLM.bind_inv h
  obtain ⟨brdf, t2, m2, u2, h2, h, e2⟩ := GLM.bind_inv h
  obtain ⟨app2, t3, m3, u3, h3, h, e3⟩ := GLM.bind_inv h
  obtain ⟨envTexture, t4, m4, u4, h4, h, e4⟩ := GLM.bind_inv h
  obtain ⟨irr, t5, m5, u5, h5, h, e5⟩ := GLM.bind_inv h
  obtain ⟨pre, t6, m6, u6, h6, h, e6⟩ := GLM.bind_inv h
  cases h
  have hq := initQuad_eq app n
  rw [h1] at hq
  have hc := initCube_eq app1 m2
  rw [h3] at hc
  refine ⟨app1, app2, m1, m2, m3, m4, m5, GLM.result_of_ok h1, GLM.result_of_ok h3,
    GLM.result_of_ok h2, GLM.result_of_ok h4, GLM.result_of_ok h5, GLM.result_of_ok h6, rfl,
    ?_, ?_, ?_⟩
  · cases hc; cases hq; rfl
  · cases hc; cases hq; rfl
  · rw [GLM.trace_of_ok h1, GLM.trace_of_ok h2, GLM.trace_of_ok h3, GLM.trace_of_ok h4,
      GLM.trace_of_ok h5, GLM.trace_of_ok h6, e1, e2, e3, e4, e5, e6]
    simp only [List.append_assoc, List.append_nil]

/-- The build phase of `run` contains the IBL stages between the flat textures and the
buffer objects, and hands the handles of the stages to the lambdas. -/
theorem buildResources_inv {app : App} {env : Env} {model : Model} {program skybox : Nat}
    {n n1 : Nat} {built : Built} {t : List Ev}
    (h : buildResources app env model program skybox n = .ok (built, t, n1)) :
    ∃ (ibl : IblResources) (pre post ti : List Ev) (m m1 : Nat),
      precomputeIBL app env m = .ok (ibl, ti, m1) ∧ t = pre ++ ti ++ post ∧
      built.app = ibl.app ∧ built.res.brdfLUT = ibl.brdfLUT ∧
      built.res.envTexture = ibl.envTexture ∧ built.res.irradianceMap = ibl.irradianceMap ∧
      built.res.prefilterMap = ibl.prefilterMap := by
  unfold buildResources at h
  obtain ⟨tex, t1, m1, u1, h1, h, e1⟩ := GLM.bind_inv h
  obtain ⟨white, t2, m2, u2, h2, h, e2⟩ := GLM.bind_inv h
  obtain ⟨grey, t3, m3, u3, h3, h, e3⟩ := GLM.bind_inv h
  obtain ⟨cube, t4, m4, u4, h4, h, e4⟩ := GLM.bind_inv h
  obtain ⟨ibl, t5, m5, u5, h5, h, e5⟩ := GLM.bind_inv h
  obtain ⟨_, t6, m6, u6, h6, h, e6⟩ := GLM.bind_inv h
  obtain ⟨bo, t7, m7, u7, h7, h, e7⟩ := GLM.bind_inv h
  obtain ⟨tables, t8, m8, u8, h8, h, e8⟩ := GLM.bind_inv h
  obtain ⟨_, t9, m9, u9, h9, h, e9⟩ := GLM.bind_inv h
  obtain ⟨_, t10, m10, u10, h10, h, e10⟩ := GLM.bind_inv h
  cases h
  refine ⟨ibl, t1 ++ t2 ++ t3 ++ t4, t6 ++ t7 ++ t8 ++ t9 ++ t10, t5, m4, m5, h5, ?_, rfl, rfl,
    rfl, rfl, rfl⟩
  rw [e1, e2, e3, e4, e5, e6, e7, e8, e9, e10]
  simp only [List.append_assoc, List.append_nil]

theorem buildResources_window {app : App} {env : Env} {model : Model} {program skybox : Nat}
    {n n1 : Nat} {built : Built} {t : List Ev}
    (h : buildResources app env model program skybox n = .ok (built, t, n1)) :
    built.app.m_nWindowWidth = app.m_nWindowWidth ∧
    built.app.m_nWindowHeight = app.m_nWindowHeight := by
  obtain ⟨ibl, _, _, _, m, m1, hi, _, ha, _⟩ := buildResources_inv h
  obtain ⟨_, app2, _, _, _, _, _, _, _, _, _, _, _, hb, hw, hh, _⟩ := precomputeIBL_inv hi
  rw [ha, hb]
  exact ⟨hw, hh⟩

theorem filter_loop_of_driver (t : List Ev) (u : List Ev) (h : t.filter isDriverStep = u) :
    t.filter isLoopStep = u.filter isLoopStep := by
  rw [← h, List.filter_filter]
  congr 1
  funext e
  cases e <;> rfl

/-! ## C11 -/

/-- C11: when the scene loads and an output path is set, for every window size `w` x `h`
whose byte count `w * h * 3` fits an `int`, once the prologue and the build phase of `run`
have returned and the one call of `drawScene` returns, `run` returns status 0; its steps
after the build phase are the allocation of `w * h * 3` bytes, `renderToImage` on `w` x `h`
x 3 with the calls of that one `drawScene`, `flipImageYAxis` on `w` x `h` x 3 and
`stbi_write_png` of a `w` x `h` image with 3 channels to the output path; no step of the
interactive loop is taken. -/
theorem run_capture (app : App) (env : Env) (host : Host) (n n1 n2 n3 : Nat)
    (programs : Programs) (built : Built) (tp tb td : List Ev)
    (hload : host.gltfLoads = true) (hpath : app.m_OutputPath ≠ "")
    (hsize : app.m_nWindowWidth * app.m_nWindowHeight * 3 < 2 ^ 31)
    (hpro : runPrologue app env n = .ok (programs, tp, n1))
    (hbuild : buildResources app env host.model programs.glslProgram
      programs.glslSkyboxProgram n1 = .ok (built, tb, n2))
    (hdraw : drawScene built.app host.model programs.loc initialFeatures built.res n2
      = .ok ((), td, n3)) :
    (run app env host).result n = some 0 ∧
    (run app env host).trace n = tp ++ tb
      ++ [.allocatePixels (app.m_nWindowWidth * app.m_nWindowHeight * 3),
          .renderToImage app.m_nWindowWidth app.m_nWindowHeight 3]
      ++ td
      ++ [.flipImageYAxis app.m_nWindowWidth app.m_nWindowHeight 3,
          .stbi_write_png app.m_OutputPath app.m_nWindowWidth app.m_nWindowHeight 3 0] ∧
    ((run app env host).trace n).filter isDriverStep =
      [.allocatePixels (app.m_nWindowWidth * app.m_nWindowHeight * 3),
       .renderToImage app.m_nWindowWidth app.m_nWindowHeight 3,
       .flipImageYAxis app.m_nWindowWidth app.m_nWindowHeight 3,
       .stbi_write_png app.m_OutputPath app.m_nWindowWidth app.m_nWindowHeight 3 0] ∧
    ((run app env host).trace n).filter isLoopStep = [] := by
  obtain ⟨hw, hh⟩ := buildResources_window hbuild
  have hcap : runCapture built.app host.model programs.loc built.res app.m_OutputPath n2
      = .ok (0, [.allocatePixels (app.m_nWindowWidth * app.m_nWindowHeight * 3),
          .renderToImage app.m_nWindowWidth app.m_nWindowHeight 3]
        ++ td
        ++ [.flipImageYAxis app.m_nWindowWidth app.m_nWindowHeight 3,
            .stbi_write_png app.m_OutputPath app.m_nWindowWidth app.m_nWindowHeight 3 0],
        n3) := by
    unfold runCapture windowBytes renderToImage
    simp only [hw, hh, hsize, if_true, GLM.bind_apply, GLM.andThen, GLM.pure_apply, GLM.emit,
      hdraw, List.append_assoc, List.cons_append, List.nil_append, List.append_nil]
  have hrun : run app env host n = .ok (0, tp ++ (tb
      ++ ([.allocatePixels (app.m_nWindowWidth * app.m_nWindowHeight * 3),
          .renderToImage app.m_nWindowWidth app.m_nWindowHeight 3]
      ++ td
      ++ [.flipImageYAxis app.m_nWindowWidth app.m_nWindowHeight 3,
          .stbi_write_png app.m_OutputPath app.m_nWindowWidth app.m_nWindowHeight 3 0])),
      n3) := by
    unfold run
    refine GLM.bind_ok hpro ?_
    simp only [hload, if_true]
    unfold runLoaded
    refine GLM.bind_ok hbuild ?_
    simp only [hpath, ne_eq, not_false_eq_true, if_true]
    exact hcap
  have hdriver : ((run app env host).trace n).filter isDriverStep =
      [.allocatePixels (app.m_nWindowWidth * app.m_nWindowHeight * 3),
       .renderToImage app.m_nWindowWidth app.m_nWindowHeight 3,
       .flipImageYAxis app.m_nWindowWidth app.m_nWindowHeight 3,
       .stbi_write_png app.m_OutputPath app.m_nWindowWidth app.m_nWindowHeight 3 0] := by
    rw [GLM.trace_of_ok hrun]
    simp only [List.filter_append, silent_filter_eq_nil (runPrologue_quiet app env) hpro,
      silent_filter_eq_nil (buildResources_quiet _ _ _ _ _) hbuild,
      silent_filter_eq_nil (drawScene_quiet _ _ _ _ _) hdraw, List.nil_append, List.append_nil]
    rfl
  refine ⟨GLM.result_of_ok hrun, ?_, hdriver, ?_⟩
  · rw [GLM.trace_of_ok hrun]
    simp only [List.append_assoc]
  · rw [filter_loop_of_driver _ _ hdriver]
    rfl

set_option maxRecDepth 1000000 in
/-- C11, witness: the sample scene captured from a 800 x 600 window to `out.png`; the pixel
buffer has 1440000 bytes. -/
theorem run_capture_witness :
    sampleHost.gltfLoads = true ∧ captureApp.m_OutputPath ≠ "" ∧
    captureApp.m_nWindowWidth * captureApp.m_nWindowHeight * 3 < 2 ^ 31 ∧
    (run captureApp sampleEnv sampleHost).result 1 = some 0 ∧
    ((run captureApp sampleEnv sampleHost).trace 1).filter isDriverStep =
      [.allocatePixels 1440000, .renderToImage 800 600 3, .flipImageYAxis 800 600 3,
       .stbi_write_png "out.png" 800 600 3 0] ∧
    ((run captureApp sampleEnv sampleHost).trace 1).filter isLoopStep = [] :=
  ⟨rfl, by decide, by decide,
    (run_capture captureApp sampleEnv sampleHost 1 _ _ _ _ _ _ _ _ rfl (by decide)
      (by decide) rfl rfl rfl).1,
    (run_capture captureApp sampleEnv sampleHost 1 _ _ _ _ _ _ _ _ rfl (by decide)
      (by decide) rfl rfl rfl).2.2.1,
    (run_capture captureApp sampleEnv sampleHost 1 _ _ _ _ _ _ _ _ rfl (by decide)
      (by decide) rfl rfl rfl).2.2.2⟩

/-! ## C12 -/

set_option maxRecDepth 100000 in
/-- C12 (code evaluated at the failing input): with the environment toggle on, the call of
`bindMaterial` for a primitive without material returns through the fallback block and
leaves units 5, 6 and 7 as they were: in a new context they hold texture 0, not the
irradiance map 9, the prefilter map 4 and the BRDF LUT 7. With the toggle off, the same call
made after a call that bound the maps leaves the irradiance map 9 bound on unit 5. -/
theorem bindMaterial_fallback_environment_units :
    sampleFeatures.featureEnvironment = true ∧
    (bindMaterial sampleModel sampleLocations sampleFeatures sampleResources (-1)).result 1
      = some () ∧
    (TextureUnits.initial.after
      ((bindMaterial sampleModel sampleLocations sampleFeatures sampleResources (-1)).trace 1)
      ).boundAt (GL_TEXTURE0 + 5) GL_TEXTURE_CUBE_MAP = 0 ∧
    sampleResources.irradianceMap = 9 ∧
    (TextureUnits.initial.after
      ((bindMaterial sampleModel sampleLocations sampleFeatures sampleResources (-1)).trace 1)
      ).boundAt (GL_TEXTURE0 + 6) GL_TEXTURE_CUBE_MAP = 0 ∧
    sampleResources.prefilterMap = 4 ∧
    (TextureUnits.initial.after
      ((bindMaterial sampleModel sampleLocations sampleFeatures sampleResources (-1)).trace 1)
      ).boundAt (GL_TEXTURE0 + 7) GL_TEXTURE_2D = 0 ∧
    sampleResources.brdfLUT = 7 ∧
    ((TextureUnits.initial.after
      ((bindMaterial texturedModel sampleLocations sampleFeatures texturedResources 0).trace 1)
      ).after
      ((bindMaterial texturedModel sampleLocations
        { sampleFeatures with featureEnvironment := false } texturedResources (-1)).trace 1)
      ).boundAt (GL_TEXTURE0 + 5) GL_TEXTURE_CUBE_MAP = 9 := by
  decide

/-! ## C13 -/

set_option maxRecDepth 100000 in
/-- C13 (code evaluated at the failing input): for a primitive without material
`bindMaterial` returns with texture 0 bound on the occlusion unit 3, not the white texture
5; for a material with the occlusion toggle off the textured branch binds the white texture
5 on that unit. -/
theorem bindMaterial_fallback_occlusion_unit :
    (bindMaterial sampleModel sampleLocations sampleFeatures sampleResources (-1)).result 1
      = some () ∧
    (TextureUnits.initial.after
      ((bindMaterial sampleModel sampleLocations sampleFeatures sampleResources (-1)).trace 1)
      ).boundAt (GL_TEXTURE0 + 3) GL_TEXTURE_2D = 0 ∧
    sampleResources.whiteTexture = 5 ∧
    (TextureUnits.initial.after
      ((bindMaterial texturedModel sampleLocations
        { sampleFeatures with featureOcclusion := false } texturedResources 0).trace 1)
      ).boundAt (GL_TEXTURE0 + 3) GL_TEXTURE_2D = 5 := by
  decide

/-! ## C14 -/

theorem handleAt_of_at? (res : Resources) (i : Int) (x : Nat)
    (h : at? res.textureObjects i = some x) : handleAt res i = x := by
  simp [handleAt, h]

theorem factor_index (t : Table) (v : List Dyadic) (i : Nat) (h : i < v.length) (n : Nat) :
    GLM.index t v (i : Int) n = .ok (factorAt v i, [Ev.read t i], n) := by
  rw [GLM.index_ok t v i h n]
  simp [factorAt, h]

theorem bindBaseColor_eq (feat : Features) (res : Resources) (texture : Texture) (n : Nat)
    (h : (at? res.textureObjects texture.source).isSome = true) :
    bindBaseColor feat res texture n
      = .ok ((), baseColorEvents feat.featureTexture res texture.source, n) := by
  obtain ⟨x, hx⟩ := Option.isSome_iff_exists.mp h
  unfold bindBaseColor baseColorEvents
  cases feat.featureTexture
  · rfl
  · simp only [if_true, GLM.bind_apply, GLM.andThen, GLM.emit, GLM.index, hx,
      handleAt_of_at? res _ x hx]
    rfl

theorem bindMetallicRoughness_eq (loc : Locations) (feat : Features) (res : Resources)
    (pbr : PbrMetallicRoughness) (n : Nat)
    (h : (at? res.textureObjects pbr.metallicRoughnessTexture.index).isSome = true)
    (hlen : 4 ≤ pbr.baseColorFactor.length) :
    bindMetallicRoughness loc feat res pbr n
      = .ok ((), metallicRoughnessEvents feat.featureMetallicRoughness loc res pbr, n) := by
  obtain ⟨x, hx⟩ := Option.isSome_iff_exists.mp h
  have h0 := factor_index .baseColorFactor pbr.baseColorFactor 0 (by omega)
  have h1 := factor_index .baseColorFactor pbr.baseColorFactor 1 (by omega)
  have h2 := factor_index .baseColorFactor pbr.baseColorFactor 2 (by omega)
  have h3 := factor_index .baseColorFactor pbr.baseColorFactor 3 (by omega)
  unfold bindMetallicRoughness metallicRoughnessEvents
  cases feat.featureMetallicRoughness
  · rfl
  · have hi := GLM.index_of_at? .textureObjects res.textureObjects _ x hx
    simp only [if_true, GLM.bind_apply, GLM.andThen, GLM.emit, hi,
      handleAt_of_at? res _ x hx]
    simp only [Nat.cast_ofNat, Nat.cast_zero, Nat.cast_one] at h0 h1 h2 h3
    simp only [h0, h1, h2, h3]
    rfl


theorem bindEmissive_eq (loc : Locations) (feat : Features) (res : Resources)
    (material : Material) (n : Nat)
    (h : (at? res.textureObjects material.emissiveTexture.index).isSome = true)
    (hlen : 3 ≤ material.emissiveFactor.length) :
    bindEmissive loc feat res material.emissiveTexture material.emissiveFactor n
      = .ok ((), emissiveEvents feat.featureEmission loc res material, n) := by
  obtain ⟨x, hx⟩ := Option.isSome_iff_exists.mp h
  have h0 := factor_index .emissiveFactor material.emissiveFactor 0 (by omega)
  have h1 := factor_index .emissiveFactor material.emissiveFactor 1 (by omega)
  have h2 := factor_index .emissiveFactor material.emissiveFactor 2 (by omega)
  unfold bindEmissive emissiveEvents
  cases feat.featureEmission
  · rfl
  · have hi := GLM.index_of_at? .textureObjects res.textureObjects _ x hx
    simp only [if_true, GLM.bind_apply, GLM.andThen, GLM.emit, hi,
      handleAt_of_at? res _ x hx]
    simp only [Nat.cast_ofNat, Nat.cast_zero, Nat.cast_one] at h0 h1 h2
    simp only [h0, h1, h2]
    rfl

theorem bindOcclusion_eq (loc : Locations) (feat : Features) (res : Resources)
    (material : Material) (n : Nat)
    (h : (at? res.textureObjects material.occlusionTexture.index).isSome = true) :
    bindOcclusion loc feat res material.occlusionTexture n
      = .ok ((), occlusionEvents feat.featureOcclusion loc res material, n) := by
  obtain ⟨x, hx⟩ := Option.isSome_iff_exists.mp h
  unfold bindOcclusion occlusionEvents
  cases feat.featureOcclusion
  · rfl
  · have hi := GLM.index_of_at? .textureObjects res.textureObjects _ x hx
    simp only [if_true, GLM.bind_apply, GLM.andThen, GLM.emit, hi,
      handleAt_of_at? res _ x hx]
    rfl

theorem bindNormal_eq (loc : Locations) (feat : Features) (res : Resources)
    (material : Material) (n : Nat)
    (h : (at? res.textureObjects material.normalTexture.index).isSome = true) :
    bindNormal loc feat res material.normalTexture n
      = .ok ((), normalEvents feat.featureNormal loc res material, n) := by
  obtain ⟨x, hx⟩ := Option.isSome_iff_exists.mp h
  unfold bindNormal normalEvents
  cases feat.featureNormal
  · rfl
  · have hi := GLM.index_of_at? .textureObjects res.textureObjects _ x hx
    simp only [if_true, GLM.bind_apply, GLM.andThen, GLM.emit, hi,
      handleAt_of_at? res _ x hx]
    rfl

theorem bindEnvironment_eq (feat : Features) (res : Resources) (n : Nat) :
    bindEnvironment feat res n = .ok ((), environmentEvents feat.featureEnvironment res, n) := by
  unfold bindEnvironment environmentEvents
  cases feat.featureEnvironment <;> rfl

theorem materialResolves_iff (model : Model) (res : Resources) (material : Material)
    (h : materialResolves model res material = true) :
    ∃ texture, at? model.textures material.pbrMetallicRoughness.baseColorTexture.index
        = some texture ∧
      (at? res.textureObjects texture.source).isSome = true ∧
      (at? res.textureObjects
        material.pbrMetallicRoughness.metallicRoughnessTexture.index).isSome = true ∧
      (at? res.textureObjects material.emissiveTexture.index).isSome = true ∧
      (at? res.textureObjects material.occlusionTexture.index).isSome = true ∧
      (at? res.textureObjects material.normalTexture.index).isSome = true ∧
      4 ≤ material.pbrMetallicRoughness.baseColorFactor.length ∧
      3 ≤ material.emissiveFactor.length := by
  unfold materialResolves at h
  cases ht : at? model.textures material.pbrMetallicRoughness.baseColorTexture.index with
  | none => simp [ht] at h
  | some texture =>
    simp only [ht, Bool.and_eq_true, decide_eq_true_eq] at h
    obtain ⟨⟨⟨⟨⟨⟨a, b⟩, c⟩, d⟩, e⟩, f⟩, g⟩ := h
    exact ⟨texture, rfl, a, b, c, d, e, f, g⟩

theorem bindMaterialTextured_eq (model : Model) (loc : Locations) (feat : Features)
    (res : Resources) (material : Material) (texture : Texture) (n : Nat)
    (ht : at? model.textures material.pbrMetallicRoughness.baseColorTexture.index
      = some texture)
    (h : materialResolves model res material = true) :
    bindMaterialTextured model loc feat res material n = .ok ((),
      [.read .textures material.pbrMetallicRoughness.baseColorTexture.index]
      ++ baseColorEvents feat.featureTexture res texture.source
      ++ [.glUniform1i loc.baseColorLocation 0]
      ++ metallicRoughnessEvents feat.featureMetallicRoughness loc res
          material.pbrMetallicRoughness
      ++ [.glUniform1i loc.metallicRoughnessTextureLocation 1]
      ++ emissiveEvents feat.featureEmission loc res material
      ++ [.glUniform1i loc.emissiveTextureLocation 2]
      ++ occlusionEvents feat.featureOcclusion loc res material
      ++ [.glUniform1i loc.occlusionTextureLocation 3]
      ++ normalEvents feat.featureNormal loc res material
      ++ [.glUniform1i loc.normalTextureLocation 4]
      ++ environmentEvents feat.featureEnvironment res
      ++ [.glUniform1i loc.irradianceTextureLocation 5,
          .glUniform1i loc.prefilterTextureLocation 6,
          .glUniform1i loc.brdfLUTLocation 7], n) := by
  obtain ⟨tx, htx, a, b, c, d, e, f, g⟩ := materialResolves_iff model res material h
  rw [ht] at htx
  cases htx
  unfold bindMaterialTextured
  simp only [GLM.bind_apply, GLM.andThen, GLM.emit,
    GLM.index_of_at? .textures model.textures _ texture ht,
    bindBaseColor_eq feat res texture _ a,
    bindMetallicRoughness_eq loc feat res material.pbrMetallicRoughness _ b f,
    bindEmissive_eq loc feat res material _ c g,
    bindOcclusion_eq loc feat res material _ d,
    bindNormal_eq loc feat res material _ e,
    bindEnvironment_eq feat res, List.append_assoc, List.cons_append, List.nil_append]


theorem uniform4fAt_channels (l : Int) (loc : Locations) (feat : Features) (res : Resources)
    (material : Material) (source : Int) :
    (baseColorEvents feat.featureTexture res source).filterMap (uniform4fAt l) = [] ∧
    (emissiveEvents feat.featureEmission loc res material).filterMap (uniform4fAt l) = [] ∧
    (occlusionEvents feat.featureOcclusion loc res material).filterMap (uniform4fAt l) = [] ∧
    (normalEvents feat.featureNormal loc res material).filterMap (uniform4fAt l) = [] ∧
    (environmentEvents feat.featureEnvironment res).filterMap (uniform4fAt l) = [] := by
  refine ⟨?_, ?_, ?_, ?_, ?_⟩
  · cases feat.featureTexture <;> rfl
  · cases feat.featureEmission <;> rfl
  · cases feat.featureOcclusion <;> rfl
  · cases feat.featureNormal <;> rfl
  · cases feat.featureEnvironment <;> rfl

theorem uniform4fAt_metallicRoughness (loc : Locations) (res : Resources)
    (pbr : PbrMetallicRoughness) (enabled : Bool) :
    (metallicRoughnessEvents enabled loc res pbr).filterMap
      (uniform4fAt loc.baseColorFactorLocation) =
      [if enabled then
        (factorAt pbr.baseColorFactor 0, factorAt pbr.baseColorFactor 1,
          factorAt pbr.baseColorFactor 2, factorAt pbr.baseColorFactor 3)
      else (⟨1, 0⟩, ⟨1, 0⟩, ⟨1, 0⟩, ⟨1, 0⟩)] := by
  cases enabled <;> simp [metallicRoughnessEvents, uniform4fAt]

/-- C14 (amended): for a material of a scene with a non-empty texture table whose lookups
are all in range, `bindMaterial` returns and its calls are the six channel segments in
order, each separated by the upload of its sampler unit; the segment of a channel is a
function of the material and of that channel's own toggle only. The base colour factor is
uploaded by the metallic-roughness segment: it is the material's factor when the
metallic-roughness toggle is on and (1, 1, 1, 1) when that toggle is off, whatever the base
colour toggle is. -/
theorem bindMaterial_channels (model : Model) (loc : Locations) (feat : Features)
    (res : Resources) (materialIndex : Int) (material : Material) (texture : Texture) (n : Nat)
    (hidx : materialIndex ≥ 0) (hm : at? model.materials materialIndex = some material)
    (hne : model.textures.length > 0)
    (ht : at? model.textures material.pbrMetallicRoughness.baseColorTexture.index
      = some texture)
    (h : materialResolves model res material = true) :
    (bindMaterial model loc feat res materialIndex).result n = some () ∧
    (bindMaterial model loc feat res materialIndex).trace n =
      [.read .materials materialIndex,
       .read .textures material.pbrMetallicRoughness.baseColorTexture.index]
      ++ baseColorEvents feat.featureTexture res texture.source
      ++ [.glUniform1i loc.baseColorLocation 0]
      ++ metallicRoughnessEvents feat.featureMetallicRoughness loc res
          material.pbrMetallicRoughness
      ++ [.glUniform1i loc.metallicRoughnessTextureLocation 1]
      ++ emissiveEvents feat.featureEmission loc res material
      ++ [.glUniform1i loc.emissiveTextureLocation 2]
      ++ occlusionEvents feat.featureOcclusion loc res material
      ++ [.glUniform1i loc.occlusionTextureLocation 3]
      ++ normalEvents feat.featureNormal loc res material
      ++ [.glUniform1i loc.normalTextureLocation 4]
      ++ environmentEvents feat.featureEnvironment res
      ++ [.glUniform1i loc.irradianceTextureLocation 5,
          .glUniform1i loc.prefilterTextureLocation 6,
          .glUniform1i loc.brdfLUTLocation 7] ∧
    ((bindMaterial model loc feat res materialIndex).trace n).filterMap
      (uniform4fAt loc.baseColorFactorLocation) =
      [if feat.featureMetallicRoughness then
        (factorAt material.pbrMetallicRoughness.baseColorFactor 0,
          factorAt material.pbrMetallicRoughness.baseColorFactor 1,
          factorAt material.pbrMetallicRoughness.baseColorFactor 2,
          factorAt material.pbrMetallicRoughness.baseColorFactor 3)
      else (⟨1, 0⟩, ⟨1, 0⟩, ⟨1, 0⟩, ⟨1, 0⟩)] := by
  have hrun : bindMaterial model loc feat res materialIndex n = .ok ((),
      [.read .materials materialIndex,
       .read .textures material.pbrMetallicRoughness.baseColorTexture.index]
      ++ baseColorEvents feat.featureTexture res texture.source
      ++ [.glUniform1i loc.baseColorLocation 0]
      ++ metallicRoughnessEvents feat.featureMetallicRoughness loc res
          material.pbrMetallicRoughness
      ++ [.glUniform1i loc.metallicRoughnessTextureLocation 1]
      ++ emissiveEvents feat.featureEmission loc res material
      ++ [.glUniform1i loc.emissiveTextureLocation 2]
      ++ occlusionEvents feat.featureOcclusion loc res material
      ++ [.glUniform1i loc.occlusionTextureLocation 3]
      ++ normalEvents feat.featureNormal loc res material
      ++ [.glUniform1i loc.normalTextureLocation 4]
      ++ environmentEvents feat.featureEnvironment res
      ++ [.glUniform1i loc.irradianceTextureLocation 5,
          .glUniform1i loc.prefilterTextureLocation 6,
          .glUniform1i loc.brdfLUTLocation 7], n) := by
    unfold bindMaterial
    simp only [hidx, if_true, hne, GLM.bind_apply, GLM.andThen,
      GLM.index_of_at? .materials model.materials _ material hm,
      bindMaterialTextured_eq model loc feat res material texture _ ht h,
      List.append_assoc, List.cons_append, List.nil_append]
  obtain ⟨h1, h2, h3, h4, h5⟩ := uniform4fAt_channels loc.baseColorFactorLocation loc feat res
    material texture.source
  refine ⟨by simp only [GLM.result, hrun], by simp only [GLM.trace, hrun], ?_⟩
  simp only [GLM.trace, hrun, List.filterMap_append, h1, h2, h3, h4, h5,
    uniform4fAt_metallicRoughness]
  rfl

set_option maxRecDepth 100000 in
/-- C14, witness: material 0 of the textured sample scene, all toggles on. -/
theorem bindMaterial_channels_witness :
    (0 : Int) ≥ 0 ∧ at? texturedModel.materials 0 = some fullMaterial ∧
    texturedModel.textures.length > 0 ∧
    materialResolves texturedModel texturedResources fullMaterial = true ∧
    (bindMaterial texturedModel sampleLocations sampleFeatures texturedResources 0).result 1
      = some () ∧
    ((bindMaterial texturedModel sampleLocations sampleFeatures texturedResources 0).trace
      1).filterMap (uniform4fAt sampleLocations.baseColorFactorLocation)
      = [(⟨1, -1⟩, ⟨1, -2⟩, ⟨1, 0⟩, ⟨1, 0⟩)] :=
  ⟨by decide, by decide, by decide, by decide,
    (bindMaterial_channels texturedModel sampleLocations sampleFeatures texturedResources 0
      fullMaterial ⟨-1, 0⟩ 1 (by decide) (by decide) (by decide) (by decide) (by decide)).1,
    (bindMaterial_channels texturedModel sampleLocations sampleFeatures texturedResources 0
      fullMaterial ⟨-1, 0⟩ 1 (by decide) (by decide) (by decide) (by decide) (by decide)).2.2⟩

set_option maxRecDepth 100000 in
/-- C14, counterexample: for material 0 of the textured sample scene, whose base colour
factor is (1/2, 1/4, 1, 1), switching only the metallic-roughness toggle off changes the
base colour factor uploaded to (1, 1, 1, 1), and with the base colour toggle off the factor
uploaded is still (1/2, 1/4, 1, 1). -/
theorem bindMaterial_channels_counterexample :
    ((bindMaterial texturedModel sampleLocations sampleFeatures texturedResources 0).trace
      1).filterMap (uniform4fAt sampleLocations.baseColorFactorLocation)
      = [(⟨1, -1⟩, ⟨1, -2⟩, ⟨1, 0⟩, ⟨1, 0⟩)] ∧
    ((bindMaterial texturedModel sampleLocations
      { sampleFeatures with featureMetallicRoughness := false } texturedResources 0).trace
      1).filterMap (uniform4fAt sampleLocations.baseColorFactorLocation)
      = [(⟨1, 0⟩, ⟨1, 0⟩, ⟨1, 0⟩, ⟨1, 0⟩)] ∧
    ((bindMaterial texturedModel sampleLocations
      { sampleFeatures with featureTexture := false } texturedResources 0).trace
      1).filterMap (uniform4fAt sampleLocations.baseColorFactorLocation)
      = [(⟨1, -1⟩, ⟨1, -2⟩, ⟨1, 0⟩, ⟨1, 0⟩)] := by
  decide

/-! ## C15 -/

set_option maxRecDepth 100000 in
/-- C15 (code evaluated at the failing input): in the textured sample scene material 1 has
no normal map (index -1); with the normal toggle on, `bindMaterial` does not return: it
indexes `textureObjects` with -1. Material 2 has no base colour texture (index -1), and
`bindMaterial` indexes `model.textures` with -1. -/
theorem bindMaterial_absent_index_faults :
    texturedModel.textures.length > 0 ∧
    (texturedModel.materials[1]?).map (fun m => m.normalTexture.index) = some (-1) ∧
    sampleFeatures.featureNormal = true ∧
    (bindMaterial texturedModel sampleLocations sampleFeatures texturedResources 1).fault? 1
      = some (.outOfRange .textureObjects (-1)) ∧
    (texturedModel.materials[2]?).map
      (fun m => m.pbrMetallicRoughness.baseColorTexture.index) = some (-1) ∧
    (bindMaterial texturedModel sampleLocations sampleFeatures texturedResources 2).fault? 1
      = some (.outOfRange .textures (-1)) := by
  decide

/-! ## C16 -/

set_option maxRecDepth 100000 in
/-- C16 (code evaluated at the failing input): node 0 of `groupModel` references no mesh
(index -1); `drawNode` on it does not return: after skipping the uniforms it indexes
`model.meshes` with -1. So does `drawScene`, whose default scene has node 0 as its root. -/
theorem drawNode_meshless_lookup :
    (groupModel.nodes[0]?).map (fun nd => nd.mesh) = some (-1) ∧
    (drawNode groupModel sampleLocations sampleFeatures sampleResources 0 .identity).fault? 1
      = some (.outOfRange .meshes (-1)) ∧
    (drawScene sampleApp groupModel sampleLocations sampleFeatures sampleResources).fault? 1
      = some (.outOfRange .meshes (-1)) := by
  decide

/-! ## C17 -/

/-- C17 (amended): for a primitive `p` without POSITION attribute, the VAO builder wires
nothing to the position slot, and the body of the primitive loop of `drawNode` still returns
and issues exactly one draw call when the material binds and the references resolve:
`glDrawElements` when `p.indices >= 0`, else `glDrawArrays` with the count of the accessor of
the first attribute. -/
theorem drawNodePrimitive_without_position (model : Model) (loc : Locations) (feat : Features)
    (res : Resources) (mesh : Mesh) (range : VaoRange) (i : Nat) (p : Primitive) (vao : Nat)
    (name : String) (a : Int) (acc : Accessor) (bv : BufferView) (bo : List Nat) (n : Nat)
    (hpos : p.attributes.lookup "POSITION" = none)
    (hp : mesh.primitives[i]? = some p)
    (hmat : (bindMaterial model loc feat res p.material).result n = some ())
    (hvao : at? res.vertexArrayObjects (addSizeT (toSizeT range.begin) i) = some vao)
    (hcase : (p.indices ≥ 0 ∧ at? model.accessors p.indices = some acc ∧
        at? model.bufferViews acc.bufferView = some bv) ∨
      (p.indices < 0 ∧ p.attributes.head? = some (name, a) ∧
        at? model.accessors a = some acc)) :
    (vao_init model p bo "POSITION" VERTEX_ATTRIB_POSITION_IDX).trace n = [] ∧
    (drawNodePrimitive model loc feat res mesh range i).result n = some () ∧
    ((drawNodePrimitive model loc feat res mesh range i).trace n).filter isDraw =
      [if p.indices ≥ 0 then
        Ev.glDrawElements p.mode acc.count acc.componentType
          (addSizeT bv.byteOffset acc.byteOffset)
      else Ev.glDrawArrays p.mode 0 acc.count] := by
  refine ⟨by simp only [GLM.trace, vao_init_absent model p bo _ _ hpos n], ?_⟩
  rcases hcase with ⟨hi, ha, hb⟩ | ⟨hi, hh, ha⟩
  · have h := drawNodePrimitive_of_draw model loc feat res mesh range i p vao n _ hp hmat hvao
      (fun k => drawPrimitive_indexed model mesh i p acc bv k hp hi ha hb)
    refine ⟨h.1, ?_⟩
    rw [h.2]
    simp only [hi, if_true]
    rfl
  · have hi2 : ¬ p.indices ≥ 0 := by omega
    have h := drawNodePrimitive_of_draw model loc feat res mesh range i p vao n _ hp hmat hvao
      (fun k => drawPrimitive_arrays model mesh i p name a acc k hp hi hh ha)
    refine ⟨h.1, ?_⟩
    rw [h.2]
    simp only [hi2, if_false]
    rfl

set_option maxRecDepth 100000 in
/-- C17, witness: the primitive of `normalOnlyModel` has a NORMAL attribute only and no
indices; it is drawn by `glDrawArrays` with the 3 vertices of accessor 0. -/
theorem drawNodePrimitive_without_position_witness :
    (⟨[("NORMAL", 0)], -1, -1, 4⟩ : Primitive).attributes.lookup "POSITION" = none ∧
    (vao_init normalOnlyModel ⟨[("NORMAL", 0)], -1, -1, 4⟩ [7] "POSITION"
      VERTEX_ATTRIB_POSITION_IDX).trace 1 = [] ∧
    (drawNodePrimitive normalOnlyModel sampleLocations sampleFeatures normalOnlyResources
      ⟨[⟨[("NORMAL", 0)], -1, -1, 4⟩]⟩ ⟨0, 1⟩ 0).result 1 = some () ∧
    ((drawNodePrimitive normalOnlyModel sampleLocations sampleFeatures normalOnlyResources
      ⟨[⟨[("NORMAL", 0)], -1, -1, 4⟩]⟩ ⟨0, 1⟩ 0).trace 1).filter isDraw =
      [if (⟨[("NORMAL", 0)], -1, -1, 4⟩ : Primitive).indices ≥ 0 then
        Ev.glDrawElements (⟨[("NORMAL", 0)], -1, -1, 4⟩ : Primitive).mode
          (⟨0, 0, 5126, 3, 3⟩ : Accessor).count (⟨0, 0, 5126, 3, 3⟩ : Accessor).componentType
          (addSizeT (⟨0, 0, 0⟩ : BufferView).byteOffset (⟨0, 0, 5126, 3, 3⟩ : Accessor).byteOffset)
      else Ev.glDrawArrays (⟨[("NORMAL", 0)], -1, -1, 4⟩ : Primitive).mode 0
        (⟨0, 0, 5126, 3, 3⟩ : Accessor).count] :=
  ⟨by decide,
    drawNodePrimitive_without_position normalOnlyModel sampleLocations sampleFeatures
      normalOnlyResources ⟨[⟨[("NORMAL", 0)], -1, -1, 4⟩]⟩ ⟨0, 1⟩ 0
      ⟨[("NORMAL", 0)], -1, -1, 4⟩ 10 "NORMAL" 0 ⟨0, 0, 5126, 3, 3⟩ ⟨0, 0, 0⟩ [7] 1
      (by decide) (by decide) (by decide) (by decide)
      (Or.inr ⟨by decide, by decide, by decide⟩)⟩

set_option maxRecDepth 100000 in
/-- C17, counterexample: the only primitive of `normalOnlyModel` has no POSITION attribute,
and `drawNode` issues the draw call `glDrawArrays(4, 0, 3)` for it. -/
theorem drawNodePrimitive_without_position_counterexample :
    (normalOnlyModel.meshes[0]?).map (fun m => m.primitives.map
      (fun p => p.attributes.lookup "POSITION")) = some [none] ∧
    (drawNode normalOnlyModel sampleLocations sampleFeatures normalOnlyResources 0
      .identity).result 1 = some () ∧
    ((drawNode normalOnlyModel sampleLocations sampleFeatures normalOnlyResources 0
      .identity).trace 1).filter isDraw = [.glDrawArrays 4 0 3] := by
  decide

/-! ## C18 -/

theorem stage_shaders (app : App) (env : Env) (c n : Nat) :
    ((integrateBRDF app env).trace n).filterMap compiledShaders
      = [[app.m_integrateVertexShader, app.m_integrateFragmentShader]] ∧
    ((loadCorrectedEnvTexture app env).trace n).filterMap compiledShaders
      = [[app.m_cubemapVertexShader, app.m_cubemapFragmentShader]] ∧
    ((computeIrradianceMap app env c).trace n).filterMap compiledShaders
      = [[app.m_cubemapVertexShader, app.m_irradianceFragmentShader]] ∧
    ((prefilterEnvironmentMap app env c).trace n).filterMap compiledShaders
      = [[app.m_cubemapVertexShader, app.m_prefilterFragmentShader]] := by
  refine ⟨by rfl, ?_, by rfl, by rfl⟩
  cases app
  cases env
  rename_i img
  cases ‹Bool›
  · rfl
  · cases img with
    | none => rfl
    | some wh => cases wh; rfl

/-- C18 (amended): in every run whose scene loads and that returns, the calls of the four
IBL stages appear in the order BRDF LUT integration, correction, irradiance convolution,
specular prefiltering (the cube is created between the first two): the correction stage
runs before the irradiance and the prefilter stage, both of which are given the cubemap
handle it returned, and after the BRDF LUT integration, which takes no cubemap. Each stage
compiles its own program. -/
theorem run_ibl_order (app : App) (env : Env) (host : Host) (n : Nat) (r : Int)
    (hload : host.gltfLoads = true) (hr : (run app env host).result n = some r) :
    ∃ (pre post : List Ev) (app1 app2 : App) (nq nb nc ne ni np envTexture : Nat),
      (initQuad app).result nq = some app1 ∧ (initCube app1).result nc = some app2 ∧
      (loadCorrectedEnvTexture app2 env).result ne = some envTexture ∧
      (run app env host).trace n = pre
        ++ (integrateBRDF app1 env).trace nb
        ++ (initCube app1).trace nc
        ++ (loadCorrectedEnvTexture app2 env).trace ne
        ++ (computeIrradianceMap app2 env envTexture).trace ni
        ++ (prefilterEnvironmentMap app2 env envTexture).trace np
        ++ post ∧
      ((integrateBRDF app1 env).trace nb).filterMap compiledShaders
        = [[app1.m_integrateVertexShader, app1.m_integrateFragmentShader]] ∧
      ((loadCorrectedEnvTexture app2 env).trace ne).filterMap compiledShaders
        = [[app2.m_cubemapVertexShader, app2.m_cubemapFragmentShader]] ∧
      ((computeIrradianceMap app2 env envTexture).trace ni).filterMap compiledShaders
        = [[app2.m_cubemapVertexShader, app2.m_irradianceFragmentShader]] ∧
      ((prefilterEnvironmentMap app2 env envTexture).trace np).filterMap compiledShaders
        = [[app2.m_cubemapVertexShader, app2.m_prefilterFragmentShader]] := by
  obtain ⟨t, n1, hrun⟩ := (result_eq_some_iff _ _ _).mp hr
  have ht := GLM.trace_of_ok hrun
  unfold run at hrun
  obtain ⟨p, tp, m1, t2, _, h2, e2⟩ := GLM.bind_inv hrun
  simp only [hload, if_true] at h2
  unfold runLoaded at h2
  obtain ⟨b, tb, m3, t4, hb, _, e4⟩ := GLM.bind_inv h2
  obtain ⟨ibl, pre, post, ti, m, m5, hi, eb, _⟩ := buildResources_inv hb
  obtain ⟨app1, app2, nb, nc, ne, ni, np, hq, hc, _, hcorr, _, _, _, _, _, ei⟩ :=
    precomputeIBL_inv hi
  refine ⟨tp ++ pre ++ (initQuad app).trace m, post ++ t4, app1, app2, m, nb, nc, ne, ni, np,
    ibl.envTexture, hq, hc, hcorr, ?_, (stage_shaders app1 env 0 nb).1,
    (stage_shaders app2 env 0 ne).2.1, (stage_shaders app2 env ibl.envTexture ni).2.2.1,
    (stage_shaders app2 env ibl.envTexture np).2.2.2⟩
  rw [ht, e2, e4, eb, ei]
  simp only [List.append_assoc]

set_option maxRecDepth 1000000 in
/-- C18, witness: the sample scene shown for two frames. -/
theorem run_ibl_order_witness :
    sampleHost.gltfLoads = true ∧
    (run interactiveApp sampleEnv sampleHost).result 1 = some 0 ∧
    ∃ (pre post : List Ev) (app1 app2 : App) (nq nb nc ne ni np envTexture : Nat),
      (initQuad interactiveApp).result nq = some app1 ∧
      (initCube app1).result nc = some app2 ∧
      (loadCorrectedEnvTexture app2 sampleEnv).result ne = some envTexture ∧
      (run interactiveApp sampleEnv sampleHost).trace 1 = pre
        ++ (integrateBRDF app1 sampleEnv).trace nb
        ++ (initCube app1).trace nc
        ++ (loadCorrectedEnvTexture app2 sampleEnv).trace ne
        ++ (computeIrradianceMap app2 sampleEnv envTexture).trace ni
        ++ (prefilterEnvironmentMap app2 sampleEnv envTexture).trace np
        ++ post ∧
      ((integrateBRDF app1 sampleEnv).trace nb).filterMap compiledShaders
        = [[app1.m_integrateVertexShader, app1.m_integrateFragmentShader]] ∧
      ((loadCorrectedEnvTexture app2 sampleEnv).trace ne).filterMap compiledShaders
        = [[app2.m_cubemapVertexShader, app2.m_cubemapFragmentShader]] ∧
      ((computeIrradianceMap app2 sampleEnv envTexture).trace ni).filterMap compiledShaders
        = [[app2.m_cubemapVertexShader, app2.m_irradianceFragmentShader]] ∧
      ((prefilterEnvironmentMap app2 sampleEnv envTexture).trace np).filterMap compiledShaders
        = [[app2.m_cubemapVertexShader, app2.m_prefilterFragmentShader]] :=
  ⟨rfl, by decide, run_ibl_order interactiveApp sampleEnv sampleHost 1 0 rfl (by decide)⟩

set_option maxRecDepth 1000000 in
/-- C18, counterexample: in the run of the sample scene the program of the BRDF LUT
integration is compiled, and the stage run, before the program of the correction stage:
the programs are compiled in the order window, skybox, integration, correction,
irradiance, prefilter. -/
theorem run_ibl_order_counterexample :
    sampleHost.gltfLoads = true ∧
    ((run interactiveApp sampleEnv sampleHost).trace 1).filterMap compiledShaders =
      [["forward.vs.glsl", "pbr.fs.glsl"], ["skybox.vs.glsl", "skybox.fs.glsl"],
       ["integrate.vs.glsl", "integrate.fs.glsl"], ["cubemap.vs.glsl", "cubemap.fs.glsl"],
       ["cubemap.vs.glsl", "irradiance.fs.glsl"], ["cubemap.vs.glsl", "prefilter.fs.glsl"]] ∧
    (((run interactiveApp sampleEnv sampleHost).trace 1).filterMap compiledShaders).indexOf
        ["integrate.vs.glsl", "integrate.fs.glsl"]
      < (((run interactiveApp sampleEnv sampleHost).trace 1).filterMap compiledShaders).indexOf
        ["cubemap.vs.glsl", "cubemap.fs.glsl"] := by
  decide

/-! ## C19 -/

theorem runPrologue_ok (app : App) (env : Env) (n : Nat) :
    ∃ programs tp, runPrologue app env n = .ok (programs, tp, n) :=
  ⟨_, _, rfl⟩

theorem runPrologue_shaders (app : App) (env : Env) (n : Nat) :
    ((runPrologue app env).trace n).filterMap compiledShaders =
      [[app.m_vertexShader, app.m_fragmentShader],
       [app.m_skyboxVertexShader, app.m_skyboxFragmentShader]] := rfl

theorem runCapture_status {app : App} {model : Model} {loc : Locations} {res : Resources}
    {path : String} {n n1 : Nat} {r : Int} {t : List Ev}
    (h : runCapture app model loc res path n = .ok (r, t, n1)) : r = 0 := by
  unfold runCapture at h
  obtain ⟨_, _, _, _, _, h, _⟩ := GLM.bind_inv h
  obtain ⟨_, _, _, _, _, h, _⟩ := GLM.bind_inv h
  obtain ⟨_, _, _, _, _, h, _⟩ := GLM.bind_inv h
  obtain ⟨_, _, _, _, _, h, _⟩ := GLM.bind_inv h
  obtain ⟨_, _, _, _, _, h, _⟩ := GLM.bind_inv h
  cases h
  rfl

theorem runInteractive_status {app : App} {host : Host} {loc : Locations} {res : Resources}
    {n n1 : Nat} {r : Int} {t : List Ev}
    (h : runInteractive app host loc res n = .ok (r, t, n1)) : r = 0 := by
  unfold runInteractive at h
  obtain ⟨_, _, _, _, _, h, _⟩ := GLM.bind_inv h
  cases h
  rfl

theorem runInteractive_ok (app : App) (host : Host) (loc : Locations) (res : Resources)
    (n : Nat)
    (h : ∀ k, k < host.frames →
      (drawScene app host.model loc (frameFeatures host k) res).result n = some ()) :
    (runInteractive app host loc res).result n = some 0 := by
  have hloop := loopFrom_unit_ok (fun k (_ : Unit) => interactiveFrame app host loc res k) n
    host.frames 0 (by
      intro k _ hk
      obtain ⟨t, n1, hd⟩ := (result_eq_some_iff _ _ _).mp (h k (by omega))
      have hn := (drawScene_steady app host.model loc (frameFeatures host k) res).same _ _ _ _ hd
      subst hn
      refine ⟨t ++ [.imguiRenderFrame, .glfwPollEvents, .swapBuffers], ?_⟩
      show interactiveFrame app host loc res k n1 = _
      unfold interactiveFrame
      simp only [GLM.bind_apply, GLM.andThen, hd, GLM.emit, List.cons_append, List.nil_append])
  obtain ⟨t, ht⟩ := hloop
  unfold runInteractive
  simp only [GLM.result, GLM.bind_apply, GLM.andThen, ht, GLM.pure_apply]

/-- C19: when the loader reports failure, `run` returns -1 after the prologue only (the two
programs of the window and their uniform locations): it creates no OpenGL object, compiles
no program of an IBL stage and issues no draw call. Every status `run` returns is non-zero
exactly when the loader reported failure. When the scene loads, `run` returns 0 in both
modes as soon as the build phase returns and the draw of the captured frame, respectively
of each of the frames shown until the window is closed, returns. -/
theorem run_status (app : App) (env : Env) (host : Host) (n : Nat) :
    (host.gltfLoads = false →
      (run app env host).result n = some (-1) ∧
      (run app env host).trace n = (runPrologue app env).trace n ∧
      ((run app env host).trace n).filter createsOrDraws = [] ∧
      ((run app env host).trace n).filterMap compiledShaders =
        [[app.m_vertexShader, app.m_fragmentShader],
         [app.m_skyboxVertexShader, app.m_skyboxFragmentShader]]) ∧
    (∀ r, (run app env host).result n = some r → (r ≠ 0 ↔ host.gltfLoads = false)) ∧
    (host.gltfLoads = true →
      ∀ (programs : Programs) (built : Built) (tp tb : List Ev) (n1 n2 : Nat),
        runPrologue app env n = .ok (programs, tp, n1) →
        buildResources app env host.model programs.glslProgram programs.glslSkyboxProgram n1
          = .ok (built, tb, n2) →
        (app.m_OutputPath ≠ "" →
          app.m_nWindowWidth * app.m_nWindowHeight * 3 < 2 ^ 31 ∧
          (drawScene built.app host.model programs.loc initialFeatures built.res).result n2
            = some ()) →
        (app.m_OutputPath = "" → ∀ k, k < host.frames →
          (drawScene built.app host.model programs.loc (frameFeatures host k)
            built.res).result n2 = some ()) →
        (run app env host).result n = some 0) := by
  obtain ⟨programs, tp, hpro⟩ := runPrologue_ok app env n
  refine ⟨?_, ?_, ?_⟩
  · intro hfail
    have hrun : run app env host n = .ok (-1, tp ++ [], n) := by
      unfold run
      refine GLM.bind_ok hpro ?_
      simp only [hfail, Bool.false_eq_true, if_false]
      rfl
    rw [List.append_nil] at hrun
    have ht : (run app env host).trace n = (runPrologue app env).trace n := by
      rw [GLM.trace_of_ok hrun, GLM.trace_of_ok hpro]
    refine ⟨GLM.result_of_ok hrun, ht, ?_, ?_⟩
    · rw [GLM.trace_of_ok hrun]
      exact silent_filter_eq_nil (runPrologue_creates_nothing app env) hpro
    · rw [ht]
      exact runPrologue_shaders app env n
  · intro r hr
    obtain ⟨t, n1, hrun⟩ := (result_eq_some_iff _ _ _).mp hr
    unfold run at hrun
    obtain ⟨p, t1, m1, t2, _, h2, _⟩ := GLM.bind_inv hrun
    cases hl : host.gltfLoads with
    | false =>
      simp only [hl, Bool.false_eq_true, if_false] at h2
      cases h2
      simp
    | true =>
      simp only [hl, if_true] at h2
      unfold runLoaded at h2
      obtain ⟨b, t3, m3, t4, _, h4, _⟩ := GLM.bind_inv h2
      have h0 : r = 0 := by
        by_cases hp : app.m_OutputPath ≠ ""
        · rw [if_pos hp] at h4
          exact runCapture_status h4
        · rw [if_neg hp] at h4
          exact runInteractive_status h4
      simp [h0]
  · intro hload programs2 built tp2 tb n1 n2 hpro2 hbuild hcap hint
    by_cases hp : app.m_OutputPath ≠ ""
    · obtain ⟨hsize, hd⟩ := hcap hp
      obtain ⟨td, n3, hdraw⟩ := (result_eq_some_iff _ _ _).mp hd
      obtain ⟨hw, hh⟩ := buildResources_window hbuild
      have hrun : (run app env host).result n = some 0 := by
        unfold run
        unfold GLM.result
        simp only [GLM.bind_apply, GLM.andThen, hpro2, hload, if_true]
        unfold runLoaded
        simp only [GLM.bind_apply, GLM.andThen, hbuild, hp, ne_eq, not_false_eq_true, if_true]
        unfold runCapture windowBytes renderToImage
        simp only [hw, hh, hsize, if_true, GLM.bind_apply, GLM.andThen, GLM.pure_apply,
          GLM.emit, hdraw]
      exact hrun
    · have hp2 : app.m_OutputPath = "" := by
        by_contra hc
        exact hp hc
      have hi := runInteractive_ok built.app host programs2.loc built.res n2 (hint hp2)
      obtain ⟨ti, n3, hri⟩ := (result_eq_some_iff _ _ _).mp hi
      unfold run
      unfold GLM.result
      simp only [GLM.bind_apply, GLM.andThen, hpro2, hload, if_true]
      unfold runLoaded
      simp only [GLM.bind_apply, GLM.andThen, hbuild, hp, if_false, hri]

set_option maxRecDepth 1000000 in
/-- C19, witness: with the failing loader `run` returns -1; with the sample scene shown for
two frames it returns 0. -/
theorem run_status_witness :
    failingHost.gltfLoads = false ∧ sampleHost.gltfLoads = true ∧
    (run interactiveApp sampleEnv failingHost).result 1 = some (-1) ∧
    ((run interactiveApp sampleEnv failingHost).trace 1).filter createsOrDraws = [] ∧
    (run interactiveApp sampleEnv sampleHost).result 1 = some 0 :=
  ⟨rfl, rfl, ((run_status interactiveApp sampleEnv failingHost 1).1 rfl).1,
    ((run_status interactiveApp sampleEnv failingHost 1).1 rfl).2.2.1,
    (run_status interactiveApp sampleEnv sampleHost 1).2.2 rfl _ _ _ _ _ _ rfl rfl
      (fun h => absurd rfl h)
      (fun _ k hk => by
        have h2 : k < 2 := hk
        interval_cases k <;> rfl)⟩

/-! ## C20 -/

theorem writeAt_one (a : List Nat) (k x : Nat) :
    writeAt (a ++ List.replicate (k + 1) 0) a.length [x] = (a ++ [x]) ++ List.replicate k 0 := by
  simp [writeAt, List.replicate_succ]

theorem generateMipmap_eq (model : Model) (texture : Texture) (n : Nat) :
    generateMipmapIfRequested (samplerOf model texture) n = .ok ((),
      (if isMipmapFilter (resolvedMinFilter model texture) then
        [Ev.glGenerateMipmap GL_TEXTURE_2D] else []), n) := by
  unfold generateMipmapIfRequested resolvedMinFilter isMipmapFilter
  by_cases h1 : (samplerOf model texture).minFilter = -1
  · simp only [h1, if_true]
    rfl
  · simp only [h1, if_false, Bool.or_eq_true, decide_eq_true_eq, or_assoc]
    split <;> rfl

theorem resolveSampler_eq (model : Model) (texture : Texture) (n : Nat)
    (h : texture.sampler < 0 ∨ (at? model.samplers texture.sampler).isSome = true) :
    resolveSampler model texture n = .ok (samplerOf model texture,
      (if texture.sampler ≥ 0 then [Ev.read .samplers texture.sampler] else []), n) := by
  unfold resolveSampler samplerOf
  by_cases hs : texture.sampler ≥ 0
  · have hsome : (at? model.samplers texture.sampler).isSome = true := by
      rcases h with h | h
      · omega
      · exact h
    obtain ⟨x, hx⟩ := Option.isSome_iff_exists.mp hsome
    simp only [hs, if_true, GLM.index, hx, Option.getD_some]
  · simp only [hs, if_false]
    rfl


theorem texturesOk_get (model : Model) (hok : texturesOk model = true) (i : Nat)
    (texture : Texture) (ht : model.textures[i]? = some texture) :
    textureOk model texture = true := by
  unfold texturesOk at hok
  rw [List.all_eq_true] at hok
  exact hok texture (List.getElem?_mem ht)

/-- One iteration of the loop of `createTextureObjects` on the table whose first `a.length`
entries are written. -/
theorem initTexture_ok (model : Model) (a : List Nat) (k n : Nat) (texture : Texture)
    (ht : model.textures[a.length]? = some texture) (hok : textureOk model texture = true)
    (n0 : Nat) (hn : n = n0 + a.length) :
    initTexture model a.length (a ++ List.replicate (k + 1) 0) n
      = .ok ((a ++ [n]) ++ List.replicate k 0, textureEvents model n0 a.length, n + 1) := by
  subst hn
  unfold textureOk at hok
  simp only [Bool.and_eq_true, Bool.or_eq_true, decide_eq_true_eq] at hok
  obtain ⟨himg, hsam⟩ := hok
  obtain ⟨image, hx⟩ := Option.isSome_iff_exists.mp himg
  have hlen : a.length < (a ++ List.replicate (k + 1) 0).length := by simp
  have hlen2 : a.length < ((a ++ [n0 + a.length]) ++ List.replicate k 0).length := by simp
  have hget : ((a ++ [n0 + a.length]) ++ List.replicate k 0)[a.length] = n0 + a.length := by
    simp [List.getElem_append_left, List.getElem_append_right]
  have hfresh : GLM.fresh 1 (n0 + a.length)
      = .ok ([n0 + a.length], [], n0 + a.length + 1) := rfl
  have ht2 : at? model.textures (a.length : Int) = some texture := by
    rw [at?_natCast]; exact ht
  unfold initTexture textureEvents
  simp only [GLM.bind_apply, GLM.andThen, GLM.index_ok _ _ _ hlen, hfresh, GLM.emit,
    writeAt_one, GLM.index_ok _ _ _ hlen2, hget,
    GLM.index_of_at? .textures model.textures _ texture ht2,
    GLM.index_of_at? .images model.images _ image hx,
    resolveSampler_eq model texture _ hsam, generateMipmap_eq, ht, hx,
    GLM.pure_apply]
  simp only [resolvedMinFilter, resolvedMagFilter, List.append_assoc, List.cons_append,
    List.nil_append, List.append_nil, ne_eq, ite_not]


/-- The loop of `createTextureObjects`, from any iteration on. -/
theorem textureLoop_ok (model : Model) (hok : texturesOk model = true) (n0 : Nat) :
    ∀ (c : Nat) (a : List Nat), a.length + c = model.textures.length →
      loopFrom (initTexture model) c a.length (a ++ List.replicate c 0) (n0 + a.length)
        = .ok (a ++ (List.range c).map (fun j => n0 + a.length + j),
            (List.range c).flatMap (fun j => textureEvents model n0 (a.length + j)),
            n0 + a.length + c) := by
  intro c
  induction c with
  | zero =>
    intro a _
    simp [loopFrom, GLM.pure_apply]
  | succ c ih =>
    intro a ha
    have hlt : a.length < model.textures.length := by omega
    have ht : model.textures[a.length]? = some model.textures[a.length] :=
      List.getElem?_eq_getElem hlt
    have h1 := initTexture_ok model a c (n0 + a.length) _ ht
      (texturesOk_get model hok _ _ ht) n0 rfl
    have h2 := ih (a ++ [n0 + a.length]) (by simp; omega)
    simp only [List.length_append, List.length_singleton] at h2
    rw [← Nat.add_assoc] at h2
    simp only [loopFrom]
    rw [GLM.bind_ok h1 h2]
    simp only [List.range_succ_eq_map, List.map_cons, List.map_map, List.flatMap_cons,
      List.flatMap_map, List.append_assoc, List.singleton_append, Nat.add_zero]
    have e1 : List.map ((fun j => n0 + a.length + j) ∘ Nat.succ) (List.range c)
        = List.map (fun j => n0 + a.length + 1 + j) (List.range c) := by
      apply List.map_congr_left
      intro j _
      simp only [Function.comp]
      omega
    have e2 : (fun j => textureEvents model n0 (a.length + 1 + j))
        = (fun j => textureEvents model n0 (a.length + Nat.succ j)) := by
      funext j
      congr 1
      omega
    rw [e1, e2, Nat.add_assoc (n0 + a.length) 1 c, Nat.add_comm 1 c]


/-- C20: for a model whose texture references are in range, `createTextureObjects` returns
one new texture name per texture of the model, in order; its calls are, texture by texture,
those of `textureEvents`. For every texture the minification filter set is the resolved one
(the sampler's, or `GL_LINEAR` without sampler or with an unspecified filter) and
`glGenerateMipmap` is called if and only if that filter is one of the four mipmap filters;
a texture without sampler gets `GL_LINEAR` for both filters, `GL_REPEAT` for the three wrap
modes and no mipmaps. -/
theorem createTextureObjects_handles (model : Model) (n : Nat)
    (hok : texturesOk model = true) :
    (createTextureObjects model).result n
      = some ((List.range model.textures.length).map (fun j => n + j)) ∧
    (createTextureObjects model).trace n
      = (List.range model.textures.length).flatMap (textureEvents model n)
        ++ [.glBindTexture GL_TEXTURE_2D 0] ∧
    ∀ (i : Nat) (texture : Texture), model.textures[i]? = some texture →
      (textureEvents model n i).filterMap texParameter =
        [(GL_TEXTURE_MIN_FILTER, resolvedMinFilter model texture),
         (GL_TEXTURE_MAG_FILTER, resolvedMagFilter model texture),
         (GL_TEXTURE_WRAP_S, (samplerOf model texture).wrapS),
         (GL_TEXTURE_WRAP_T, (samplerOf model texture).wrapT),
         (GL_TEXTURE_WRAP_R, (samplerOf model texture).wrapR)] ∧
      ((textureEvents model n i).filter isGenerateMipmap =
        if isMipmapFilter (resolvedMinFilter model texture) then
          [Ev.glGenerateMipmap GL_TEXTURE_2D] else []) ∧
      (texture.sampler < 0 →
        (textureEvents model n i).filterMap texParameter =
          [(GL_TEXTURE_MIN_FILTER, GL_LINEAR), (GL_TEXTURE_MAG_FILTER, GL_LINEAR),
           (GL_TEXTURE_WRAP_S, GL_REPEAT), (GL_TEXTURE_WRAP_T, GL_REPEAT),
           (GL_TEXTURE_WRAP_R, GL_REPEAT)] ∧
        (textureEvents model n i).filter isGenerateMipmap = []) := by
  have hloop := textureLoop_ok model hok n model.textures.length [] (by simp)
  simp only [List.length_nil, Nat.add_zero, List.nil_append, Nat.zero_add] at hloop
  have hrun : createTextureObjects model n = .ok ((List.range model.textures.length).map
      (fun j => n + j), (List.range model.textures.length).flatMap (textureEvents model n)
        ++ [.glBindTexture GL_TEXTURE_2D 0], n + model.textures.length) := by
    unfold createTextureObjects
    simp only [GLM.bind_apply, GLM.andThen, hloop, GLM.emit, GLM.pure_apply,
      List.append_nil]
  refine ⟨by simp only [GLM.result, hrun], by simp only [GLM.trace, hrun], ?_⟩
  intro i texture ht
  have hk := texturesOk_get model hok i texture ht
  unfold textureOk at hk
  simp only [Bool.and_eq_true, Bool.or_eq_true, decide_eq_true_eq] at hk
  obtain ⟨image, hx⟩ := Option.isSome_iff_exists.mp hk.1
  have hpar : (textureEvents model n i).filterMap texParameter =
      [(GL_TEXTURE_MIN_FILTER, resolvedMinFilter model texture),
       (GL_TEXTURE_MAG_FILTER, resolvedMagFilter model texture),
       (GL_TEXTURE_WRAP_S, (samplerOf model texture).wrapS),
       (GL_TEXTURE_WRAP_T, (samplerOf model texture).wrapT),
       (GL_TEXTURE_WRAP_R, (samplerOf model texture).wrapR)] := by
    unfold textureEvents
    simp only [ht, hx]
    by_cases hs : texture.sampler ≥ 0 <;>
      by_cases hm : isMipmapFilter (resolvedMinFilter model texture) = true <;>
      simp [hs, hm, texParameter]
  have hmip : (textureEvents model n i).filter isGenerateMipmap =
      if isMipmapFilter (resolvedMinFilter model texture) then
        [Ev.glGenerateMipmap GL_TEXTURE_2D] else [] := by
    unfold textureEvents
    simp only [ht, hx]
    by_cases hs : texture.sampler ≥ 0 <;>
      by_cases hm : isMipmapFilter (resolvedMinFilter model texture) = true <;>
      simp [hs, hm, isGenerateMipmap]
  refine ⟨hpar, hmip, fun hneg => ?_⟩
  have hs : ¬ texture.sampler ≥ 0 := by omega
  have hsam : samplerOf model texture = defaultSampler := by
    simp only [samplerOf, hs, if_false]
  have hmin : resolvedMinFilter model texture = GL_LINEAR := by
    simp only [resolvedMinFilter, hsam]
    rfl
  have hmag : resolvedMagFilter model texture = GL_LINEAR := by
    simp only [resolvedMagFilter, hsam]
    rfl
  rw [hpar, hmip, hmin, hmag, hsam]
  exact ⟨rfl, rfl⟩

set_option maxRecDepth 100000 in
/-- C20, witness: the two textures of the textured sample scene get the names 30 and 31;
texture 0 has no sampler and gets no mipmaps, texture 1 has a sampler with the filter
`GL_LINEAR_MIPMAP_LINEAR` and gets mipmaps. -/
theorem createTextureObjects_handles_witness :
    texturesOk texturedModel = true ∧
    (createTextureObjects texturedModel).result 30 = some [30, 31] ∧
    ((createTextureObjects texturedModel).trace 30).filter isGenerateMipmap
      = [.glGenerateMipmap GL_TEXTURE_2D] ∧
    (textureEvents texturedModel 30 0).filter isGenerateMipmap = [] ∧
    (textureEvents texturedModel 30 1).filterMap texParameter =
      [(GL_TEXTURE_MIN_FILTER, GL_LINEAR_MIPMAP_LINEAR), (GL_TEXTURE_MAG_FILTER, GL_LINEAR),
       (GL_TEXTURE_WRAP_S, GL_CLAMP_TO_EDGE), (GL_TEXTURE_WRAP_T, GL_REPEAT),
       (GL_TEXTURE_WRAP_R, GL_REPEAT)] :=
  ⟨by decide, (createTextureObjects_handles texturedModel 30 (by decide)).1,
    by decide,
    ((createTextureObjects_handles texturedModel 30 (by decide)).2.2 0 ⟨-1, 0⟩
      (by decide)).2.2 (by decide) |>.2,
    ((createTextureObjects_handles texturedModel 30 (by decide)).2.2 1 ⟨0, 1⟩
      (by decide)).1⟩

/-! ## C21 -/

set_option maxRecDepth 100000 in
/-- C21 (code evaluated, for every call): `integrateBRDF` draws into the framebuffer it
generated (`n + 1`), gives its renderbuffer `n + 2` a 512 x 512 storage, and returns with
framebuffer 0 bound, but it attaches no depth renderbuffer to any framebuffer. The
three other stages do attach one: the correction stage its renderbuffer `n + 1`, sized
512 x 512, to the framebuffer `n` it draws into, the irradiance stage and the prefilter
stage their renderbuffer `n + 2`, first sized 32 x 32 and 128 x 128, to the framebuffer
`n + 1` they draw into; all return with framebuffer 0 bound. -/
theorem integrateBRDF_no_depth_attachment (app : App) (env : Env) (c n : Nat) :
    (Framebuffers.initial.after ((integrateBRDF app env).trace n)).drawn = [n + 1] ∧
    (Framebuffers.initial.after ((integrateBRDF app env).trace n)).storage
      = [(n + 2, (512, 512))] ∧
    (Framebuffers.initial.after ((integrateBRDF app env).trace n)).depth = [] ∧
    (Framebuffers.initial.after ((integrateBRDF app env).trace n)).depthOf (n + 1) = 0 ∧
    (Framebuffers.initial.after ((integrateBRDF app env).trace n)).framebuffer = 0 ∧
    (Framebuffers.initial.after ((loadCorrectedEnvTexture app env).trace n)).drawn
      = List.replicate 6 n ∧
    (Framebuffers.initial.after ((loadCorrectedEnvTexture app env).trace n)).storage
      = [(n + 1, (512, 512))] ∧
    (Framebuffers.initial.after ((loadCorrectedEnvTexture app env).trace n)).depth
      = [(n, n + 1)] ∧
    (Framebuffers.initial.after ((loadCorrectedEnvTexture app env).trace n)).framebuffer = 0 ∧
    (Framebuffers.initial.after ((computeIrradianceMap app env c).trace n)).drawn
      = List.replicate 6 (n + 1) ∧
    (Framebuffers.initial.after ((computeIrradianceMap app env c).trace n)).storage
      = [(n + 2, (32, 32))] ∧
    (Framebuffers.initial.after ((computeIrradianceMap app env c).trace n)).depth
      = [(n + 1, n + 2)] ∧
    (Framebuffers.initial.after ((computeIrradianceMap app env c).trace n)).framebuffer = 0 ∧
    (Framebuffers.initial.after ((prefilterEnvironmentMap app env c).trace n)).drawn
      = List.replicate 30 (n + 1) ∧
    (Framebuffers.initial.after ((prefilterEnvironmentMap app env c).trace n)).storage.getLast?
      = some (n + 2, (128, 128)) ∧
    (Framebuffers.initial.after ((prefilterEnvironmentMap app env c).trace n)).depth
      = [(n + 1, n + 2)] ∧
    (Framebuffers.initial.after ((prefilterEnvironmentMap app env c).trace n)).framebuffer
      = 0 := by
  have hcorr : (Framebuffers.initial.after ((loadCorrectedEnvTexture app env).trace n))
      = ⟨0, n + 1, [(n + 1, (512, 512))], [(n, n + 1)], List.replicate 6 n⟩ := by
    cases app
    cases env
    rename_i img
    cases ‹Bool›
    · rfl
    · cases img with
      | none => rfl
      | some wh => cases wh; rfl
  rw [hcorr]
  refine ⟨by rfl, by rfl, by rfl, by rfl, by rfl, rfl, rfl, rfl, rfl, by rfl, by rfl, by rfl,
    by rfl, by rfl, by rfl, by rfl, by rfl⟩

/-! ## C22 -/

theorem GLM.index_inv {α : Type} {tb : Table} {v : List α} {i : Int} {n n1 : Nat} {x : α}
    {t : List Ev} (h : GLM.index tb v i n = .ok (x, t, n1)) : at? v i = some x ∧ n1 = n := by
  unfold GLM.index at h
  cases hv : at? v i with
  | none => simp [hv] at h
  | some y =>
    simp only [hv] at h
    cases h
    exact ⟨rfl, rfl⟩

theorem vao_init_steady (model : Model) (p : Primitive) (bo : List Nat) (str : String)
    (index : Nat) :
    Steady (vao_init model p bo str index) := by
  unfold vao_init
  repeat first
    | with_reducible exact steady_pure _
    | with_reducible exact steady_emit _
    | with_reducible exact steady_index _ _ _
    | with_reducible apply steady_bind
    | intro _
    | split
    | dsimp only

theorem initPrimitive_steady (model : Model) (bo vaos : List Nat) (i offset k : Nat) :
    Steady (initPrimitive model bo vaos i offset k) := by
  unfold initPrimitive
  repeat first
    | with_reducible exact steady_pure _
    | with_reducible exact steady_emit _
    | with_reducible exact steady_index _ _ _
    | with_reducible exact vao_init_steady _ _ _ _ _
    | with_reducible apply steady_bind
    | with_reducible apply steady_ite
    | intro _
    | dsimp only

/-- What a successful `initMesh` returns, for a mesh table position that keeps the number
of vertex arrays below `2^31`. -/
theorem initMesh_inv {model : Model} {bo : List Nat} {i : Nat} {st st1 : VaoTables}
    {n n1 : Nat} {t : List Ev} (h : initMesh model bo i st n = .ok (st1, t, n1)) :
    ∃ mesh, model.meshes[i]? = some mesh ∧ i < st.meshIndexToVaoRange.length ∧
      (st.vertexArrayObjects.length + mesh.primitives.length < 2 ^ 31 →
        st1.vertexArrayObjects.length = st.vertexArrayObjects.length + mesh.primitives.length ∧
        st1.meshIndexToVaoRange = st.meshIndexToVaoRange.set i
          ⟨st.vertexArrayObjects.length, mesh.primitives.length⟩) := by
  unfold initMesh at h
  dsimp only at h
  obtain ⟨mesh, t1, m1, u1, h1, ha, _⟩ := GLM.bind_inv h
  obtain ⟨hm, e1⟩ := GLM.index_inv h1
  rw [e1] at ha
  obtain ⟨r0, t2, m2, u2, h2, hb, _⟩ := GLM.bind_inv ha
  obtain ⟨hr0, e2⟩ := GLM.index_inv h2
  rw [e2] at hb
  obtain ⟨r1, t3, m3, u3, h3, hc, _⟩ := GLM.bind_inv hb
  obtain ⟨hr1, e3⟩ := GLM.index_inv h3
  rw [e3] at hc
  obtain ⟨names, t4, m4, u4, h4, hd, _⟩ := GLM.bind_inv hc
  cases h4
  obtain ⟨_, t5, m5, u5, h5, he, _⟩ := GLM.bind_inv hd
  cases h5
  obtain ⟨_, t6, m6, u6, h6, hf, _⟩ := GLM.bind_inv he
  cases hf
  rw [at?_natCast] at hm hr0
  have hi : i < st.meshIndexToVaoRange.length := by
    rcases Nat.lt_or_ge i st.meshIndexToVaoRange.length with hlt | hge
    · exact hlt
    · rw [List.getElem?_eq_none hge] at hr0; cases hr0
  refine ⟨mesh, hm, hi, fun hs => ?_⟩
  have hL : mesh.primitives.length < 2 ^ 31 := by omega
  have hO : st.vertexArrayObjects.length < 2 ^ 31 := by omega
  have hr0v : r0 = st.meshIndexToVaoRange[i] := by
    rw [List.getElem?_eq_getElem hi] at hr0
    cases hr0
    rfl
  have hr1v : r1 = { r0 with begin := toGLsizei st.vertexArrayObjects.length } := by
    rw [at?_natCast] at hr1
    simp only [List.getElem?_set_self hi] at hr1
    cases hr1
    rfl
  have hvaos : writeAt (resize st.vertexArrayObjects
      (addSizeT st.vertexArrayObjects.length mesh.primitives.length) 0)
      st.vertexArrayObjects.length ((List.range mesh.primitives.length).map (fun j => n + j))
      = st.vertexArrayObjects ++ (List.range mesh.primitives.length).map (fun j => n + j) := by
    rw [addSizeT_small _ _ (by omega), resize_grow]
    have := writeAt_end st.vertexArrayObjects
      ((List.range mesh.primitives.length).map (fun j => n + j))
    simpa using this
  constructor
  · simp only [toGLsizei_small _ hL, genCount_natCast, hvaos, List.length_append,
      List.length_map, List.length_range]
  · simp only [hr1v, toGLsizei_small _ hL, toGLsizei_small _ hO, List.set_set]

/-- The tables a successful mesh loop of `createVertexArrayObjects` leaves, for a model with
fewer than `2^31` primitives. -/
theorem meshLoop_inv (model : Model) (bo : List Nat) (hsmall : totalPrimitives model < 2 ^ 31) :
    ∀ (count i : Nat) (st st1 : VaoTables) (n n1 : Nat) (t : List Ev),
      i + count = model.meshes.length →
      st.meshIndexToVaoRange.length = model.meshes.length →
      st.vertexArrayObjects.length = primitivesBefore model i →
      loopFrom (initMesh model bo) count i st n = .ok (st1, t, n1) →
      st1.vertexArrayObjects.length = totalPrimitives model ∧
      st1.meshIndexToVaoRange.length = model.meshes.length ∧
      (∀ j, j < i → st1.meshIndexToVaoRange[j]? = st.meshIndexToVaoRange[j]?) ∧
      (∀ j mesh, i ≤ j → model.meshes[j]? = some mesh → st1.meshIndexToVaoRange[j]? =
        some (⟨primitivesBefore model j, mesh.primitives.length⟩ : VaoRange)) := by
  intro count
  induction count with
  | zero =>
    intro i st st1 n n1 t hi hr hv h
    have hi2 : i = model.meshes.length := by omega
    cases h
    refine ⟨?_, hr, fun _ _ => rfl, ?_⟩
    · rw [hv, hi2, primitivesBefore_length]
    · intro j mesh hj hm
      have : j < model.meshes.length := by
        rcases Nat.lt_or_ge j model.meshes.length with h | h
        · exact h
        · rw [List.getElem?_eq_none h] at hm; cases hm
      omega
  | succ c ih =>
    intro i st st1 n n1 t hi hr hv h
    simp only [loopFrom] at h
    obtain ⟨st2, t1, m1, t2, h1, h2, _⟩ := GLM.bind_inv h
    obtain ⟨mesh, hm, hlt, hshape⟩ := initMesh_inv h1
    have hpb := primitivesBefore_succ model i mesh hm
    have hle := primitivesBefore_le_total model (i + 1)
    obtain ⟨hlen2, hr2⟩ := hshape (by omega)
    obtain ⟨hv3, hr3, hlow, hhigh⟩ := ih (i + 1) st2 st1 m1 n1 t2 (by omega)
      (by rw [hr2, List.length_set]; exact hr) (by rw [hlen2, hv, hpb]) h2
    refine ⟨hv3, hr3, ?_, ?_⟩
    · intro j hj
      rw [hlow j (by omega), hr2, List.getElem?_set_ne (by omega)]
    · intro j mesh2 hj hmj
      rcases Nat.eq_or_lt_of_le hj with heq | hgt
      · subst heq
        rw [hm] at hmj
        cases hmj
        rw [hlow i (by omega), hr2, List.getElem?_set_self hlt, hv]
      · exact hhigh j mesh2 (by omega) hmj

/-- The tables a successful `createVertexArrayObjects` returns, for a model with fewer than
`2^31` primitives. -/
theorem createVertexArrayObjects_inv (model : Model) (bo : List Nat) (r0 : List VaoRange)
    (n : Nat) (st : VaoTables) (hsmall : totalPrimitives model < 2 ^ 31)
    (h : (createVertexArrayObjects model bo r0).result n = some st) :
    st.vertexArrayObjects.length = totalPrimitives model ∧
    st.meshIndexToVaoRange.length = model.meshes.length ∧
    ∀ (j : Nat) (mesh : Mesh), model.meshes[j]? = some mesh → st.meshIndexToVaoRange[j]? =
      some (⟨primitivesBefore model j, mesh.primitives.length⟩ : VaoRange) := by
  obtain ⟨t, n1, hrun⟩ := (result_eq_some_iff _ _ _).mp h
  unfold createVertexArrayObjects at hrun
  obtain ⟨st2, t1, m1, t2, h1, h2, _⟩ := GLM.bind_inv hrun
  obtain ⟨_, t3, m3, t4, h3, h4, _⟩ := GLM.bind_inv h2
  cases h4
  obtain ⟨hv, hr, _, hhigh⟩ := meshLoop_inv model bo hsmall model.meshes.length 0 _ _ _ _ _
    (by omega) (resize_length _ _ _) (by simp [primitivesBefore]) h1
  exact ⟨hv, hr, fun j mesh hm => hhigh j mesh (Nat.zero_le j) hm⟩

theorem toSizeT_natCast (k : Nat) (h : k < 2 ^ 64) : toSizeT (k : Int) = k := by
  unfold toSizeT
  have h2 : ((k : Int)) % 2 ^ 64 = (k : Int) :=
    Int.emod_eq_of_lt (Int.ofNat_nonneg k) (by exact_mod_cast h)
  rw [h2]
  exact Int.toNat_ofNat k

/-- C22 (amended): for every model with fewer than `2^31` primitives in total, when
`createVertexArrayObjects` returns, the list it returns has exactly as many handles as the
model has primitives, there is a range for every mesh, and for every mesh index `m` of the
model and every `i` below the loop bound `range[m].count` of `drawNode`, both
`range[m].begin + i < vertexArrayObjects.size()` and `i < meshes[m].primitives.size()`
hold: the primitive lookup and the vertex array lookup of the primitive loop are in
range. -/
theorem vao_lookups_in_range (model : Model) (bo : List Nat) (r0 : List VaoRange) (n : Nat)
    (st : VaoTables) (hsmall : totalPrimitives model < 2 ^ 31)
    (hres : (createVertexArrayObjects model bo r0).result n = some st) :
    st.vertexArrayObjects.length = totalPrimitives model ∧
    st.meshIndexToVaoRange.length = model.meshes.length ∧
    ∀ (m : Nat) (mesh : Mesh) (range : VaoRange), model.meshes[m]? = some mesh →
      st.meshIndexToVaoRange[m]? = some range →
      ∀ i : Nat, i < toSizeT range.count →
        range.begin + (i : Int) < (st.vertexArrayObjects.length : Int) ∧
        i < mesh.primitives.length ∧
        (at? mesh.primitives (i : Int)).isSome = true ∧
        (at? st.vertexArrayObjects (addSizeT (toSizeT range.begin) i)).isSome = true := by
  obtain ⟨hv, hr, hranges⟩ := createVertexArrayObjects_inv model bo r0 n st hsmall hres
  refine ⟨hv, hr, ?_⟩
  intro m mesh range hm hrange i hi
  rw [hranges m mesh hm] at hrange
  cases hrange
  have hpb := primitivesBefore_succ model m mesh hm
  have hle := primitivesBefore_le_total model (m + 1)
  simp only at hi ⊢
  rw [toSizeT_natCast _ (by omega)] at hi
  rw [toSizeT_natCast _ (by omega), addSizeT_small _ _ (by omega), at?_natCast, at?_natCast]
  refine ⟨by omega, hi, ?_, ?_⟩
  · rw [List.getElem?_eq_getElem hi]
    rfl
  · rw [List.getElem?_eq_getElem (by omega)]
    rfl

set_option maxRecDepth 100000 in
/-- C22, witness: the sample scene has 3 primitives; its tables are the vertex arrays 10, 11,
12 and the ranges (begin 0, count 2) and (begin 2, count 1). -/
theorem vao_lookups_in_range_witness :
    totalPrimitives sampleModel < 2 ^ 31 ∧
    (createVertexArrayObjects sampleModel [7] []).result 10
      = some ⟨[10, 11, 12], [⟨0, 2⟩, ⟨2, 1⟩]⟩ ∧
    ([10, 11, 12] : List Nat).length = totalPrimitives sampleModel ∧
    ∀ (m : Nat) (mesh : Mesh) (range : VaoRange), sampleModel.meshes[m]? = some mesh →
      ([⟨0, 2⟩, ⟨2, 1⟩] : List VaoRange)[m]? = some range →
      ∀ i : Nat, i < toSizeT range.count →
        range.begin + (i : Int) < (([10, 11, 12] : List Nat).length : Int) ∧
        i < mesh.primitives.length ∧
        (at? mesh.primitives (i : Int)).isSome = true ∧
        (at? ([10, 11, 12] : List Nat) (addSizeT (toSizeT range.begin) i)).isSome = true :=
  ⟨by decide, by decide,
    (vao_lookups_in_range sampleModel [7] [] 10 ⟨[10, 11, 12], [⟨0, 2⟩, ⟨2, 1⟩]⟩ (by decide)
      (by decide)).1,
    (vao_lookups_in_range sampleModel [7] [] 10 ⟨[10, 11, 12], [⟨0, 2⟩, ⟨2, 1⟩]⟩ (by decide)
      (by decide)).2.2⟩

/-- C22, counterexample: for the mesh with `2^31` primitives the list has `2^31` entries and
the recorded count is `-2147483648`, which the loop of `drawNode` compares as the `size_t`
value `2^64 - 2^31`: `i = 2^31` is below the loop bound, but neither below the number of
primitives nor, added to `begin = 0`, below the size of the list. -/
theorem vao_lookups_in_range_counterexample :
    hugeModel.meshes.map (fun m => m.primitives.length) = [2147483648] ∧
    ((createVertexArrayObjects hugeModel [] []).result 1).map
      (fun st => (st.vertexArrayObjects.length, st.meshIndexToVaoRange))
      = some (2147483648, [⟨0, -2147483648⟩]) ∧
    toSizeT (-2147483648) = 18446744071562067968 ∧
    (2147483648 : Nat) < toSizeT (-2147483648) ∧
    ¬ ((0 : Int) + ((2147483648 : Nat) : Int) < ((2147483648 : Nat) : Int)) ∧
    ¬ ((2147483648 : Nat) < 2147483648) := by
  refine ⟨?_, ?_, by decide, by decide, by decide, by decide⟩
  · show [(List.replicate hugeCount barePrimitive).length] = [2147483648]
    rw [List.length_replicate]
    rfl
  · rw [createVertexArrayObjects_huge 1]
    show some ((List.replicate hugeCount 0).length, _) = _
    rw [List.length_replicate]
    rfl

/-! ## C23 -/

set_option maxRecDepth 100000 in
/-- C23 (code evaluated at the failing input): in `crossedModel` texture 0 shows image 1;
`createTextureObjects` gives the two textures the names 20 and 21, and for the material
whose base colour texture index is 0, with all toggles on, `bindMaterial` reads
`textureObjects[1]` and binds the name 21 of texture 1 on unit 0, not the name 20 of texture
0. In `singleTextureModel`, whose only texture shows image 1, the lookup `textureObjects[1]`
is out of range. -/
theorem bindMaterial_base_colour_by_image :
    (createTextureObjects crossedModel).result 20 = some [20, 21] ∧
    texturedResources.textureObjects = [20, 21] ∧
    (crossedModel.materials[0]?).map
      (fun m => m.pbrMetallicRoughness.baseColorTexture.index) = some 0 ∧
    (crossedModel.textures[0]?).map (fun t => t.source) = some 1 ∧
    sampleFeatures.featureTexture = true ∧
    (bindMaterial crossedModel sampleLocations sampleFeatures texturedResources 0).result 1
      = some () ∧
    ((bindMaterial crossedModel sampleLocations sampleFeatures texturedResources 0).trace
      1).filter isTextureRead
      = [.read .textures 0, .read .textureObjects 1, .read .textureObjects 1,
         .read .textureObjects 1, .read .textureObjects 0, .read .textureObjects 1] ∧
    (TextureUnits.initial.after
      ((bindMaterial crossedModel sampleLocations sampleFeatures texturedResources 0).trace 1)
      ).boundAt GL_TEXTURE0 GL_TEXTURE_2D = 21 ∧
    (createTextureObjects singleTextureModel).result 20 = some [20] ∧
    singleTextureResources.textureObjects = [20] ∧
    (singleTextureModel.textures[0]?).map (fun t => t.source) = some 1 ∧
    (bindMaterial singleTextureModel sampleLocations sampleFeatures singleTextureResources
      0).fault? 1 = some (.outOfRange .textureObjects 1) := by
  decide

end GltfViewer
